import Mathlib

set_option linter.unusedVariables false
set_option linter.unreachableTactic false
set_option linter.unusedTactic false

/-!
Verification of the qemud remote-dispatch layer (src/qemud/remote.c).

The file shallowly embeds the dispatcher `remoteDispatchClientRequest`, the
error-reply builder `remoteDispatchSendError`, the per-procedure handlers and
the object-reference helpers of src/qemud/remote.c.  The hypervisor library,
the SASL library and the allocator are opaque collaborators; they are modelled
by oracle records whose fields give the result of each call.  Machine `int`s
are modelled by `Int`, with explicit two's-complement wrapping (`wrap32`)
exactly where the C source performs 32-bit arithmetic that can overflow.

Constants from headers that are not part of src (remote_protocol.x,
libvirt.h, virterror.h, sasl.h) are modelled from the spec; their concrete
numeric values are immaterial to every theorem below — only their
distinctness and identities are used.
-/

/-! ## Protocol constants (modelled from the spec, §6; the values live in
remote_protocol.x / libvirt headers which are not under src). -/

def REMOTE_PROGRAM : Nat := 0x20008086
def REMOTE_PROTOCOL_VERSION : Nat := 1

def REMOTE_CALL : Nat := 0
def REMOTE_REPLY : Nat := 1
def REMOTE_OK : Nat := 0
def REMOTE_ERROR : Nat := 1

def REMOTE_AUTH_NONE : Nat := 0
def REMOTE_AUTH_SASL : Nat := 1

def REMOTE_DOMAIN_NAME_LIST_MAX : Int := 1024
def REMOTE_DOMAIN_ID_LIST_MAX : Int := 16384
def REMOTE_NETWORK_NAME_LIST_MAX : Int := 256
def REMOTE_VCPUINFO_MAX : Int := 2048
def REMOTE_CPUMAPS_MAX : Int := 16384
def REMOTE_CPUMAP_MAX : Int := 256
def REMOTE_DOMAIN_SCHEDULER_PARAMETERS_MAX : Int := 16
def REMOTE_AUTH_SASL_DATA_MAX : Nat := 65536

def VIR_UUID_BUFLEN : Nat := 16
def VIR_DOMAIN_SCHED_FIELD_LENGTH : Nat := 80
def VIR_CONNECT_RO : Nat := 1

def VIR_DOMAIN_SCHED_FIELD_INT : Int := 1
def VIR_DOMAIN_SCHED_FIELD_UINT : Int := 2
def VIR_DOMAIN_SCHED_FIELD_LLONG : Int := 3
def VIR_DOMAIN_SCHED_FIELD_ULLONG : Int := 4
def VIR_DOMAIN_SCHED_FIELD_DOUBLE : Int := 5
def VIR_DOMAIN_SCHED_FIELD_BOOLEAN : Int := 6

def SASL_OK : Int := 0
def SASL_CONTINUE : Int := 1

def VIR_ERR_RPC : Int := 29
def VIR_ERR_AUTH_FAILED : Int := 45
def VIR_ERR_NO_MEMORY : Int := 2
def VIR_FROM_REMOTE : Int := 13
def VIR_ERR_ERROR : Int := 2

/-! ## Procedure numbers (modelled from the spec, §6; the numbering lives in
remote_protocol.x which is not under src — only distinctness, and which
numbers denote OPEN and the four AUTH procedures, matter). -/

def REMOTE_PROC_OPEN : Nat := 1
def REMOTE_PROC_CLOSE : Nat := 2
def REMOTE_PROC_GET_TYPE : Nat := 3
def REMOTE_PROC_GET_VERSION : Nat := 4
def REMOTE_PROC_GET_MAX_VCPUS : Nat := 5
def REMOTE_PROC_NODE_GET_INFO : Nat := 6
def REMOTE_PROC_GET_CAPABILITIES : Nat := 7
def REMOTE_PROC_DOMAIN_ATTACH_DEVICE : Nat := 8
def REMOTE_PROC_DOMAIN_CREATE : Nat := 9
def REMOTE_PROC_DOMAIN_CREATE_LINUX : Nat := 10
def REMOTE_PROC_DOMAIN_DEFINE_XML : Nat := 11
def REMOTE_PROC_DOMAIN_DESTROY : Nat := 12
def REMOTE_PROC_DOMAIN_DETACH_DEVICE : Nat := 13
def REMOTE_PROC_DOMAIN_DUMP_XML : Nat := 14
def REMOTE_PROC_DOMAIN_GET_AUTOSTART : Nat := 15
def REMOTE_PROC_DOMAIN_GET_INFO : Nat := 16
def REMOTE_PROC_DOMAIN_GET_MAX_MEMORY : Nat := 17
def REMOTE_PROC_DOMAIN_GET_MAX_VCPUS : Nat := 18
def REMOTE_PROC_DOMAIN_GET_OS_TYPE : Nat := 19
def REMOTE_PROC_DOMAIN_GET_VCPUS : Nat := 20
def REMOTE_PROC_DOMAIN_LOOKUP_BY_ID : Nat := 21
def REMOTE_PROC_DOMAIN_LOOKUP_BY_NAME : Nat := 22
def REMOTE_PROC_DOMAIN_LOOKUP_BY_UUID : Nat := 23
def REMOTE_PROC_NUM_OF_DOMAINS : Nat := 24
def REMOTE_PROC_DOMAIN_PIN_VCPU : Nat := 25
def REMOTE_PROC_DOMAIN_REBOOT : Nat := 26
def REMOTE_PROC_DOMAIN_RESTORE : Nat := 27
def REMOTE_PROC_DOMAIN_RESUME : Nat := 28
def REMOTE_PROC_DOMAIN_SAVE : Nat := 29
def REMOTE_PROC_DOMAIN_CORE_DUMP : Nat := 30
def REMOTE_PROC_DOMAIN_SET_AUTOSTART : Nat := 31
def REMOTE_PROC_DOMAIN_SET_MAX_MEMORY : Nat := 32
def REMOTE_PROC_DOMAIN_SET_MEMORY : Nat := 33
def REMOTE_PROC_DOMAIN_SET_VCPUS : Nat := 34
def REMOTE_PROC_DOMAIN_SHUTDOWN : Nat := 35
def REMOTE_PROC_DOMAIN_SUSPEND : Nat := 36
def REMOTE_PROC_DOMAIN_UNDEFINE : Nat := 37
def REMOTE_PROC_LIST_DEFINED_DOMAINS : Nat := 38
def REMOTE_PROC_LIST_DOMAINS : Nat := 39
def REMOTE_PROC_LIST_NETWORKS : Nat := 40
def REMOTE_PROC_LIST_DEFINED_NETWORKS : Nat := 41
def REMOTE_PROC_NUM_OF_DEFINED_DOMAINS : Nat := 42
def REMOTE_PROC_NETWORK_CREATE : Nat := 43
def REMOTE_PROC_NETWORK_CREATE_XML : Nat := 44
def REMOTE_PROC_NETWORK_DEFINE_XML : Nat := 45
def REMOTE_PROC_NETWORK_DESTROY : Nat := 46
def REMOTE_PROC_NETWORK_DUMP_XML : Nat := 47
def REMOTE_PROC_NETWORK_GET_AUTOSTART : Nat := 48
def REMOTE_PROC_NETWORK_GET_BRIDGE_NAME : Nat := 49
def REMOTE_PROC_NETWORK_LOOKUP_BY_NAME : Nat := 50
def REMOTE_PROC_NETWORK_LOOKUP_BY_UUID : Nat := 51
def REMOTE_PROC_NETWORK_SET_AUTOSTART : Nat := 52
def REMOTE_PROC_NETWORK_UNDEFINE : Nat := 53
def REMOTE_PROC_NUM_OF_DEFINED_NETWORKS : Nat := 54
def REMOTE_PROC_NUM_OF_NETWORKS : Nat := 55
def REMOTE_PROC_DOMAIN_GET_SCHEDULER_TYPE : Nat := 56
def REMOTE_PROC_DOMAIN_GET_SCHEDULER_PARAMETERS : Nat := 57
def REMOTE_PROC_DOMAIN_SET_SCHEDULER_PARAMETERS : Nat := 58
def REMOTE_PROC_GET_HOSTNAME : Nat := 59
def REMOTE_PROC_SUPPORTS_FEATURE : Nat := 60
def REMOTE_PROC_DOMAIN_MIGRATE_PREPARE : Nat := 61
def REMOTE_PROC_DOMAIN_MIGRATE_PERFORM : Nat := 62
def REMOTE_PROC_DOMAIN_MIGRATE_FINISH : Nat := 63
def REMOTE_PROC_DOMAIN_BLOCK_STATS : Nat := 64
def REMOTE_PROC_DOMAIN_INTERFACE_STATS : Nat := 65
def REMOTE_PROC_AUTH_LIST : Nat := 66
def REMOTE_PROC_AUTH_SASL_INIT : Nat := 67
def REMOTE_PROC_AUTH_SASL_START : Nat := 68
def REMOTE_PROC_AUTH_SASL_STEP : Nat := 69

/-- Two's-complement wrapping of an integer to a signed 32-bit value; used
exactly where the C source performs `int` arithmetic that can overflow. -/
def wrap32 (x : Int) : Int :=
  (x + 2 ^ 31) % 2 ^ 32 - 2 ^ 31

/-! ## Wire and library data types -/

/-- The RPC envelope (remote_message_header). -/
structure MessageHeader where
  prog : Nat
  vers : Nat
  proc : Nat
  direction : Nat
  serial : Nat
  status : Nat
  deriving Repr, DecidableEq

/-- Wire form of a non-null domain reference (remote_nonnull_domain). -/
structure DomainRef where
  name : String
  uuid : List Nat
  id : Int
  deriving Repr, DecidableEq

/-- Wire form of a non-null network reference (remote_nonnull_network). -/
structure NetworkRef where
  name : String
  uuid : List Nat
  deriving Repr, DecidableEq

/-- A live domain handle (virDomainPtr) as the dispatcher sees it. -/
structure DomainH where
  name : String
  uuid : List Nat
  id : Int
  deriving Repr, DecidableEq

/-- A live network handle (virNetworkPtr) as the dispatcher sees it. -/
structure NetworkH where
  name : String
  uuid : List Nat
  deriving Repr, DecidableEq

/-- The hypervisor library's last-error record (virError), as consumed by
the dispatcher when a handler returns the library-error code. -/
structure VirtError where
  code : Int
  domain : Int
  message : Option String
  level : Int
  dom : Option DomainH
  str1 : Option String
  str2 : Option String
  str3 : Option String
  int1 : Int
  int2 : Int
  net : Option NetworkH
  deriving Repr, DecidableEq

/-- The wire error record (remote_error), the body of a status=ERROR reply. -/
structure RError where
  code : Int
  domain : Int
  message : Option String
  level : Int
  dom : Option DomainRef
  str1 : Option String
  str2 : Option String
  str3 : Option String
  int1 : Int
  int2 : Int
  net : Option NetworkRef
  deriving Repr, DecidableEq

/-- One arm of the scheduler-parameter tagged union (remote_sched_param_value).
Each arm carries the raw bits of its payload; all the dispatcher ever does
with a payload is copy it verbatim. -/
inductive SchedValue where
  | i (v : Nat)
  | ui (v : Nat)
  | l (v : Nat)
  | ul (v : Nat)
  | d (v : Nat)
  | b (v : Nat)
  deriving Repr, DecidableEq

/-- The library-side scheduler-parameter value (the union inside
virSchedParameter).  A C union is modelled as a record of all its members;
the handler reads the member selected by the parameter's type tag. -/
structure LibSchedVal where
  i : Nat
  ui : Nat
  l : Nat
  ul : Nat
  d : Nat
  b : Nat
  deriving Repr, DecidableEq

/-- A library-side scheduler parameter (virSchedParameter): the type tag is a
plain integer and may lie outside the six known arms. -/
structure LibSchedParam where
  field : String
  ptype : Int
  pvalue : LibSchedVal
  deriving Repr, DecidableEq

/-- Node information struct (virNodeInfo). -/
structure NodeInfoS where
  model : String
  memory : Nat
  cpus : Nat
  mhz : Nat
  nodes : Nat
  sockets : Nat
  cores : Nat
  threads : Nat
  deriving Repr, DecidableEq

/-- Domain information struct (virDomainInfo). -/
structure DomInfoS where
  state : Nat
  maxMem : Nat
  memory : Nat
  nrVirtCpu : Nat
  cpuTime : Nat
  deriving Repr, DecidableEq

/-- Block statistics struct (virDomainBlockStats). -/
structure BlockStatsS where
  rd_req : Int
  rd_bytes : Int
  wr_req : Int
  wr_bytes : Int
  errs : Int
  deriving Repr, DecidableEq

/-- Interface statistics struct (virDomainInterfaceStats). -/
structure IfaceStatsS where
  rx_bytes : Int
  rx_packets : Int
  rx_errs : Int
  rx_drop : Int
  tx_bytes : Int
  tx_packets : Int
  tx_errs : Int
  tx_drop : Int
  deriving Repr, DecidableEq

/-- One vCPU information record (virVcpuInfo). -/
structure VcpuInfoS where
  number : Nat
  state : Nat
  cpuTime : Nat
  cpu : Int
  deriving Repr, DecidableEq

/-! ## Observable events, reply messages, session state -/

/-- Observable side effects of one dispatch: hypervisor-library invocations,
per-call handle acquisitions/releases, allocations sized by request- or
library-derived counts, and SASL-library activity. -/
inductive Event where
  | hv (name : String)
  | openCall (flags : Nat) (readonlyVariant : Bool)
  | acquireDomain
  | freeDomain
  | acquireNetwork
  | freeNetwork
  | alloc (count : Int)
  | saslCall (name : String) (input : Option (List Nat))
  | saslDispose
  deriving Repr, DecidableEq

/-- Return bodies, one constructor per distinct wire return shape the
handlers in src produce. -/
inductive RetVal where
  | void
  | supported (v : Int)
  | str (s : String)
  | hvVer (v : Nat)
  | maxv (v : Int)
  | node (n : NodeInfoS)
  | schedType (t : String) (nparams : Int)
  | schedParams (ps : List (String × SchedValue))
  | blockStats (s : BlockStatsS)
  | ifaceStats (s : IfaceStatsS)
  | domain (d : DomainRef)
  | autostart (v : Int)
  | domInfo (i : DomInfoS)
  | memory (m : Nat)
  | vcpus (info : List VcpuInfoS) (cpumapsLen : Int) (cpumaps : List Nat)
  | migratePrepare (cookie : List Nat) (uriOut : Option String)
  | names (ns : List String)
  | ids (is : List Int)
  | num (n : Int)
  | network (n : NetworkRef)
  | authTypes (ts : List Nat)
  | mechlist (s : String)
  | sasl (complete : Int) (nil : Bool) (data : List Nat)
  deriving Repr, DecidableEq

/-- Decoded argument bodies, one constructor per distinct wire argument
shape the handlers in src consume. -/
inductive ArgsVal where
  | voidA
  | openA (name : Option String) (flags : Nat)
  | featureA (feature : Int)
  | typedNameA (type : Option String)
  | domA (dom : DomainRef)
  | domStrA (dom : DomainRef) (s : String)
  | domUintA (dom : DomainRef) (v : Nat)
  | domIntA (dom : DomainRef) (v : Int)
  | domStrUintA (dom : DomainRef) (s : String) (flags : Nat)
  | strA (s : String)
  | strUintA (s : String) (flags : Nat)
  | uuidA (uuid : List Nat)
  | intA (v : Int)
  | maxA (n : Int)
  | getSchedParamsA (dom : DomainRef) (nparams : Int)
  | setSchedParamsA (dom : DomainRef) (params : List (String × SchedValue))
  | getVcpusA (dom : DomainRef) (maxinfo : Int) (maplen : Int)
  | pinVcpuA (dom : DomainRef) (vcpu : Int) (cpumap : List Nat)
  | migratePrepareA (uriIn : Option String) (flags : Nat) (dname : Option String) (resource : Nat)
  | migratePerformA (dom : DomainRef) (cookie : List Nat) (uri : String) (flags : Nat)
      (dname : Option String) (resource : Nat)
  | migrateFinishA (dname : String) (cookie : List Nat) (uri : String) (flags : Nat)
  | netA (net : NetworkRef)
  | netUintA (net : NetworkRef) (v : Nat)
  | netIntA (net : NetworkRef) (v : Int)
  | saslStartA (mech : String) (nil : Bool) (data : List Nat)
  | saslStepA (nil : Bool) (data : List Nat)
  deriving Repr, DecidableEq

/-- Body of a reply message. -/
inductive RBody where
  | ok (r : RetVal)
  | err (e : RError)
  deriving Repr, DecidableEq

/-- A framed reply message written into the session's transmit buffer. -/
structure RMsg where
  hdr : MessageHeader
  body : RBody
  deriving Repr, DecidableEq

/-- Per-client session state (the fields of struct qemud_client the
dispatcher reads or writes). -/
structure Client where
  conn : Option Nat
  auth : Nat
  saslconn : Bool
  readonly : Bool
  deriving Repr, DecidableEq

/-! ## Collaborator oracles -/

/-- The SASL library and allocator oracle for one dispatch. -/
structure SaslOracle where
  localAddr : Option String
  remoteAddr : Option String
  newResult : Int
  listMech : Option String
  startErr : Int
  startOut : Option (List Nat)
  stepErr : Int
  stepOut : Option (List Nat)
  mallocOk : Bool
  deriving Repr, DecidableEq

/-- The hypervisor-library oracle for one dispatch: one field per library
entry point the handlers invoke, giving that call's result. -/
structure HvLib where
  connectOpen : Option String → Option Nat
  connectOpenReadOnly : Option String → Option Nat
  connectClose : Nat → Int
  supportsFeature : Int
  getType : Option String
  getVersion : Option Nat
  getHostname : Option String
  getMaxVcpus : Int
  nodeGetInfo : Option NodeInfoS
  getCapabilities : Option String
  getDomain : String → List Nat → Option DomainH
  getNetwork : String → List Nat → Option NetworkH
  domGetSchedType : Option (String × Int)
  domGetSchedParams : Option (List LibSchedParam)
  domSetSchedParams : Int
  domBlockStats : Option BlockStatsS
  domIfaceStats : Option IfaceStatsS
  domAttachDevice : Int
  domDetachDevice : Int
  domCreate : Int
  domCreateLinux : Option DomainH
  domDefineXml : Option DomainH
  domDestroy : Int
  domDumpXml : Option String
  domGetAutostart : Option Int
  domGetInfo : Option DomInfoS
  domGetMaxMemory : Nat
  domGetMaxVcpus : Int
  domGetOsType : Option String
  domGetVcpus : Option (List VcpuInfoS × List Nat)
  migratePrepare : Option (List Nat × Option String)
  migratePerform : Int
  migrateFinish : Option DomainH
  listDefinedDomains : Option (List String)
  lookupById : Option DomainH
  lookupByName : Option DomainH
  lookupByUuid : Option DomainH
  numOfDefinedDomains : Int
  pinVcpu : Int
  domReboot : Int
  domRestore : Int
  domResume : Int
  domSave : Int
  domCoreDump : Int
  domSetAutostart : Int
  domSetMaxMemory : Int
  domSetMemory : Int
  domSetVcpus : Int
  domShutdown : Int
  domSuspend : Int
  domUndefine : Int
  listDefinedNetworks : Option (List String)
  listDomains : Option (List Int)
  listNetworks : Option (List String)
  netCreate : Int
  netCreateXml : Option NetworkH
  netDefineXml : Option NetworkH
  netDestroy : Int
  netDumpXml : Option String
  netGetAutostart : Option Int
  netGetBridgeName : Option String
  netLookupByName : Option NetworkH
  netLookupByUuid : Option NetworkH
  netSetAutostart : Int
  netUndefine : Int
  numOfDefinedNetworks : Int
  numOfDomains : Int
  numOfNetworks : Int
  strdupOk : Bool
  schedMallocOk : Bool
  authCallocOk : Bool
  connLastError : Option VirtError
  globalLastError : Option VirtError
  sasl : SaslOracle

/-! ## Reply construction (remoteDispatchSendError and the reply path of
remoteDispatchClientRequest) -/

/-- The reply header echoing a call header, with the given status. -/
def replyHeader (req : MessageHeader) (status : Nat) : MessageHeader :=
  { prog := req.prog, vers := req.vers, proc := req.proc,
    direction := REMOTE_REPLY, serial := req.serial, status := status }

/-- The synthesised fallback header used by remoteDispatchSendError when the
call envelope could not be parsed (req == NULL). -/
def blindHeader : MessageHeader :=
  { prog := REMOTE_PROGRAM, vers := REMOTE_PROTOCOL_VERSION,
    proc := REMOTE_PROC_OPEN, direction := REMOTE_REPLY,
    serial := 1, status := REMOTE_ERROR }

/-- The error body remoteDispatchSendError constructs from a code and a
message. -/
def sendErrorBody (code : Int) (msg : String) : RError :=
  { code := code, domain := VIR_FROM_REMOTE, message := some msg,
    level := VIR_ERR_ERROR, dom := none, str1 := some msg, str2 := none,
    str3 := none, int1 := 0, int2 := 0, net := none }

/-- Embedding of remoteDispatchSendError: build a status=ERROR reply, echoing
the call envelope when it was parsed and using the synthesised fallback
envelope otherwise. -/
def remoteDispatchSendError (req : Option MessageHeader) (code : Int)
    (msg : String) : RMsg :=
  match req with
  | some r => { hdr := replyHeader r REMOTE_ERROR, body := .err (sendErrorBody code msg) }
  | none => { hdr := blindHeader, body := .err (sendErrorBody code msg) }

/-- Embedding of remoteDispatchError: a dispatch-level error reply with
code VIR_ERR_RPC. -/
def remoteDispatchErrorMsg (req : Option MessageHeader) (msg : String) : RMsg :=
  remoteDispatchSendError req VIR_ERR_RPC msg

/-- Embedding of remoteDispatchFailAuth. -/
def remoteDispatchFailAuthMsg (req : MessageHeader) : RMsg :=
  remoteDispatchSendError (some req) VIR_ERR_AUTH_FAILED "authentication failed"

/-! ## Handler plumbing -/

/-- Result of running one handler: the contract return code (0, -1 or -2),
the updated session, the events performed, any error replies the handler
itself wrote into the buffer, and the return body for the success case. -/
structure HOut where
  rv : Int
  client : Client
  events : List Event
  replies : List RMsg
  ret : RetVal
  deriving Repr, DecidableEq

/-- Handler exit: dispatch error (-2) with an already-written error reply of
the given code. -/
def herrC (c : Client) (ev : List Event) (req : MessageHeader) (code : Int)
    (msg : String) : HOut :=
  { rv := -2, client := c, events := ev,
    replies := [remoteDispatchSendError (some req) code msg], ret := .void }

/-- Handler exit: dispatch error (-2) via remoteDispatchError. -/
def herr (c : Client) (ev : List Event) (req : MessageHeader) (msg : String) : HOut :=
  herrC c ev req VIR_ERR_RPC msg

/-- Handler exit: dispatch error (-2) via remoteDispatchFailAuth. -/
def hfail (c : Client) (ev : List Event) (req : MessageHeader) : HOut :=
  { rv := -2, client := c, events := ev,
    replies := [remoteDispatchFailAuthMsg req], ret := .void }

/-- Handler exit: success (0) with a return body. -/
def hok (c : Client) (ev : List Event) (ret : RetVal) : HOut :=
  { rv := 0, client := c, events := ev, replies := [], ret := ret }

/-- Handler exit: library error (-1). -/
def hlib (c : Client) (ev : List Event) : HOut :=
  { rv := -1, client := c, events := ev, replies := [], ret := .void }

/-- Embedding of get_nonnull_domain: look the handle up through the library
by (name, uuid) and copy the advisory wire id into it. -/
def get_nonnull_domain (lib : HvLib) (d : DomainRef) :
    Option DomainH × List Event :=
  match lib.getDomain d.name d.uuid with
  | none => (none, [Event.hv "virGetDomain"])
  | some h => (some { h with id := d.id }, [Event.hv "virGetDomain", Event.acquireDomain])

/-- Embedding of get_nonnull_network. -/
def get_nonnull_network (lib : HvLib) (n : NetworkRef) :
    Option NetworkH × List Event :=
  match lib.getNetwork n.name n.uuid with
  | none => (none, [Event.hv "virGetNetwork"])
  | some h => (some h, [Event.hv "virGetNetwork", Event.acquireNetwork])

/-- Embedding of make_nonnull_domain. -/
def make_nonnull_domain (h : DomainH) : DomainRef :=
  { id := h.id, name := h.name, uuid := h.uuid }

/-- Embedding of make_nonnull_network. -/
def make_nonnull_network (h : NetworkH) : NetworkRef :=
  { name := h.name, uuid := h.uuid }

/-! ## Handlers: connection-level procedures -/

/-- Embedding of remoteDispatchOpen. -/
def remoteDispatchOpen (c : Client) (lib : HvLib) (req : MessageHeader)
    (name : Option String) (flags0 : Nat) : HOut :=
  if c.conn.isSome then herr c [] req "connection already open"
  else
    let flags := if c.readonly then flags0 ||| VIR_CONNECT_RO else flags0
    let ro := flags &&& VIR_CONNECT_RO ≠ 0
    let res := if ro then lib.connectOpenReadOnly name else lib.connectOpen name
    let ev := [Event.openCall flags ro]
    match res with
    | some h => hok { c with conn := some h } ev .void
    | none => hlib { c with conn := none } ev

/-- Embedding of remoteDispatchClose. -/
def remoteDispatchClose (c : Client) (lib : HvLib) (req : MessageHeader) : HOut :=
  match c.conn with
  | none => herr c [] req "connection not open"
  | some h =>
    let rv := lib.connectClose h
    let c2 := if rv = 0 then { c with conn := none } else c
    { rv := rv, client := c2, events := [Event.hv "virConnectClose"],
      replies := [], ret := .void }

/-- Embedding of remoteDispatchSupportsFeature. -/
def remoteDispatchSupportsFeature (c : Client) (lib : HvLib)
    (req : MessageHeader) (feature : Int) : HOut :=
  match c.conn with
  | none => herr c [] req "connection not open"
  | some _ =>
    let ev := [Event.hv "virDrvSupportsFeature"]
    if lib.supportsFeature = -1 then hlib c ev
    else hok c ev (.supported lib.supportsFeature)

/-- Embedding of remoteDispatchGetType. -/
def remoteDispatchGetType (c : Client) (lib : HvLib) (req : MessageHeader) : HOut :=
  match c.conn with
  | none => herr c [] req "connection not open"
  | some _ =>
    let ev := [Event.hv "virConnectGetType"]
    match lib.getType with
    | none => hlib c ev
    | some t =>
      if lib.strdupOk then hok c ev (.str t)
      else herr c ev req "out of memory in strdup"

/-- Embedding of remoteDispatchGetVersion. -/
def remoteDispatchGetVersion (c : Client) (lib : HvLib) (req : MessageHeader) : HOut :=
  match c.conn with
  | none => herr c [] req "connection not open"
  | some _ =>
    let ev := [Event.hv "virConnectGetVersion"]
    match lib.getVersion with
    | none => hlib c ev
    | some v => hok c ev (.hvVer v)

/-- Embedding of remoteDispatchGetHostname. -/
def remoteDispatchGetHostname (c : Client) (lib : HvLib) (req : MessageHeader) : HOut :=
  match c.conn with
  | none => herr c [] req "connection not open"
  | some _ =>
    let ev := [Event.hv "virConnectGetHostname"]
    match lib.getHostname with
    | none => hlib c ev
    | some h => hok c ev (.str h)

/-- Embedding of remoteDispatchGetMaxVcpus. -/
def remoteDispatchGetMaxVcpus (c : Client) (lib : HvLib) (req : MessageHeader)
    (type : Option String) : HOut :=
  match c.conn with
  | none => herr c [] req "connection not open"
  | some _ =>
    let ev := [Event.hv "virConnectGetMaxVcpus"]
    if lib.getMaxVcpus = -1 then hlib c ev
    else hok c ev (.maxv lib.getMaxVcpus)

/-- Embedding of remoteDispatchNodeGetInfo. -/
def remoteDispatchNodeGetInfo (c : Client) (lib : HvLib) (req : MessageHeader) : HOut :=
  match c.conn with
  | none => herr c [] req "connection not open"
  | some _ =>
    let ev := [Event.hv "virNodeGetInfo"]
    match lib.nodeGetInfo with
    | none => hlib c ev
    | some info => hok c ev (.node info)

/-- Embedding of remoteDispatchGetCapabilities. -/
def remoteDispatchGetCapabilities (c : Client) (lib : HvLib) (req : MessageHeader) : HOut :=
  match c.conn with
  | none => herr c [] req "connection not open"
  | some _ =>
    let ev := [Event.hv "virConnectGetCapabilities"]
    match lib.getCapabilities with
    | none => hlib c ev
    | some caps => hok c ev (.str caps)

/-! ## Handlers: scheduler parameters -/

/-- Embedding of remoteDispatchDomainGetSchedulerType. -/
def remoteDispatchDomainGetSchedulerType (c : Client) (lib : HvLib)
    (req : MessageHeader) (dom : DomainRef) : HOut :=
  match c.conn with
  | none => herr c [] req "connection not open"
  | some _ =>
    match get_nonnull_domain lib dom with
    | (none, ev) => herr c ev req "domain not found"
    | (some _, ev) =>
      let ev := ev ++ [Event.hv "virDomainGetSchedulerType"]
      match lib.domGetSchedType with
      | none => hlib c (ev ++ [Event.freeDomain])
      | some (t, n) => hok c (ev ++ [Event.freeDomain]) (.schedType t n)

/-- Selection of the library union member by the library-reported type tag,
as performed by the serialisation loop of
remoteDispatchDomainGetSchedulerParameters; an unknown tag has no arm. -/
def schedArmOfLib (t : Int) (v : LibSchedVal) : Option SchedValue :=
  if t = VIR_DOMAIN_SCHED_FIELD_INT then some (.i v.i)
  else if t = VIR_DOMAIN_SCHED_FIELD_UINT then some (.ui v.ui)
  else if t = VIR_DOMAIN_SCHED_FIELD_LLONG then some (.l v.l)
  else if t = VIR_DOMAIN_SCHED_FIELD_ULLONG then some (.ul v.ul)
  else if t = VIR_DOMAIN_SCHED_FIELD_DOUBLE then some (.d v.d)
  else if t = VIR_DOMAIN_SCHED_FIELD_BOOLEAN then some (.b v.b)
  else none

/-- The serialisation loop of remoteDispatchDomainGetSchedulerParameters:
strdup each field name (failure gives the out-of-memory dispatch error) and
copy the union arm selected by the type tag (an unknown tag gives the
unknown-type dispatch error). -/
def convSchedParams (strdupOk : Bool) : List LibSchedParam →
    Except String (List (String × SchedValue))
  | [] => .ok []
  | p :: rest =>
    if !strdupOk then .error "out of memory allocating return array"
    else
      match schedArmOfLib p.ptype p.pvalue with
      | none => .error "unknown type"
      | some v =>
        match convSchedParams strdupOk rest with
        | .error e => .error e
        | .ok vs => .ok ((p.field, v) :: vs)

/-- Embedding of remoteDispatchDomainGetSchedulerParameters. -/
def remoteDispatchDomainGetSchedulerParameters (c : Client) (lib : HvLib)
    (req : MessageHeader) (dom : DomainRef) (nparams : Int) : HOut :=
  match c.conn with
  | none => herr c [] req "connection not open"
  | some _ =>
    if nparams > REMOTE_DOMAIN_SCHEDULER_PARAMETERS_MAX then
      herr c [] req "nparams too large"
    else if !lib.schedMallocOk then
      herr c [Event.alloc nparams] req "out of memory allocating array"
    else
      let ev := [Event.alloc nparams]
      match get_nonnull_domain lib dom with
      | (none, ev2) => herr c (ev ++ ev2) req "domain not found"
      | (some _, ev2) =>
        let ev := ev ++ ev2 ++ [Event.hv "virDomainGetSchedulerParameters"]
        match lib.domGetSchedParams with
        | none => hlib c (ev ++ [Event.freeDomain])
        | some ps =>
          if !lib.schedMallocOk then
            herr c (ev ++ [Event.alloc (ps.length : Int), Event.freeDomain]) req
              "out of memory allocating return array"
          else
            let ev := ev ++ [Event.alloc (ps.length : Int)]
            match convSchedParams lib.strdupOk ps with
            | .error m => herr c (ev ++ [Event.freeDomain]) req m
            | .ok vs => hok c (ev ++ [Event.freeDomain]) (.schedParams vs)

/-- The type tag the deserialisation loop of
remoteDispatchDomainSetSchedulerParameters writes into the library struct
for each wire union arm. -/
def schedTagOfWire : SchedValue → Int
  | .i _ => VIR_DOMAIN_SCHED_FIELD_INT
  | .ui _ => VIR_DOMAIN_SCHED_FIELD_UINT
  | .l _ => VIR_DOMAIN_SCHED_FIELD_LLONG
  | .ul _ => VIR_DOMAIN_SCHED_FIELD_ULLONG
  | .d _ => VIR_DOMAIN_SCHED_FIELD_DOUBLE
  | .b _ => VIR_DOMAIN_SCHED_FIELD_BOOLEAN

/-- The library union member the deserialisation loop writes for each wire
union arm (the other members are left zeroed). -/
def schedLibValOfWire : SchedValue → LibSchedVal
  | .i v => { i := v, ui := 0, l := 0, ul := 0, d := 0, b := 0 }
  | .ui v => { i := 0, ui := v, l := 0, ul := 0, d := 0, b := 0 }
  | .l v => { i := 0, ui := 0, l := v, ul := 0, d := 0, b := 0 }
  | .ul v => { i := 0, ui := 0, l := 0, ul := v, d := 0, b := 0 }
  | .d v => { i := 0, ui := 0, l := 0, ul := 0, d := v, b := 0 }
  | .b v => { i := 0, ui := 0, l := 0, ul := 0, d := 0, b := v }

/-- One step of the deserialisation loop of
remoteDispatchDomainSetSchedulerParameters: strncpy truncates the field name
to VIR_DOMAIN_SCHED_FIELD_LENGTH - 1 characters (the last byte is forced to
NUL) and the union arm is copied by tag. -/
def libParamOfWire (p : String × SchedValue) : LibSchedParam :=
  { field := p.1.take (VIR_DOMAIN_SCHED_FIELD_LENGTH - 1),
    ptype := schedTagOfWire p.2,
    pvalue := schedLibValOfWire p.2 }

/-- Embedding of remoteDispatchDomainSetSchedulerParameters. -/
def remoteDispatchDomainSetSchedulerParameters (c : Client) (lib : HvLib)
    (req : MessageHeader) (dom : DomainRef)
    (params : List (String × SchedValue)) : HOut :=
  match c.conn with
  | none => herr c [] req "connection not open"
  | some _ =>
    let nparams : Int := params.length
    if nparams > REMOTE_DOMAIN_SCHEDULER_PARAMETERS_MAX then
      herr c [] req "nparams too large"
    else if !lib.schedMallocOk then
      herr c [Event.alloc nparams] req "out of memory allocating array"
    else
      let ev := [Event.alloc nparams]
      let _libParams := params.map libParamOfWire
      match get_nonnull_domain lib dom with
      | (none, ev2) => herr c (ev ++ ev2) req "domain not found"
      | (some _, ev2) =>
        let ev := ev ++ ev2 ++ [Event.hv "virDomainSetSchedulerParameters", Event.freeDomain]
        if lib.domSetSchedParams = -1 then hlib c ev
        else hok c ev .void

/-! ## Handlers: domain statistics and device operations -/

/-- Embedding of remoteDispatchDomainBlockStats.  Note: the source frees the
domain handle on no path of this handler. -/
def remoteDispatchDomainBlockStats (c : Client) (lib : HvLib)
    (req : MessageHeader) (dom : DomainRef) (path : String) : HOut :=
  match c.conn with
  | none => herr c [] req "connection not open"
  | some _ =>
    match get_nonnull_domain lib dom with
    | (none, ev) => herr c ev req "domain not found"
    | (some _, ev) =>
      let ev := ev ++ [Event.hv "virDomainBlockStats"]
      match lib.domBlockStats with
      | none => hlib c ev
      | some s => hok c ev (.blockStats s)

/-- Embedding of remoteDispatchDomainInterfaceStats.  Note: the source frees
the domain handle on no path of this handler. -/
def remoteDispatchDomainInterfaceStats (c : Client) (lib : HvLib)
    (req : MessageHeader) (dom : DomainRef) (path : String) : HOut :=
  match c.conn with
  | none => herr c [] req "connection not open"
  | some _ =>
    match get_nonnull_domain lib dom with
    | (none, ev) => herr c ev req "domain not found"
    | (some _, ev) =>
      let ev := ev ++ [Event.hv "virDomainInterfaceStats"]
      match lib.domIfaceStats with
      | none => hlib c ev
      | some s => hok c ev (.ifaceStats s)

/-- Embedding of remoteDispatchDomainAttachDevice. -/
def remoteDispatchDomainAttachDevice (c : Client) (lib : HvLib)
    (req : MessageHeader) (dom : DomainRef) (xml : String) : HOut :=
  match c.conn with
  | none => herr c [] req "connection not open"
  | some _ =>
    match get_nonnull_domain lib dom with
    | (none, ev) => herr c ev req "domain not found"
    | (some _, ev) =>
      let ev := ev ++ [Event.hv "virDomainAttachDevice", Event.freeDomain]
      if lib.domAttachDevice = -1 then hlib c ev
      else hok c ev .void

/-- Embedding of remoteDispatchDomainCreate. -/
def remoteDispatchDomainCreate (c : Client) (lib : HvLib)
    (req : MessageHeader) (dom : DomainRef) : HOut :=
  match c.conn with
  | none => herr c [] req "connection not open"
  | some _ =>
    match get_nonnull_domain lib dom with
    | (none, ev) => herr c ev req "domain not found"
    | (some _, ev) =>
      let ev := ev ++ [Event.hv "virDomainCreate", Event.freeDomain]
      if lib.domCreate = -1 then hlib c ev
      else hok c ev .void

/-- Embedding of remoteDispatchDomainCreateLinux. -/
def remoteDispatchDomainCreateLinux (c : Client) (lib : HvLib)
    (req : MessageHeader) (xml_desc : String) (flags : Nat) : HOut :=
  match c.conn with
  | none => herr c [] req "connection not open"
  | some _ =>
    let ev := [Event.hv "virDomainCreateLinux"]
    match lib.domCreateLinux with
    | none => hlib c ev
    | some d =>
      hok c (ev ++ [Event.acquireDomain, Event.freeDomain]) (.domain (make_nonnull_domain d))

/-- Embedding of remoteDispatchDomainDefineXml. -/
def remoteDispatchDomainDefineXml (c : Client) (lib : HvLib)
    (req : MessageHeader) (xml : String) : HOut :=
  match c.conn with
  | none => herr c [] req "connection not open"
  | some _ =>
    let ev := [Event.hv "virDomainDefineXML"]
    match lib.domDefineXml with
    | none => hlib c ev
    | some d =>
      hok c (ev ++ [Event.acquireDomain, Event.freeDomain]) (.domain (make_nonnull_domain d))

/-- Embedding of remoteDispatchDomainDestroy.  The source calls virDomainFree
on no path: on success the destroy operation consumes the handle, and on the
library-error path the handler returns without freeing. -/
def remoteDispatchDomainDestroy (c : Client) (lib : HvLib)
    (req : MessageHeader) (dom : DomainRef) : HOut :=
  match c.conn with
  | none => herr c [] req "connection not open"
  | some _ =>
    match get_nonnull_domain lib dom with
    | (none, ev) => herr c ev req "domain not found"
    | (some _, ev) =>
      let ev := ev ++ [Event.hv "virDomainDestroy"]
      if lib.domDestroy = -1 then hlib c ev
      else hok c ev .void

/-- Embedding of remoteDispatchDomainDetachDevice. -/
def remoteDispatchDomainDetachDevice (c : Client) (lib : HvLib)
    (req : MessageHeader) (dom : DomainRef) (xml : String) : HOut :=
  match c.conn with
  | none => herr c [] req "connection not open"
  | some _ =>
    match get_nonnull_domain lib dom with
    | (none, ev) => herr c ev req "domain not found"
    | (some _, ev) =>
      let ev := ev ++ [Event.hv "virDomainDetachDevice", Event.freeDomain]
      if lib.domDetachDevice = -1 then hlib c ev
      else hok c ev .void

/-- Embedding of remoteDispatchDomainDumpXml. -/
def remoteDispatchDomainDumpXml (c : Client) (lib : HvLib)
    (req : MessageHeader) (dom : DomainRef) (flags : Nat) : HOut :=
  match c.conn with
  | none => herr c [] req "connection not open"
  | some _ =>
    match get_nonnull_domain lib dom with
    | (none, ev) => herr c ev req "domain not found"
    | (some _, ev) =>
      let ev := ev ++ [Event.hv "virDomainGetXMLDesc"]
      match lib.domDumpXml with
      | none => hlib c (ev ++ [Event.freeDomain])
      | some xml => hok c (ev ++ [Event.freeDomain]) (.str xml)

/-- Embedding of remoteDispatchDomainGetAutostart. -/
def remoteDispatchDomainGetAutostart (c : Client) (lib : HvLib)
    (req : MessageHeader) (dom : DomainRef) : HOut :=
  match c.conn with
  | none => herr c [] req "connection not open"
  | some _ =>
    match get_nonnull_domain lib dom with
    | (none, ev) => herr c ev req "domain not found"
    | (some _, ev) =>
      let ev := ev ++ [Event.hv "virDomainGetAutostart"]
      match lib.domGetAutostart with
      | none => hlib c (ev ++ [Event.freeDomain])
      | some v => hok c (ev ++ [Event.freeDomain]) (.autostart v)

/-- Embedding of remoteDispatchDomainGetInfo. -/
def remoteDispatchDomainGetInfo (c : Client) (lib : HvLib)
    (req : MessageHeader) (dom : DomainRef) : HOut :=
  match c.conn with
  | none => herr c [] req "connection not open"
  | some _ =>
    match get_nonnull_domain lib dom with
    | (none, ev) => herr c ev req "domain not found"
    | (some _, ev) =>
      let ev := ev ++ [Event.hv "virDomainGetInfo"]
      match lib.domGetInfo with
      | none => hlib c (ev ++ [Event.freeDomain])
      | some i => hok c (ev ++ [Event.freeDomain]) (.domInfo i)

/-- Embedding of remoteDispatchDomainGetMaxMemory (a zero return from the
library signals failure). -/
def remoteDispatchDomainGetMaxMemory (c : Client) (lib : HvLib)
    (req : MessageHeader) (dom : DomainRef) : HOut :=
  match c.conn with
  | none => herr c [] req "connection not open"
  | some _ =>
    match get_nonnull_domain lib dom with
    | (none, ev) => herr c ev req "domain not found"
    | (some _, ev) =>
      let ev := ev ++ [Event.hv "virDomainGetMaxMemory"]
      if lib.domGetMaxMemory = 0 then hlib c (ev ++ [Event.freeDomain])
      else hok c (ev ++ [Event.freeDomain]) (.memory lib.domGetMaxMemory)

/-- Embedding of remoteDispatchDomainGetMaxVcpus. -/
def remoteDispatchDomainGetMaxVcpus (c : Client) (lib : HvLib)
    (req : MessageHeader) (dom : DomainRef) : HOut :=
  match c.conn with
  | none => herr c [] req "connection not open"
  | some _ =>
    match get_nonnull_domain lib dom with
    | (none, ev) => herr c ev req "domain not found"
    | (some _, ev) =>
      let ev := ev ++ [Event.hv "virDomainGetMaxVcpus"]
      if lib.domGetMaxVcpus = -1 then hlib c (ev ++ [Event.freeDomain])
      else hok c (ev ++ [Event.freeDomain]) (.maxv lib.domGetMaxVcpus)

/-- Embedding of remoteDispatchDomainGetOsType. -/
def remoteDispatchDomainGetOsType (c : Client) (lib : HvLib)
    (req : MessageHeader) (dom : DomainRef) : HOut :=
  match c.conn with
  | none => herr c [] req "connection not open"
  | some _ =>
    match get_nonnull_domain lib dom with
    | (none, ev) => herr c ev req "domain not found"
    | (some _, ev) =>
      let ev := ev ++ [Event.hv "virDomainGetOSType"]
      match lib.domGetOsType with
      | none => hlib c (ev ++ [Event.freeDomain])
      | some t => hok c (ev ++ [Event.freeDomain]) (.str t)

/-- Embedding of remoteDispatchDomainGetVcpus.  The two bound checks mirror
the source exactly: the product `maxinfo * maplen` is computed in 32-bit
signed arithmetic (`wrap32`), both before the comparison with
REMOTE_CPUMAPS_MAX and as the element count of the cpumap calloc and the
cpumaps length of the return body. -/
def remoteDispatchDomainGetVcpus (c : Client) (lib : HvLib)
    (req : MessageHeader) (dom : DomainRef) (maxinfo maplen : Int) : HOut :=
  match c.conn with
  | none => herr c [] req "connection not open"
  | some _ =>
    match get_nonnull_domain lib dom with
    | (none, ev) => herr c ev req "domain not found"
    | (some _, ev) =>
      if maxinfo > REMOTE_VCPUINFO_MAX then
        herr c (ev ++ [Event.freeDomain]) req "maxinfo > REMOTE_VCPUINFO_MAX"
      else if wrap32 (maxinfo * maplen) > REMOTE_CPUMAPS_MAX then
        herr c (ev ++ [Event.freeDomain]) req "maxinfo * maplen > REMOTE_CPUMAPS_MAX"
      else
        let ev := ev ++ [Event.alloc maxinfo, Event.alloc (wrap32 (maxinfo * maplen)),
                         Event.hv "virDomainGetVcpus"]
        match lib.domGetVcpus with
        | none => hlib c (ev ++ [Event.freeDomain])
        | some (info, cpumaps) =>
          let ev := ev ++ [Event.alloc (info.length : Int)]
          hok c (ev ++ [Event.freeDomain])
            (.vcpus info (wrap32 (maxinfo * maplen)) cpumaps)

/-! ## Handlers: migration -/

/-- Embedding of remoteDispatchDomainMigratePrepare. -/
def remoteDispatchDomainMigratePrepare (c : Client) (lib : HvLib)
    (req : MessageHeader) (uriIn : Option String) (flags : Nat)
    (dname : Option String) (resource : Nat) : HOut :=
  match c.conn with
  | none => herr c [] req "connection not open"
  | some _ =>
    let ev := [Event.alloc 1, Event.hv "virDomainMigratePrepare"]
    match lib.migratePrepare with
    | none => hlib c ev
    | some (cookie, uriOut) => hok c ev (.migratePrepare cookie uriOut)

/-- Embedding of remoteDispatchDomainMigratePerform.  Note: the source frees
the domain handle on no path of this handler. -/
def remoteDispatchDomainMigratePerform (c : Client) (lib : HvLib)
    (req : MessageHeader) (dom : DomainRef) (cookie : List Nat) (uri : String)
    (flags : Nat) (dname : Option String) (resource : Nat) : HOut :=
  match c.conn with
  | none => herr c [] req "connection not open"
  | some _ =>
    match get_nonnull_domain lib dom with
    | (none, ev) => herr c ev req "domain not found"
    | (some _, ev) =>
      let ev := ev ++ [Event.hv "virDomainMigratePerform"]
      if lib.migratePerform = -1 then hlib c ev
      else hok c ev .void

/-- Embedding of remoteDispatchDomainMigrateFinish. -/
def remoteDispatchDomainMigrateFinish (c : Client) (lib : HvLib)
    (req : MessageHeader) (dname : String) (cookie : List Nat) (uri : String)
    (flags : Nat) : HOut :=
  match c.conn with
  | none => herr c [] req "connection not open"
  | some _ =>
    let ev := [Event.hv "virDomainMigrateFinish"]
    match lib.migrateFinish with
    | none => hlib c ev
    | some d =>
      hok c (ev ++ [Event.acquireDomain]) (.domain (make_nonnull_domain d))

/-! ## Handlers: enumeration and lookup -/

/-- Embedding of remoteDispatchListDefinedDomains. -/
def remoteDispatchListDefinedDomains (c : Client) (lib : HvLib)
    (req : MessageHeader) (maxnames : Int) : HOut :=
  match c.conn with
  | none => herr c [] req "connection not open"
  | some _ =>
    if maxnames > REMOTE_DOMAIN_NAME_LIST_MAX then
      herr c [] req "maxnames > REMOTE_DOMAIN_NAME_LIST_MAX"
    else
      let ev := [Event.alloc maxnames, Event.hv "virConnectListDefinedDomains"]
      match lib.listDefinedDomains with
      | none => hlib c ev
      | some ns => hok c ev (.names ns)

/-- Embedding of remoteDispatchListDomains. -/
def remoteDispatchListDomains (c : Client) (lib : HvLib)
    (req : MessageHeader) (maxids : Int) : HOut :=
  match c.conn with
  | none => herr c [] req "connection not open"
  | some _ =>
    if maxids > REMOTE_DOMAIN_ID_LIST_MAX then
      herr c [] req "maxids > REMOTE_DOMAIN_ID_LIST_MAX"
    else
      let ev := [Event.alloc maxids, Event.hv "virConnectListDomains"]
      match lib.listDomains with
      | none => hlib c ev
      | some ids => hok c ev (.ids ids)

/-- Embedding of remoteDispatchListNetworks. -/
def remoteDispatchListNetworks (c : Client) (lib : HvLib)
    (req : MessageHeader) (maxnames : Int) : HOut :=
  match c.conn with
  | none => herr c [] req "connection not open"
  | some _ =>
    if maxnames > REMOTE_NETWORK_NAME_LIST_MAX then
      herr c [] req "maxnames > REMOTE_NETWORK_NAME_LIST_MAX"
    else
      let ev := [Event.alloc maxnames, Event.hv "virConnectListNetworks"]
      match lib.listNetworks with
      | none => hlib c ev
      | some ns => hok c ev (.names ns)

/-- Embedding of remoteDispatchListDefinedNetworks. -/
def remoteDispatchListDefinedNetworks (c : Client) (lib : HvLib)
    (req : MessageHeader) (maxnames : Int) : HOut :=
  match c.conn with
  | none => herr c [] req "connection not open"
  | some _ =>
    if maxnames > REMOTE_NETWORK_NAME_LIST_MAX then
      herr c [] req "maxnames > REMOTE_NETWORK_NAME_LIST_MAX"
    else
      let ev := [Event.alloc maxnames, Event.hv "virConnectListDefinedNetworks"]
      match lib.listDefinedNetworks with
      | none => hlib c ev
      | some ns => hok c ev (.names ns)

/-- Embedding of remoteDispatchDomainLookupById. -/
def remoteDispatchDomainLookupById (c : Client) (lib : HvLib)
    (req : MessageHeader) (id : Int) : HOut :=
  match c.conn with
  | none => herr c [] req "connection not open"
  | some _ =>
    let ev := [Event.hv "virDomainLookupByID"]
    match lib.lookupById with
    | none => hlib c ev
    | some d =>
      hok c (ev ++ [Event.acquireDomain, Event.freeDomain]) (.domain (make_nonnull_domain d))

/-- Embedding of remoteDispatchDomainLookupByName. -/
def remoteDispatchDomainLookupByName (c : Client) (lib : HvLib)
    (req : MessageHeader) (name : String) : HOut :=
  match c.conn with
  | none => herr c [] req "connection not open"
  | some _ =>
    let ev := [Event.hv "virDomainLookupByName"]
    match lib.lookupByName with
    | none => hlib c ev
    | some d =>
      hok c (ev ++ [Event.acquireDomain, Event.freeDomain]) (.domain (make_nonnull_domain d))

/-- Embedding of remoteDispatchDomainLookupByUuid. -/
def remoteDispatchDomainLookupByUuid (c : Client) (lib : HvLib)
    (req : MessageHeader) (uuid : List Nat) : HOut :=
  match c.conn with
  | none => herr c [] req "connection not open"
  | some _ =>
    let ev := [Event.hv "virDomainLookupByUUID"]
    match lib.lookupByUuid with
    | none => hlib c ev
    | some d =>
      hok c (ev ++ [Event.acquireDomain, Event.freeDomain]) (.domain (make_nonnull_domain d))

/-- Embedding of remoteDispatchNumOfDefinedDomains. -/
def remoteDispatchNumOfDefinedDomains (c : Client) (lib : HvLib)
    (req : MessageHeader) : HOut :=
  match c.conn with
  | none => herr c [] req "connection not open"
  | some _ =>
    let ev := [Event.hv "virConnectNumOfDefinedDomains"]
    if lib.numOfDefinedDomains = -1 then hlib c ev
    else hok c ev (.num lib.numOfDefinedDomains)

/-- Embedding of remoteDispatchNumOfDomains. -/
def remoteDispatchNumOfDomains (c : Client) (lib : HvLib)
    (req : MessageHeader) : HOut :=
  match c.conn with
  | none => herr c [] req "connection not open"
  | some _ =>
    let ev := [Event.hv "virConnectNumOfDomains"]
    if lib.numOfDomains = -1 then hlib c ev
    else hok c ev (.num lib.numOfDomains)

/-- Embedding of remoteDispatchNumOfNetworks. -/
def remoteDispatchNumOfNetworks (c : Client) (lib : HvLib)
    (req : MessageHeader) : HOut :=
  match c.conn with
  | none => herr c [] req "connection not open"
  | some _ =>
    let ev := [Event.hv "virConnectNumOfNetworks"]
    if lib.numOfNetworks = -1 then hlib c ev
    else hok c ev (.num lib.numOfNetworks)

/-- Embedding of remoteDispatchNumOfDefinedNetworks. -/
def remoteDispatchNumOfDefinedNetworks (c : Client) (lib : HvLib)
    (req : MessageHeader) : HOut :=
  match c.conn with
  | none => herr c [] req "connection not open"
  | some _ =>
    let ev := [Event.hv "virConnectNumOfDefinedNetworks"]
    if lib.numOfDefinedNetworks = -1 then hlib c ev
    else hok c ev (.num lib.numOfDefinedNetworks)

/-! ## Handlers: domain mutations -/

/-- Embedding of remoteDispatchDomainPinVcpu. -/
def remoteDispatchDomainPinVcpu (c : Client) (lib : HvLib)
    (req : MessageHeader) (dom : DomainRef) (vcpu : Int)
    (cpumap : List Nat) : HOut :=
  match c.conn with
  | none => herr c [] req "connection not open"
  | some _ =>
    match get_nonnull_domain lib dom with
    | (none, ev) => herr c ev req "domain not found"
    | (some _, ev) =>
      if (cpumap.length : Int) > REMOTE_CPUMAP_MAX then
        herr c (ev ++ [Event.freeDomain]) req "cpumap_len > REMOTE_CPUMAP_MAX"
      else
        let ev := ev ++ [Event.hv "virDomainPinVcpu"]
        if lib.pinVcpu = -1 then hlib c (ev ++ [Event.freeDomain])
        else hok c (ev ++ [Event.freeDomain]) .void

/-- Embedding of remoteDispatchDomainReboot. -/
def remoteDispatchDomainReboot (c : Client) (lib : HvLib)
    (req : MessageHeader) (dom : DomainRef) (flags : Nat) : HOut :=
  match c.conn with
  | none => herr c [] req "connection not open"
  | some _ =>
    match get_nonnull_domain lib dom with
    | (none, ev) => herr c ev req "domain not found"
    | (some _, ev) =>
      let ev := ev ++ [Event.hv "virDomainReboot", Event.freeDomain]
      if lib.domReboot = -1 then hlib c ev
      else hok c ev .void

/-- Embedding of remoteDispatchDomainRestore. -/
def remoteDispatchDomainRestore (c : Client) (lib : HvLib)
    (req : MessageHeader) (from_ : String) : HOut :=
  match c.conn with
  | none => herr c [] req "connection not open"
  | some _ =>
    let ev := [Event.hv "virDomainRestore"]
    if lib.domRestore = -1 then hlib c ev
    else hok c ev .void

/-- Embedding of remoteDispatchDomainResume. -/
def remoteDispatchDomainResume (c : Client) (lib : HvLib)
    (req : MessageHeader) (dom : DomainRef) : HOut :=
  match c.conn with
  | none => herr c [] req "connection not open"
  | some _ =>
    match get_nonnull_domain lib dom with
    | (none, ev) => herr c ev req "domain not found"
    | (some _, ev) =>
      let ev := ev ++ [Event.hv "virDomainResume", Event.freeDomain]
      if lib.domResume = -1 then hlib c ev
      else hok c ev .void

/-- Embedding of remoteDispatchDomainSave. -/
def remoteDispatchDomainSave (c : Client) (lib : HvLib)
    (req : MessageHeader) (dom : DomainRef) (toFile : String) : HOut :=
  match c.conn with
  | none => herr c [] req "connection not open"
  | some _ =>
    match get_nonnull_domain lib dom with
    | (none, ev) => herr c ev req "domain not found"
    | (some _, ev) =>
      let ev := ev ++ [Event.hv "virDomainSave", Event.freeDomain]
      if lib.domSave = -1 then hlib c ev
      else hok c ev .void

/-- Embedding of remoteDispatchDomainCoreDump. -/
def remoteDispatchDomainCoreDump (c : Client) (lib : HvLib)
    (req : MessageHeader) (dom : DomainRef) (toFile : String) (flags : Nat) : HOut :=
  match c.conn with
  | none => herr c [] req "connection not open"
  | some _ =>
    match get_nonnull_domain lib dom with
    | (none, ev) => herr c ev req "domain not found"
    | (some _, ev) =>
      let ev := ev ++ [Event.hv "virDomainCoreDump", Event.freeDomain]
      if lib.domCoreDump = -1 then hlib c ev
      else hok c ev .void

/-- Embedding of remoteDispatchDomainSetAutostart. -/
def remoteDispatchDomainSetAutostart (c : Client) (lib : HvLib)
    (req : MessageHeader) (dom : DomainRef) (autostart : Int) : HOut :=
  match c.conn with
  | none => herr c [] req "connection not open"
  | some _ =>
    match get_nonnull_domain lib dom with
    | (none, ev) => herr c ev req "domain not found"
    | (some _, ev) =>
      let ev := ev ++ [Event.hv "virDomainSetAutostart", Event.freeDomain]
      if lib.domSetAutostart = -1 then hlib c ev
      else hok c ev .void

/-- Embedding of remoteDispatchDomainSetMaxMemory. -/
def remoteDispatchDomainSetMaxMemory (c : Client) (lib : HvLib)
    (req : MessageHeader) (dom : DomainRef) (memory : Nat) : HOut :=
  match c.conn with
  | none => herr c [] req "connection not open"
  | some _ =>
    match get_nonnull_domain lib dom with
    | (none, ev) => herr c ev req "domain not found"
    | (some _, ev) =>
      let ev := ev ++ [Event.hv "virDomainSetMaxMemory", Event.freeDomain]
      if lib.domSetMaxMemory = -1 then hlib c ev
      else hok c ev .void

/-- Embedding of remoteDispatchDomainSetMemory. -/
def remoteDispatchDomainSetMemory (c : Client) (lib : HvLib)
    (req : MessageHeader) (dom : DomainRef) (memory : Nat) : HOut :=
  match c.conn with
  | none => herr c [] req "connection not open"
  | some _ =>
    match get_nonnull_domain lib dom with
    | (none, ev) => herr c ev req "domain not found"
    | (some _, ev) =>
      let ev := ev ++ [Event.hv "virDomainSetMemory", Event.freeDomain]
      if lib.domSetMemory = -1 then hlib c ev
      else hok c ev .void

/-- Embedding of remoteDispatchDomainSetVcpus. -/
def remoteDispatchDomainSetVcpus (c : Client) (lib : HvLib)
    (req : MessageHeader) (dom : DomainRef) (nvcpus : Int) : HOut :=
  match c.conn with
  | none => herr c [] req "connection not open"
  | some _ =>
    match get_nonnull_domain lib dom with
    | (none, ev) => herr c ev req "domain not found"
    | (some _, ev) =>
      let ev := ev ++ [Event.hv "virDomainSetVcpus", Event.freeDomain]
      if lib.domSetVcpus = -1 then hlib c ev
      else hok c ev .void

/-- Embedding of remoteDispatchDomainShutdown. -/
def remoteDispatchDomainShutdown (c : Client) (lib : HvLib)
    (req : MessageHeader) (dom : DomainRef) : HOut :=
  match c.conn with
  | none => herr c [] req "connection not open"
  | some _ =>
    match get_nonnull_domain lib dom with
    | (none, ev) => herr c ev req "domain not found"
    | (some _, ev) =>
      let ev := ev ++ [Event.hv "virDomainShutdown", Event.freeDomain]
      if lib.domShutdown = -1 then hlib c ev
      else hok c ev .void

/-- Embedding of remoteDispatchDomainSuspend. -/
def remoteDispatchDomainSuspend (c : Client) (lib : HvLib)
    (req : MessageHeader) (dom : DomainRef) : HOut :=
  match c.conn with
  | none => herr c [] req "connection not open"
  | some _ =>
    match get_nonnull_domain lib dom with
    | (none, ev) => herr c ev req "domain not found"
    | (some _, ev) =>
      let ev := ev ++ [Event.hv "virDomainSuspend", Event.freeDomain]
      if lib.domSuspend = -1 then hlib c ev
      else hok c ev .void

/-- Embedding of remoteDispatchDomainUndefine. -/
def remoteDispatchDomainUndefine (c : Client) (lib : HvLib)
    (req : MessageHeader) (dom : DomainRef) : HOut :=
  match c.conn with
  | none => herr c [] req "connection not open"
  | some _ =>
    match get_nonnull_domain lib dom with
    | (none, ev) => herr c ev req "domain not found"
    | (some _, ev) =>
      let ev := ev ++ [Event.hv "virDomainUndefine", Event.freeDomain]
      if lib.domUndefine = -1 then hlib c ev
      else hok c ev .void

/-! ## Handlers: networks -/

/-- Embedding of remoteDispatchNetworkCreate. -/
def remoteDispatchNetworkCreate (c : Client) (lib : HvLib)
    (req : MessageHeader) (net : NetworkRef) : HOut :=
  match c.conn with
  | none => herr c [] req "connection not open"
  | some _ =>
    match get_nonnull_network lib net with
    | (none, ev) => herr c ev req "network not found"
    | (some _, ev) =>
      let ev := ev ++ [Event.hv "virNetworkCreate", Event.freeNetwork]
      if lib.netCreate = -1 then hlib c ev
      else hok c ev .void

/-- Embedding of remoteDispatchNetworkCreateXml. -/
def remoteDispatchNetworkCreateXml (c : Client) (lib : HvLib)
    (req : MessageHeader) (xml : String) : HOut :=
  match c.conn with
  | none => herr c [] req "connection not open"
  | some _ =>
    let ev := [Event.hv "virNetworkCreateXML"]
    match lib.netCreateXml with
    | none => hlib c ev
    | some n =>
      hok c (ev ++ [Event.acquireNetwork, Event.freeNetwork]) (.network (make_nonnull_network n))

/-- Embedding of remoteDispatchNetworkDefineXml. -/
def remoteDispatchNetworkDefineXml (c : Client) (lib : HvLib)
    (req : MessageHeader) (xml : String) : HOut :=
  match c.conn with
  | none => herr c [] req "connection not open"
  | some _ =>
    let ev := [Event.hv "virNetworkDefineXML"]
    match lib.netDefineXml with
    | none => hlib c ev
    | some n =>
      hok c (ev ++ [Event.acquireNetwork, Event.freeNetwork]) (.network (make_nonnull_network n))

/-- Embedding of remoteDispatchNetworkDestroy. -/
def remoteDispatchNetworkDestroy (c : Client) (lib : HvLib)
    (req : MessageHeader) (net : NetworkRef) : HOut :=
  match c.conn with
  | none => herr c [] req "connection not open"
  | some _ =>
    match get_nonnull_network lib net with
    | (none, ev) => herr c ev req "network not found"
    | (some _, ev) =>
      let ev := ev ++ [Event.hv "virNetworkDestroy", Event.freeNetwork]
      if lib.netDestroy = -1 then hlib c ev
      else hok c ev .void

/-- Embedding of remoteDispatchNetworkDumpXml. -/
def remoteDispatchNetworkDumpXml (c : Client) (lib : HvLib)
    (req : MessageHeader) (net : NetworkRef) (flags : Nat) : HOut :=
  match c.conn with
  | none => herr c [] req "connection not open"
  | some _ =>
    match get_nonnull_network lib net with
    | (none, ev) => herr c ev req "network not found"
    | (some _, ev) =>
      let ev := ev ++ [Event.hv "virNetworkGetXMLDesc"]
      match lib.netDumpXml with
      | none => hlib c (ev ++ [Event.freeNetwork])
      | some xml => hok c (ev ++ [Event.freeNetwork]) (.str xml)

/-- Embedding of remoteDispatchNetworkGetAutostart. -/
def remoteDispatchNetworkGetAutostart (c : Client) (lib : HvLib)
    (req : MessageHeader) (net : NetworkRef) : HOut :=
  match c.conn with
  | none => herr c [] req "connection not open"
  | some _ =>
    match get_nonnull_network lib net with
    | (none, ev) => herr c ev req "network not found"
    | (some _, ev) =>
      let ev := ev ++ [Event.hv "virNetworkGetAutostart"]
      match lib.netGetAutostart with
      | none => hlib c (ev ++ [Event.freeNetwork])
      | some v => hok c (ev ++ [Event.freeNetwork]) (.autostart v)

/-- Embedding of remoteDispatchNetworkGetBridgeName. -/
def remoteDispatchNetworkGetBridgeName (c : Client) (lib : HvLib)
    (req : MessageHeader) (net : NetworkRef) : HOut :=
  match c.conn with
  | none => herr c [] req "connection not open"
  | some _ =>
    match get_nonnull_network lib net with
    | (none, ev) => herr c ev req "network not found"
    | (some _, ev) =>
      let ev := ev ++ [Event.hv "virNetworkGetBridgeName"]
      match lib.netGetBridgeName with
      | none => hlib c (ev ++ [Event.freeNetwork])
      | some n => hok c (ev ++ [Event.freeNetwork]) (.str n)

/-- Embedding of remoteDispatchNetworkLookupByName. -/
def remoteDispatchNetworkLookupByName (c : Client) (lib : HvLib)
    (req : MessageHeader) (name : String) : HOut :=
  match c.conn with
  | none => herr c [] req "connection not open"
  | some _ =>
    let ev := [Event.hv "virNetworkLookupByName"]
    match lib.netLookupByName with
    | none => hlib c ev
    | some n =>
      hok c (ev ++ [Event.acquireNetwork, Event.freeNetwork]) (.network (make_nonnull_network n))

/-- Embedding of remoteDispatchNetworkLookupByUuid. -/
def remoteDispatchNetworkLookupByUuid (c : Client) (lib : HvLib)
    (req : MessageHeader) (uuid : List Nat) : HOut :=
  match c.conn with
  | none => herr c [] req "connection not open"
  | some _ =>
    let ev := [Event.hv "virNetworkLookupByUUID"]
    match lib.netLookupByUuid with
    | none => hlib c ev
    | some n =>
      hok c (ev ++ [Event.acquireNetwork, Event.freeNetwork]) (.network (make_nonnull_network n))

/-- Embedding of remoteDispatchNetworkSetAutostart. -/
def remoteDispatchNetworkSetAutostart (c : Client) (lib : HvLib)
    (req : MessageHeader) (net : NetworkRef) (autostart : Int) : HOut :=
  match c.conn with
  | none => herr c [] req "connection not open"
  | some _ =>
    match get_nonnull_network lib net with
    | (none, ev) => herr c ev req "network not found"
    | (some _, ev) =>
      let ev := ev ++ [Event.hv "virNetworkSetAutostart", Event.freeNetwork]
      if lib.netSetAutostart = -1 then hlib c ev
      else hok c ev .void

/-- Embedding of remoteDispatchNetworkUndefine. -/
def remoteDispatchNetworkUndefine (c : Client) (lib : HvLib)
    (req : MessageHeader) (net : NetworkRef) : HOut :=
  match c.conn with
  | none => herr c [] req "connection not open"
  | some _ =>
    match get_nonnull_network lib net with
    | (none, ev) => herr c ev req "network not found"
    | (some _, ev) =>
      let ev := ev ++ [Event.hv "virNetworkUndefine", Event.freeNetwork]
      if lib.netUndefine = -1 then hlib c ev
      else hok c ev .void

/-! ## Handlers: authentication -/

/-- Embedding of remoteDispatchAuthList: returns the single advertised auth
type (the session's auth field). -/
def remoteDispatchAuthList (c : Client) (lib : HvLib)
    (req : MessageHeader) : HOut :=
  if !lib.authCallocOk then
    herrC c [Event.alloc 1] req VIR_ERR_NO_MEMORY "auth types"
  else
    hok c [Event.alloc 1] (.authTypes [c.auth])

/-- Embedding of remoteDispatchAuthSaslInit.  The three operating-system
failure modes before sasl_server_new (getsockname, getpeername, address
formatting) are collapsed into the absence of the corresponding formatted
address in the oracle. -/
def remoteDispatchAuthSaslInit (c : Client) (lib : HvLib)
    (req : MessageHeader) : HOut :=
  if c.auth ≠ REMOTE_AUTH_SASL ∨ c.saslconn then hfail c [] req
  else
    match lib.sasl.localAddr with
    | none => herr c [] req "failed to get sock address"
    | some _ =>
      match lib.sasl.remoteAddr with
      | none => herr c [] req "failed to get peer address"
      | some _ =>
        let ev := [Event.saslCall "sasl_server_new" none]
        if lib.sasl.newResult ≠ SASL_OK then
          hfail { c with saslconn := false } ev req
        else
          let c2 := { c with saslconn := true }
          let ev := ev ++ [Event.saslCall "sasl_listmech" none]
          match lib.sasl.listMech with
          | none => hfail { c2 with saslconn := false } (ev ++ [Event.saslDispose]) req
          | some mechlist =>
            if !lib.sasl.mallocOk then
              hfail { c2 with saslconn := false } (ev ++ [Event.saslDispose]) req
            else
              hok c2 ev (.mechlist mechlist)

/-- Embedding of remoteDispatchAuthSaslStart. -/
def remoteDispatchAuthSaslStart (c : Client) (lib : HvLib)
    (req : MessageHeader) (mech : String) (nil : Bool) (data : List Nat) : HOut :=
  if c.auth ≠ REMOTE_AUTH_SASL ∨ !c.saslconn then hfail c [] req
  else
    let clientIn : Option (List Nat) := if nil then none else some data
    let ev := [Event.saslCall "sasl_server_start" clientIn]
    let err := lib.sasl.startErr
    let serverout := lib.sasl.startOut
    let serveroutlen := (serverout.getD []).length
    if err ≠ SASL_OK ∧ err ≠ SASL_CONTINUE then
      hfail { c with saslconn := false } (ev ++ [Event.saslDispose]) req
    else if serveroutlen > REMOTE_AUTH_SASL_DATA_MAX then
      hfail { c with saslconn := false } (ev ++ [Event.saslDispose]) req
    else
      match serverout with
      | some payload =>
        if !lib.sasl.mallocOk then
          herr c (ev ++ [Event.alloc (payload.length : Int)]) req
            "out of memory allocating array"
        else
          let ev := ev ++ [Event.alloc (payload.length : Int)]
          if err = SASL_CONTINUE then
            hok c ev (.sasl 0 false payload)
          else
            hok { c with auth := REMOTE_AUTH_NONE } ev (.sasl 1 false payload)
      | none =>
        if err = SASL_CONTINUE then
          hok c ev (.sasl 0 true [])
        else
          hok { c with auth := REMOTE_AUTH_NONE } ev (.sasl 1 true [])

/-- Embedding of remoteDispatchAuthSaslStep. -/
def remoteDispatchAuthSaslStep (c : Client) (lib : HvLib)
    (req : MessageHeader) (nil : Bool) (data : List Nat) : HOut :=
  if c.auth ≠ REMOTE_AUTH_SASL ∨ !c.saslconn then hfail c [] req
  else
    let clientIn : Option (List Nat) := if nil then none else some data
    let ev := [Event.saslCall "sasl_server_step" clientIn]
    let err := lib.sasl.stepErr
    let serverout := lib.sasl.stepOut
    let serveroutlen := (serverout.getD []).length
    if err ≠ SASL_OK ∧ err ≠ SASL_CONTINUE then
      hfail { c with saslconn := false } (ev ++ [Event.saslDispose]) req
    else if serveroutlen > REMOTE_AUTH_SASL_DATA_MAX then
      hfail { c with saslconn := false } (ev ++ [Event.saslDispose]) req
    else
      match serverout with
      | some payload =>
        if !lib.sasl.mallocOk then
          herr c (ev ++ [Event.alloc (payload.length : Int)]) req
            "out of memory allocating array"
        else
          let ev := ev ++ [Event.alloc (payload.length : Int)]
          if err = SASL_CONTINUE then
            hok c ev (.sasl 0 false payload)
          else
            hok { c with auth := REMOTE_AUTH_NONE } ev (.sasl 1 false payload)
      | none =>
        if err = SASL_CONTINUE then
          hok c ev (.sasl 0 true [])
        else
          hok { c with auth := REMOTE_AUTH_NONE } ev (.sasl 1 true [])

/-! ## The procedure table and the dispatcher -/

/-- Whether a procedure number is in the dispatch table (the generated
proc-switch covers the procedures of spec §6; the modelled numbering is
contiguous). -/
def knownProc (p : Nat) : Bool :=
  decide (1 ≤ p) && decide (p ≤ 69)

/-- The generated procedure switch: selects the handler for a procedure
number and applies it to the decoded arguments; `none` when the argument
body does not decode to the shape the procedure's argument filter expects. -/
def runProc (p : Nat) (c : Client) (lib : HvLib) (req : MessageHeader)
    (a : ArgsVal) : Option HOut :=
  if p = REMOTE_PROC_OPEN then
    match a with
    | .openA name flags => some (remoteDispatchOpen c lib req name flags)
    | _ => none
  else if p = REMOTE_PROC_CLOSE then
    match a with
    | .voidA => some (remoteDispatchClose c lib req)
    | _ => none
  else if p = REMOTE_PROC_GET_TYPE then
    match a with
    | .voidA => some (remoteDispatchGetType c lib req)
    | _ => none
  else if p = REMOTE_PROC_GET_VERSION then
    match a with
    | .voidA => some (remoteDispatchGetVersion c lib req)
    | _ => none
  else if p = REMOTE_PROC_GET_MAX_VCPUS then
    match a with
    | .typedNameA t => some (remoteDispatchGetMaxVcpus c lib req t)
    | _ => none
  else if p = REMOTE_PROC_NODE_GET_INFO then
    match a with
    | .voidA => some (remoteDispatchNodeGetInfo c lib req)
    | _ => none
  else if p = REMOTE_PROC_GET_CAPABILITIES then
    match a with
    | .voidA => some (remoteDispatchGetCapabilities c lib req)
    | _ => none
  else if p = REMOTE_PROC_DOMAIN_ATTACH_DEVICE then
    match a with
    | .domStrA d xml => some (remoteDispatchDomainAttachDevice c lib req d xml)
    | _ => none
  else if p = REMOTE_PROC_DOMAIN_CREATE then
    match a with
    | .domA d => some (remoteDispatchDomainCreate c lib req d)
    | _ => none
  else if p = REMOTE_PROC_DOMAIN_CREATE_LINUX then
    match a with
    | .strUintA xml flags => some (remoteDispatchDomainCreateLinux c lib req xml flags)
    | _ => none
  else if p = REMOTE_PROC_DOMAIN_DEFINE_XML then
    match a with
    | .strA xml => some (remoteDispatchDomainDefineXml c lib req xml)
    | _ => none
  else if p = REMOTE_PROC_DOMAIN_DESTROY then
    match a with
    | .domA d => some (remoteDispatchDomainDestroy c lib req d)
    | _ => none
  else if p = REMOTE_PROC_DOMAIN_DETACH_DEVICE then
    match a with
    | .domStrA d xml => some (remoteDispatchDomainDetachDevice c lib req d xml)
    | _ => none
  else if p = REMOTE_PROC_DOMAIN_DUMP_XML then
    match a with
    | .domUintA d flags => some (remoteDispatchDomainDumpXml c lib req d flags)
    | _ => none
  else if p = REMOTE_PROC_DOMAIN_GET_AUTOSTART then
    match a with
    | .domA d => some (remoteDispatchDomainGetAutostart c lib req d)
    | _ => none
  else if p = REMOTE_PROC_DOMAIN_GET_INFO then
    match a with
    | .domA d => some (remoteDispatchDomainGetInfo c lib req d)
    | _ => none
  else if p = REMOTE_PROC_DOMAIN_GET_MAX_MEMORY then
    match a with
    | .domA d => some (remoteDispatchDomainGetMaxMemory c lib req d)
    | _ => none
  else if p = REMOTE_PROC_DOMAIN_GET_MAX_VCPUS then
    match a with
    | .domA d => some (remoteDispatchDomainGetMaxVcpus c lib req d)
    | _ => none
  else if p = REMOTE_PROC_DOMAIN_GET_OS_TYPE then
    match a with
    | .domA d => some (remoteDispatchDomainGetOsType c lib req d)
    | _ => none
  else if p = REMOTE_PROC_DOMAIN_GET_VCPUS then
    match a with
    | .getVcpusA d maxinfo maplen =>
      some (remoteDispatchDomainGetVcpus c lib req d maxinfo maplen)
    | _ => none
  else if p = REMOTE_PROC_DOMAIN_LOOKUP_BY_ID then
    match a with
    | .intA id => some (remoteDispatchDomainLookupById c lib req id)
    | _ => none
  else if p = REMOTE_PROC_DOMAIN_LOOKUP_BY_NAME then
    match a with
    | .strA n => some (remoteDispatchDomainLookupByName c lib req n)
    | _ => none
  else if p = REMOTE_PROC_DOMAIN_LOOKUP_BY_UUID then
    match a with
    | .uuidA u => some (remoteDispatchDomainLookupByUuid c lib req u)
    | _ => none
  else if p = REMOTE_PROC_NUM_OF_DOMAINS then
    match a with
    | .voidA => some (remoteDispatchNumOfDomains c lib req)
    | _ => none
  else if p = REMOTE_PROC_DOMAIN_PIN_VCPU then
    match a with
    | .pinVcpuA d vcpu cpumap => some (remoteDispatchDomainPinVcpu c lib req d vcpu cpumap)
    | _ => none
  else if p = REMOTE_PROC_DOMAIN_REBOOT then
    match a with
    | .domUintA d flags => some (remoteDispatchDomainReboot c lib req d flags)
    | _ => none
  else if p = REMOTE_PROC_DOMAIN_RESTORE then
    match a with
    | .strA f => some (remoteDispatchDomainRestore c lib req f)
    | _ => none
  else if p = REMOTE_PROC_DOMAIN_RESUME then
    match a with
    | .domA d => some (remoteDispatchDomainResume c lib req d)
    | _ => none
  else if p = REMOTE_PROC_DOMAIN_SAVE then
    match a with
    | .domStrA d f => some (remoteDispatchDomainSave c lib req d f)
    | _ => none
  else if p = REMOTE_PROC_DOMAIN_CORE_DUMP then
    match a with
    | .domStrUintA d f flags => some (remoteDispatchDomainCoreDump c lib req d f flags)
    | _ => none
  else if p = REMOTE_PROC_DOMAIN_SET_AUTOSTART then
    match a with
    | .domIntA d v => some (remoteDispatchDomainSetAutostart c lib req d v)
    | _ => none
  else if p = REMOTE_PROC_DOMAIN_SET_MAX_MEMORY then
    match a with
    | .domUintA d m => some (remoteDispatchDomainSetMaxMemory c lib req d m)
    | _ => none
  else if p = REMOTE_PROC_DOMAIN_SET_MEMORY then
    match a with
    | .domUintA d m => some (remoteDispatchDomainSetMemory c lib req d m)
    | _ => none
  else if p = REMOTE_PROC_DOMAIN_SET_VCPUS then
    match a with
    | .domIntA d n => some (remoteDispatchDomainSetVcpus c lib req d n)
    | _ => none
  else if p = REMOTE_PROC_DOMAIN_SHUTDOWN then
    match a with
    | .domA d => some (remoteDispatchDomainShutdown c lib req d)
    | _ => none
  else if p = REMOTE_PROC_DOMAIN_SUSPEND then
    match a with
    | .domA d => some (remoteDispatchDomainSuspend c lib req d)
    | _ => none
  else if p = REMOTE_PROC_DOMAIN_UNDEFINE then
    match a with
    | .domA d => some (remoteDispatchDomainUndefine c lib req d)
    | _ => none
  else if p = REMOTE_PROC_LIST_DEFINED_DOMAINS then
    match a with
    | .maxA n => some (remoteDispatchListDefinedDomains c lib req n)
    | _ => none
  else if p = REMOTE_PROC_LIST_DOMAINS then
    match a with
    | .maxA n => some (remoteDispatchListDomains c lib req n)
    | _ => none
  else if p = REMOTE_PROC_LIST_NETWORKS then
    match a with
    | .maxA n => some (remoteDispatchListNetworks c lib req n)
    | _ => none
  else if p = REMOTE_PROC_LIST_DEFINED_NETWORKS then
    match a with
    | .maxA n => some (remoteDispatchListDefinedNetworks c lib req n)
    | _ => none
  else if p = REMOTE_PROC_NUM_OF_DEFINED_DOMAINS then
    match a with
    | .voidA => some (remoteDispatchNumOfDefinedDomains c lib req)
    | _ => none
  else if p = REMOTE_PROC_NETWORK_CREATE then
    match a with
    | .netA n => some (remoteDispatchNetworkCreate c lib req n)
    | _ => none
  else if p = REMOTE_PROC_NETWORK_CREATE_XML then
    match a with
    | .strA xml => some (remoteDispatchNetworkCreateXml c lib req xml)
    | _ => none
  else if p = REMOTE_PROC_NETWORK_DEFINE_XML then
    match a with
    | .strA xml => some (remoteDispatchNetworkDefineXml c lib req xml)
    | _ => none
  else if p = REMOTE_PROC_NETWORK_DESTROY then
    match a with
    | .netA n => some (remoteDispatchNetworkDestroy c lib req n)
    | _ => none
  else if p = REMOTE_PROC_NETWORK_DUMP_XML then
    match a with
    | .netUintA n flags => some (remoteDispatchNetworkDumpXml c lib req n flags)
    | _ => none
  else if p = REMOTE_PROC_NETWORK_GET_AUTOSTART then
    match a with
    | .netA n => some (remoteDispatchNetworkGetAutostart c lib req n)
    | _ => none
  else if p = REMOTE_PROC_NETWORK_GET_BRIDGE_NAME then
    match a with
    | .netA n => some (remoteDispatchNetworkGetBridgeName c lib req n)
    | _ => none
  else if p = REMOTE_PROC_NETWORK_LOOKUP_BY_NAME then
    match a with
    | .strA n => some (remoteDispatchNetworkLookupByName c lib req n)
    | _ => none
  else if p = REMOTE_PROC_NETWORK_LOOKUP_BY_UUID then
    match a with
    | .uuidA u => some (remoteDispatchNetworkLookupByUuid c lib req u)
    | _ => none
  else if p = REMOTE_PROC_NETWORK_SET_AUTOSTART then
    match a with
    | .netIntA n v => some (remoteDispatchNetworkSetAutostart c lib req n v)
    | _ => none
  else if p = REMOTE_PROC_NETWORK_UNDEFINE then
    match a with
    | .netA n => some (remoteDispatchNetworkUndefine c lib req n)
    | _ => none
  else if p = REMOTE_PROC_NUM_OF_DEFINED_NETWORKS then
    match a with
    | .voidA => some (remoteDispatchNumOfDefinedNetworks c lib req)
    | _ => none
  else if p = REMOTE_PROC_NUM_OF_NETWORKS then
    match a with
    | .voidA => some (remoteDispatchNumOfNetworks c lib req)
    | _ => none
  else if p = REMOTE_PROC_DOMAIN_GET_SCHEDULER_TYPE then
    match a with
    | .domA d => some (remoteDispatchDomainGetSchedulerType c lib req d)
    | _ => none
  else if p = REMOTE_PROC_DOMAIN_GET_SCHEDULER_PARAMETERS then
    match a with
    | .getSchedParamsA d n => some (remoteDispatchDomainGetSchedulerParameters c lib req d n)
    | _ => none
  else if p = REMOTE_PROC_DOMAIN_SET_SCHEDULER_PARAMETERS then
    match a with
    | .setSchedParamsA d ps => some (remoteDispatchDomainSetSchedulerParameters c lib req d ps)
    | _ => none
  else if p = REMOTE_PROC_GET_HOSTNAME then
    match a with
    | .voidA => some (remoteDispatchGetHostname c lib req)
    | _ => none
  else if p = REMOTE_PROC_SUPPORTS_FEATURE then
    match a with
    | .featureA f => some (remoteDispatchSupportsFeature c lib req f)
    | _ => none
  else if p = REMOTE_PROC_DOMAIN_MIGRATE_PREPARE then
    match a with
    | .migratePrepareA uriIn flags dname resource =>
      some (remoteDispatchDomainMigratePrepare c lib req uriIn flags dname resource)
    | _ => none
  else if p = REMOTE_PROC_DOMAIN_MIGRATE_PERFORM then
    match a with
    | .migratePerformA d cookie uri flags dname resource =>
      some (remoteDispatchDomainMigratePerform c lib req d cookie uri flags dname resource)
    | _ => none
  else if p = REMOTE_PROC_DOMAIN_MIGRATE_FINISH then
    match a with
    | .migrateFinishA dname cookie uri flags =>
      some (remoteDispatchDomainMigrateFinish c lib req dname cookie uri flags)
    | _ => none
  else if p = REMOTE_PROC_DOMAIN_BLOCK_STATS then
    match a with
    | .domStrA d path => some (remoteDispatchDomainBlockStats c lib req d path)
    | _ => none
  else if p = REMOTE_PROC_DOMAIN_INTERFACE_STATS then
    match a with
    | .domStrA d path => some (remoteDispatchDomainInterfaceStats c lib req d path)
    | _ => none
  else if p = REMOTE_PROC_AUTH_LIST then
    match a with
    | .voidA => some (remoteDispatchAuthList c lib req)
    | _ => none
  else if p = REMOTE_PROC_AUTH_SASL_INIT then
    match a with
    | .voidA => some (remoteDispatchAuthSaslInit c lib req)
    | _ => none
  else if p = REMOTE_PROC_AUTH_SASL_START then
    match a with
    | .saslStartA mech nil data => some (remoteDispatchAuthSaslStart c lib req mech nil data)
    | _ => none
  else if p = REMOTE_PROC_AUTH_SASL_STEP then
    match a with
    | .saslStepA nil data => some (remoteDispatchAuthSaslStep c lib req nil data)
    | _ => none
  else none

/-- Result of dispatching one request: the updated session, the observable
events, the reply messages written to the transmit buffer (in order), and
whether the argument filter ran successfully. -/
structure DispatchOut where
  client : Client
  events : List Event
  replies : List RMsg
  argsDecoded : Bool
  deriving Repr, DecidableEq

/-- A dispatch-level error exit of remoteDispatchClientRequest. -/
def errDispatch (c : Client) (req : Option MessageHeader) (msg : String) :
    DispatchOut :=
  { client := c, events := [], replies := [remoteDispatchErrorMsg req msg],
    argsDecoded := false }

/-- Translation of the hypervisor library's last-error record into the wire
error record, as performed by the library-error reply path of
remoteDispatchClientRequest. -/
def rerrorOfVirt (e : VirtError) : RError :=
  { code := e.code, domain := e.domain, message := e.message, level := e.level,
    dom := e.dom.map (fun d => { name := d.name, uuid := d.uuid, id := d.id }),
    str1 := e.str1, str2 := e.str2, str3 := e.str3,
    int1 := e.int1, int2 := e.int2,
    net := e.net.map (fun n => { name := n.name, uuid := n.uuid }) }

/-- The message of the error synthesised when a handler reported a library
error but the last-error slot is empty. -/
def synthesisedErrMsg : String :=
  "remoteDispatchClientRequest: internal error: library function returned error but did not set virterror"

/-- Embedding of remoteDispatchClientRequest: parse the envelope, check the
envelope constants, apply the authentication gate, resolve the procedure,
decode the arguments, invoke the handler and assemble the reply.  `hdr` is
`none` when the envelope itself fails to decode; `body` is `none` when the
argument body fails to decode. -/
def remoteDispatchClientRequest (c : Client) (lib : HvLib) :
    Option MessageHeader → Option ArgsVal → DispatchOut
  | none, _ => errDispatch c none "xdr_remote_message_header"
  | some req, body =>
    if req.prog ≠ REMOTE_PROGRAM then
      errDispatch c (some req) "program mismatch (actual %x, expected %x)"
    else if req.vers ≠ REMOTE_PROTOCOL_VERSION then
      errDispatch c (some req) "version mismatch (actual %x, expected %x)"
    else if req.direction ≠ REMOTE_CALL then
      errDispatch c (some req) "direction (%d) != REMOTE_CALL"
    else if req.status ≠ REMOTE_OK then
      errDispatch c (some req) "status (%d) != REMOTE_OK"
    else if c.auth ≠ REMOTE_AUTH_NONE ∧ req.proc ≠ REMOTE_PROC_AUTH_LIST ∧
        req.proc ≠ REMOTE_PROC_AUTH_SASL_INIT ∧
        req.proc ≠ REMOTE_PROC_AUTH_SASL_START ∧
        req.proc ≠ REMOTE_PROC_AUTH_SASL_STEP then
      errDispatch c (some req) "authentication required"
    else if !knownProc req.proc then
      errDispatch c (some req) "unknown procedure: %d"
    else
      match body.bind (fun a => runProc req.proc c lib req a) with
      | none => errDispatch c (some req) "parse args failed"
      | some h =>
        if h.rv < -2 ∨ h.rv > 0 then
          { client := h.client, events := h.events,
            replies := h.replies ++
              [remoteDispatchErrorMsg (some req)
                "internal error - dispatch function returned invalid code %d"],
            argsDecoded := true }
        else if h.rv = -2 then
          { client := h.client, events := h.events, replies := h.replies,
            argsDecoded := true }
        else if h.rv = 0 then
          { client := h.client, events := h.events,
            replies := h.replies ++
              [{ hdr := replyHeader req REMOTE_OK, body := .ok h.ret }],
            argsDecoded := true }
        else
          let verr := if h.client.conn.isSome then lib.connLastError
                      else lib.globalLastError
          let ebody := match verr with
            | some e => rerrorOfVirt e
            | none => sendErrorBody VIR_ERR_RPC synthesisedErrMsg
          { client := h.client, events := h.events,
            replies := h.replies ++
              [{ hdr := replyHeader req REMOTE_ERROR, body := .err ebody }],
            argsDecoded := true }

/-! ## Concrete instances used by witnesses and counterexamples -/

def uuidEx : List Nat := [0, 1, 2, 3, 4, 5, 6, 7, 8, 9, 10, 11, 12, 13, 14, 15]

def domHEx : DomainH := { name := "vm1", uuid := uuidEx, id := 3 }

def netHEx : NetworkH := { name := "net1", uuid := uuidEx }

def domRefEx : DomainRef := { name := "vm1", uuid := uuidEx, id := 3 }

def nodeEx : NodeInfoS :=
  { model := "x86_64", memory := 1048576, cpus := 2, mhz := 2000,
    nodes := 1, sockets := 1, cores := 2, threads := 1 }

def saslEx : SaslOracle :=
  { localAddr := some "192.168.0.1;16509", remoteAddr := some "192.168.0.2;40000",
    newResult := SASL_OK, listMech := some "DIGEST-MD5",
    startErr := SASL_CONTINUE, startOut := some [1, 2, 3],
    stepErr := SASL_OK, stepOut := none, mallocOk := true }

def libEx : HvLib :=
  { connectOpen := fun _ => some 7
    connectOpenReadOnly := fun _ => some 8
    connectClose := fun _ => 0
    supportsFeature := 1
    getType := some "QEMU"
    getVersion := some 2001
    getHostname := some "host1"
    getMaxVcpus := 4
    nodeGetInfo := some nodeEx
    getCapabilities := some "caps"
    getDomain := fun _ _ => some domHEx
    getNetwork := fun _ _ => some netHEx
    domGetSchedType := some ("credit", 2)
    domGetSchedParams := some []
    domSetSchedParams := 0
    domBlockStats := some { rd_req := 1, rd_bytes := 2, wr_req := 3, wr_bytes := 4, errs := 0 }
    domIfaceStats := some { rx_bytes := 1, rx_packets := 2, rx_errs := 0, rx_drop := 0,
                            tx_bytes := 3, tx_packets := 4, tx_errs := 0, tx_drop := 0 }
    domAttachDevice := 0
    domDetachDevice := 0
    domCreate := 0
    domCreateLinux := some domHEx
    domDefineXml := some domHEx
    domDestroy := 0
    domDumpXml := some "xml"
    domGetAutostart := some 1
    domGetInfo := some { state := 1, maxMem := 512, memory := 256, nrVirtCpu := 2, cpuTime := 99 }
    domGetMaxMemory := 512
    domGetMaxVcpus := 8
    domGetOsType := some "linux"
    domGetVcpus := some ([], [])
    migratePrepare := some ([9, 9], some "tcp://dst")
    migratePerform := 0
    migrateFinish := some domHEx
    listDefinedDomains := some ["d1"]
    lookupById := some domHEx
    lookupByName := some domHEx
    lookupByUuid := some domHEx
    numOfDefinedDomains := 1
    pinVcpu := 0
    domReboot := 0
    domRestore := 0
    domResume := 0
    domSave := 0
    domCoreDump := 0
    domSetAutostart := 0
    domSetMaxMemory := 0
    domSetMemory := 0
    domSetVcpus := 0
    domShutdown := 0
    domSuspend := 0
    domUndefine := 0
    listDefinedNetworks := some ["n1"]
    listDomains := some [1]
    listNetworks := some ["n1"]
    netCreate := 0
    netCreateXml := some netHEx
    netDefineXml := some netHEx
    netDestroy := 0
    netDumpXml := some "netxml"
    netGetAutostart := some 0
    netGetBridgeName := some "virbr0"
    netLookupByName := some netHEx
    netLookupByUuid := some netHEx
    netSetAutostart := 0
    netUndefine := 0
    numOfDefinedNetworks := 1
    numOfDomains := 1
    numOfNetworks := 1
    strdupOk := true
    schedMallocOk := true
    authCallocOk := true
    connLastError := none
    globalLastError := none
    sasl := saslEx }

def reqEx : MessageHeader :=
  { prog := REMOTE_PROGRAM, vers := REMOTE_PROTOCOL_VERSION,
    proc := REMOTE_PROC_GET_HOSTNAME, direction := REMOTE_CALL,
    serial := 42, status := REMOTE_OK }

def cNew : Client :=
  { conn := none, auth := REMOTE_AUTH_NONE, saslconn := false, readonly := false }

def cOpenEx : Client :=
  { conn := some 7, auth := REMOTE_AUTH_NONE, saslconn := false, readonly := false }

def cAuthReq : Client :=
  { conn := none, auth := REMOTE_AUTH_SASL, saslconn := false, readonly := false }

def cSaslNeg : Client :=
  { conn := none, auth := REMOTE_AUTH_SASL, saslconn := true, readonly := false }

def cRoEx : Client :=
  { conn := none, auth := REMOTE_AUTH_NONE, saslconn := false, readonly := true }

/-! ## Observables, witness fixtures and the open/close trace model -/

/-- The complete flag of a SASL start/step return body. -/
def saslComplete : RetVal → Option Int
  | .sasl c _ _ => some c
  | _ => none

/-- The nil flag of a SASL start/step return body. -/
def saslNil : RetVal → Option Bool
  | .sasl _ n _ => some n
  | _ => none

/-- The data payload of a SASL start/step return body. -/
def saslData : RetVal → Option (List Nat)
  | .sasl _ _ d => some d
  | _ => none

/-- Oracle where the SASL library answers CONTINUE with a short payload. -/
def libSaslCont : HvLib :=
  { libEx with
    sasl := { saslEx with
              startErr := SASL_CONTINUE
              startOut := some [5]
              stepErr := SASL_CONTINUE
              stepOut := some [5] } }

/-- Oracle where the SASL library answers OK with no payload. -/
def libSaslOk : HvLib :=
  { libEx with
    sasl := { saslEx with
              startErr := SASL_OK
              startOut := none
              stepErr := SASL_OK
              stepOut := none } }

/-- Oracle where the SASL library answers with a failure code. -/
def libSaslBad : HvLib :=
  { libEx with
    sasl := { saslEx with
              startErr := 5
              stepErr := 5 } }

/-- Oracle where the SASL library answers OK with an oversize payload. -/
def libSaslLong : HvLib :=
  { libEx with
    sasl := { saslEx with
              startErr := SASL_OK
              startOut := some (List.replicate 65537 0)
              stepErr := SASL_OK
              stepOut := some (List.replicate 65537 0) } }

/-- Modelled from the spec: the wire decoder for the scheduler-parameter
tagged union (remote_sched_param_value).  The union type and its generated
XDR filter live in remote_protocol.x, which is not under src; spec §4.1
states that decoders fail when a tagged-union discriminant is unknown, so
the union (declared without a default arm) decodes only the six known
discriminants and fails on any other. -/
def decode_remote_sched_param_value (t : Int) (bits : Nat) : Option SchedValue :=
  if t = VIR_DOMAIN_SCHED_FIELD_INT then some (.i bits)
  else if t = VIR_DOMAIN_SCHED_FIELD_UINT then some (.ui bits)
  else if t = VIR_DOMAIN_SCHED_FIELD_LLONG then some (.l bits)
  else if t = VIR_DOMAIN_SCHED_FIELD_ULLONG then some (.ul bits)
  else if t = VIR_DOMAIN_SCHED_FIELD_DOUBLE then some (.d bits)
  else if t = VIR_DOMAIN_SCHED_FIELD_BOOLEAN then some (.b bits)
  else none

/-- A library-side scheduler parameter with an unknown type tag. -/
def pUnk : LibSchedParam :=
  { field := "weight", ptype := 99,
    pvalue := { i := 0, ui := 0, l := 0, ul := 0, d := 0, b := 0 } }

/-- Oracle whose scheduler-parameter query returns one parameter with an
unknown type tag. -/
def libSchedUnk : HvLib :=
  { libEx with domGetSchedParams := some [pUnk] }

/-- A reply header carries the call's program, version, procedure and
serial unchanged, with direction REPLY. -/
def EchoHdr (req h : MessageHeader) : Prop :=
  h.prog = req.prog ∧ h.vers = req.vers ∧ h.proc = req.proc ∧
  h.serial = req.serial ∧ h.direction = REMOTE_REPLY

/-- All replies a handler wrote echo the call envelope. -/
def RepliesEcho (req : MessageHeader) (h : HOut) : Prop :=
  ∀ r ∈ h.replies, EchoHdr req r.hdr

/-- A call envelope whose program number does not match. -/
def reqBad : MessageHeader :=
  { prog := 1, vers := REMOTE_PROTOCOL_VERSION,
    proc := REMOTE_PROC_GET_HOSTNAME, direction := REMOTE_CALL,
    serial := 7, status := REMOTE_OK }

/-- One OPEN or CLOSE request together with the library oracle answering
it. -/
inductive OCOp where
  | openOp (req : MessageHeader) (name : Option String) (flags : Nat) (lib : HvLib)
  | closeOp (req : MessageHeader) (lib : HvLib)

/-- The outcome of one OPEN or CLOSE request: the reply the client saw. -/
inductive OCOutcome where
  | openOK
  | openLibFail
  | alreadyOpen
  | closeOK
  | closeFail
  | notOpen
  deriving Repr, DecidableEq

/-- Dispatch one OPEN or CLOSE request and classify its outcome by the
handler's contract return code. -/
def ocStep (c : Client) : OCOp → Client × OCOutcome
  | .openOp req name flags lib =>
    let h := remoteDispatchOpen c lib req name flags
    (h.client,
      if h.rv = 0 then .openOK else if h.rv = -2 then .alreadyOpen else .openLibFail)
  | .closeOp req lib =>
    let h := remoteDispatchClose c lib req
    (h.client,
      if c.conn.isNone then .notOpen else if h.rv = 0 then .closeOK else .closeFail)

/-- Dispatch a sequence of OPEN and CLOSE requests, collecting the
outcomes. -/
def ocRun : Client → List OCOp → Client × List OCOutcome
  | _c, [] => (_c, [])
  | c, op :: rest =>
    let s := ocStep c op
    let r := ocRun s.1 rest
    (r.1, s.2 :: r.2)

/-- How one outcome changes whether the connection slot is occupied: a
successful OPEN fills it, a successful CLOSE empties it, everything else
leaves it alone. -/
def ocg (b : Bool) : OCOutcome → Bool
  | .openOK => true
  | .closeOK => false
  | _ => b

/-! ## C10: blind errors -/

/-- C10: when the request envelope itself fails to decode, the error reply
carries the synthesised envelope with program = REMOTE_PROGRAM,
version = REMOTE_PROTOCOL_VERSION, procedure = OPEN, direction = REPLY,
serial = 1 and status = ERROR. -/
theorem blind_error_synthesised_envelope (c : Client) (lib : HvLib)
    (body : Option ArgsVal) :
    (remoteDispatchClientRequest c lib none body).replies =
      [{ hdr := { prog := REMOTE_PROGRAM, vers := REMOTE_PROTOCOL_VERSION,
                  proc := REMOTE_PROC_OPEN, direction := REMOTE_REPLY,
                  serial := 1, status := REMOTE_ERROR },
         body := .err (sendErrorBody VIR_ERR_RPC "xdr_remote_message_header") }] :=
  rfl

/-! ## C1: the authentication gate -/

/-- Facts about a dispatch-level error exit: no argument decoding, no
events, exactly one reply, and that reply has status ERROR. -/
theorem errDispatch_props (c : Client) (req : Option MessageHeader) (msg : String) :
    (errDispatch c req msg).argsDecoded = false ∧
    (errDispatch c req msg).events = [] ∧
    (errDispatch c req msg).replies.length = 1 ∧
    ∀ r ∈ (errDispatch c req msg).replies, r.hdr.status = REMOTE_ERROR := by
  refine ⟨rfl, rfl, rfl, ?_⟩
  intro r hr
  simp only [errDispatch] at hr
  rw [List.mem_singleton] at hr
  subst hr
  cases req <;> rfl

/-- C1: on a session that still requires authentication, dispatching any
procedure other than AUTH_LIST, AUTH_SASL_INIT, AUTH_SASL_START or
AUTH_SASL_STEP produces exactly one reply, a status=ERROR reply, without
decoding arguments and without performing any hypervisor-library event. -/
theorem auth_gate_blocks_nonauth_procedures (c : Client) (lib : HvLib)
    (req : MessageHeader) (body : Option ArgsVal)
    (hauth : c.auth ≠ REMOTE_AUTH_NONE)
    (h1 : req.proc ≠ REMOTE_PROC_AUTH_LIST)
    (h2 : req.proc ≠ REMOTE_PROC_AUTH_SASL_INIT)
    (h3 : req.proc ≠ REMOTE_PROC_AUTH_SASL_START)
    (h4 : req.proc ≠ REMOTE_PROC_AUTH_SASL_STEP) :
    (remoteDispatchClientRequest c lib (some req) body).argsDecoded = false ∧
    (remoteDispatchClientRequest c lib (some req) body).events = [] ∧
    (remoteDispatchClientRequest c lib (some req) body).replies.length = 1 ∧
    ∀ r ∈ (remoteDispatchClientRequest c lib (some req) body).replies,
      r.hdr.status = REMOTE_ERROR := by
  simp only [remoteDispatchClientRequest]
  by_cases hp : req.prog ≠ REMOTE_PROGRAM
  · rw [if_pos hp]; exact errDispatch_props ..
  · rw [if_neg hp]
    by_cases hv : req.vers ≠ REMOTE_PROTOCOL_VERSION
    · rw [if_pos hv]; exact errDispatch_props ..
    · rw [if_neg hv]
      by_cases hd : req.direction ≠ REMOTE_CALL
      · rw [if_pos hd]; exact errDispatch_props ..
      · rw [if_neg hd]
        by_cases hs : req.status ≠ REMOTE_OK
        · rw [if_pos hs]; exact errDispatch_props ..
        · rw [if_neg hs]
          rw [if_pos ⟨hauth, h1, h2, h3, h4⟩]
          exact errDispatch_props ..

/-- Witness for the auth gate: a session requiring SASL authentication and
a GET_HOSTNAME request. -/
theorem auth_gate_blocks_nonauth_procedures_witness :
    (remoteDispatchClientRequest cAuthReq libEx (some reqEx) none).argsDecoded = false ∧
    (remoteDispatchClientRequest cAuthReq libEx (some reqEx) none).events = [] ∧
    (remoteDispatchClientRequest cAuthReq libEx (some reqEx) none).replies.length = 1 ∧
    ∀ r ∈ (remoteDispatchClientRequest cAuthReq libEx (some reqEx) none).replies,
      r.hdr.status = REMOTE_ERROR :=
  auth_gate_blocks_nonauth_procedures cAuthReq libEx reqEx none
    (by decide) (by decide) (by decide) (by decide) (by decide)

/-! ## C5: the read-only projection of OPEN -/

/-- ORing the read-only bit in sets bit 0 of the flags word. -/
theorem lor_one_bit0 (x : Nat) : Nat.testBit (x ||| VIR_CONNECT_RO) 0 = true := by
  rw [Nat.testBit_or]
  simp [VIR_CONNECT_RO]

/-- Flags with the read-only bit ORed in select the read-only variant of the
open call. -/
theorem lor_one_and_one_ne (x : Nat) : (x ||| VIR_CONNECT_RO) &&& VIR_CONNECT_RO ≠ 0 := by
  show (x ||| 1) &&& 1 ≠ 0
  intro hc
  have h : Nat.testBit (x ||| 1) 0 = true := by rw [Nat.testBit_or]; simp
  rw [Nat.testBit_zero, decide_eq_true_eq] at h
  rw [Nat.and_one_is_mod] at hc
  omega

/-- C5: on a read-only session with no connection yet, the OPEN handler
passes flags with the read-only bit ORed in, regardless of the
client-supplied flags, and invokes the read-only variant of the hypervisor
open. -/
theorem open_forces_readonly_flag (c : Client) (lib : HvLib) (req : MessageHeader)
    (name : Option String) (flags0 : Nat)
    (hro : c.readonly = true) (hconn : c.conn = none) :
    (remoteDispatchOpen c lib req name flags0).events =
      [Event.openCall (flags0 ||| VIR_CONNECT_RO) true] ∧
    Nat.testBit (flags0 ||| VIR_CONNECT_RO) 0 = true := by
  refine ⟨?_, lor_one_bit0 flags0⟩
  have hd : decide ((flags0 ||| VIR_CONNECT_RO) &&& VIR_CONNECT_RO ≠ 0) = true :=
    decide_eq_true (lor_one_and_one_ne flags0)
  unfold remoteDispatchOpen
  rw [hconn, hro]
  simp only [Option.isSome_none, Bool.false_eq_true, if_false, if_true]
  rw [if_pos (lor_one_and_one_ne flags0)]
  cases lib.connectOpenReadOnly name <;> simp [hok, hlib, hd]

/-- Witness for the read-only projection: a read-only session opening with
client flags 0. -/
theorem open_forces_readonly_flag_witness :
    (remoteDispatchOpen cRoEx libEx reqEx none 0).events =
      [Event.openCall (0 ||| VIR_CONNECT_RO) true] ∧
    Nat.testBit (0 ||| VIR_CONNECT_RO) 0 = true :=
  open_forces_readonly_flag cRoEx libEx reqEx none 0 rfl rfl

/-! ## C3: per-call handle release (code bug in the source) -/

/-- C3 (failing-input evaluation): DOMAIN_MIGRATE_PERFORM acquires the
domain handle through get_nonnull_domain, the library call succeeds
(rv = 0), and the handler performs no release of the handle — contradicting
the claim that every handler releases an acquired handle on every exit path
except DOMAIN_DESTROY on success. -/
theorem migrate_perform_never_releases_domain_handle :
    (remoteDispatchDomainMigratePerform cOpenEx libEx reqEx domRefEx []
        "tcp://dst" 0 none 0).rv = 0 ∧
    (remoteDispatchDomainMigratePerform cOpenEx libEx reqEx domRefEx []
        "tcp://dst" 0 none 0).events.count Event.acquireDomain = 1 ∧
    (remoteDispatchDomainMigratePerform cOpenEx libEx reqEx domRefEx []
        "tcp://dst" 0 none 0).events.count Event.freeDomain = 0 := by
  decide

/-! ## C4: bound checks before allocation (code bug in the source) -/

/-- C4 (failing-input evaluation): a GET_VCPUS request with maxinfo = 2 and
maplen = 2^30 has a mathematical maxinfo*maplen product of 2^31, far above
REMOTE_CPUMAPS_MAX, yet the handler's 32-bit signed product wraps to -2^31,
the bound check passes, both callocs are reached (the cpumap one with the
wrapped count), the library is invoked and the request completes with
status OK — contradicting the claim that such a request yields a
status=ERROR reply with no allocation sized by the value. -/
theorem getvcpus_cpumaps_bound_check_wraps :
    2 * 1073741824 > REMOTE_CPUMAPS_MAX ∧
    wrap32 (2 * 1073741824) = -2147483648 ∧
    (remoteDispatchDomainGetVcpus cOpenEx libEx reqEx domRefEx 2 1073741824).rv = 0 ∧
    (remoteDispatchDomainGetVcpus cOpenEx libEx reqEx domRefEx 2 1073741824).replies = [] ∧
    Event.alloc (wrap32 (2 * 1073741824)) ∈
      (remoteDispatchDomainGetVcpus cOpenEx libEx reqEx domRefEx 2 1073741824).events ∧
    Event.hv "virDomainGetVcpus" ∈
      (remoteDispatchDomainGetVcpus cOpenEx libEx reqEx domRefEx 2 1073741824).events := by
  decide

/-! ## C7 and C8: SASL result handling and nil-payload forwarding -/

/-- SASL result handling of AUTH_SASL_START: CONTINUE keeps the session
negotiating with complete = 0; OK clears the auth requirement with
complete = 1; any other result, or an oversize server-out payload, fails
the authentication and destroys the SASL context. -/
theorem sasl_start_transitions (c : Client) (lib : HvLib) (req : MessageHeader)
    (mech : String) (nil : Bool) (data : List Nat)
    (hauth : c.auth = REMOTE_AUTH_SASL) (hctx : c.saslconn = true)
    (hmal : lib.sasl.mallocOk = true) :
    (lib.sasl.startErr = SASL_CONTINUE →
      ¬ ((lib.sasl.startOut.getD []).length > REMOTE_AUTH_SASL_DATA_MAX) →
      (remoteDispatchAuthSaslStart c lib req mech nil data).rv = 0 ∧
      saslComplete (remoteDispatchAuthSaslStart c lib req mech nil data).ret = some 0 ∧
      (remoteDispatchAuthSaslStart c lib req mech nil data).client.auth = REMOTE_AUTH_SASL ∧
      (remoteDispatchAuthSaslStart c lib req mech nil data).client.saslconn = true) ∧
    (lib.sasl.startErr = SASL_OK →
      ¬ ((lib.sasl.startOut.getD []).length > REMOTE_AUTH_SASL_DATA_MAX) →
      (remoteDispatchAuthSaslStart c lib req mech nil data).rv = 0 ∧
      saslComplete (remoteDispatchAuthSaslStart c lib req mech nil data).ret = some 1 ∧
      (remoteDispatchAuthSaslStart c lib req mech nil data).client.auth = REMOTE_AUTH_NONE) ∧
    (lib.sasl.startErr ≠ SASL_OK → lib.sasl.startErr ≠ SASL_CONTINUE →
      (remoteDispatchAuthSaslStart c lib req mech nil data).rv = -2 ∧
      (remoteDispatchAuthSaslStart c lib req mech nil data).replies =
        [remoteDispatchFailAuthMsg req] ∧
      (remoteDispatchAuthSaslStart c lib req mech nil data).client.saslconn = false ∧
      Event.saslDispose ∈ (remoteDispatchAuthSaslStart c lib req mech nil data).events) ∧
    ((lib.sasl.startOut.getD []).length > REMOTE_AUTH_SASL_DATA_MAX →
      (remoteDispatchAuthSaslStart c lib req mech nil data).rv = -2 ∧
      (remoteDispatchAuthSaslStart c lib req mech nil data).replies =
        [remoteDispatchFailAuthMsg req] ∧
      (remoteDispatchAuthSaslStart c lib req mech nil data).client.saslconn = false ∧
      Event.saslDispose ∈ (remoteDispatchAuthSaslStart c lib req mech nil data).events) := by
  refine ⟨?_, ?_, ?_, ?_⟩
  · intro he hlen
    cases ho : lib.sasl.startOut with
    | none =>
      simp [remoteDispatchAuthSaslStart, hauth, hctx, hmal, he, ho,
        SASL_OK, SASL_CONTINUE, hok, hfail, herr, herrC, saslComplete,
        REMOTE_AUTH_SASL, REMOTE_AUTH_NONE]
    | some payload =>
      rw [ho] at hlen
      simp only [Option.getD_some, gt_iff_lt, not_lt] at hlen
      have hlen2 : ¬ (REMOTE_AUTH_SASL_DATA_MAX < payload.length) := by omega
      simp [remoteDispatchAuthSaslStart, hauth, hctx, hmal, he, ho, hlen2,
        SASL_OK, SASL_CONTINUE, hok, hfail, herr, herrC, saslComplete,
        REMOTE_AUTH_SASL, REMOTE_AUTH_NONE]
  · intro he hlen
    cases ho : lib.sasl.startOut with
    | none =>
      simp [remoteDispatchAuthSaslStart, hauth, hctx, hmal, he, ho,
        SASL_OK, SASL_CONTINUE, hok, hfail, herr, herrC, saslComplete,
        REMOTE_AUTH_SASL, REMOTE_AUTH_NONE]
    | some payload =>
      rw [ho] at hlen
      simp only [Option.getD_some, gt_iff_lt, not_lt] at hlen
      have hlen2 : ¬ (REMOTE_AUTH_SASL_DATA_MAX < payload.length) := by omega
      simp [remoteDispatchAuthSaslStart, hauth, hctx, hmal, he, ho, hlen2,
        SASL_OK, SASL_CONTINUE, hok, hfail, herr, herrC, saslComplete,
        REMOTE_AUTH_SASL, REMOTE_AUTH_NONE]
  · intro h1 h2
    simp [remoteDispatchAuthSaslStart, hauth, hctx, h1, h2, hfail,
      remoteDispatchFailAuthMsg]
  · intro hlen
    by_cases he : lib.sasl.startErr ≠ SASL_OK ∧ lib.sasl.startErr ≠ SASL_CONTINUE
    · simp [remoteDispatchAuthSaslStart, hauth, hctx, he.1, he.2, hfail,
        remoteDispatchFailAuthMsg]
    · cases ho : lib.sasl.startOut with
      | none =>
        rw [ho] at hlen
        simp at hlen
      | some payload =>
        rw [ho] at hlen
        simp only [Option.getD_some, gt_iff_lt] at hlen
        simp [remoteDispatchAuthSaslStart, hauth, hctx, he, ho, hlen, hfail,
          remoteDispatchFailAuthMsg]

/-- SASL result handling of AUTH_SASL_STEP, identical to the START rule. -/
theorem sasl_step_transitions (c : Client) (lib : HvLib) (req : MessageHeader)
    (nil : Bool) (data : List Nat)
    (hauth : c.auth = REMOTE_AUTH_SASL) (hctx : c.saslconn = true)
    (hmal : lib.sasl.mallocOk = true) :
    (lib.sasl.stepErr = SASL_CONTINUE →
      ¬ ((lib.sasl.stepOut.getD []).length > REMOTE_AUTH_SASL_DATA_MAX) →
      (remoteDispatchAuthSaslStep c lib req nil data).rv = 0 ∧
      saslComplete (remoteDispatchAuthSaslStep c lib req nil data).ret = some 0 ∧
      (remoteDispatchAuthSaslStep c lib req nil data).client.auth = REMOTE_AUTH_SASL ∧
      (remoteDispatchAuthSaslStep c lib req nil data).client.saslconn = true) ∧
    (lib.sasl.stepErr = SASL_OK →
      ¬ ((lib.sasl.stepOut.getD []).length > REMOTE_AUTH_SASL_DATA_MAX) →
      (remoteDispatchAuthSaslStep c lib req nil data).rv = 0 ∧
      saslComplete (remoteDispatchAuthSaslStep c lib req nil data).ret = some 1 ∧
      (remoteDispatchAuthSaslStep c lib req nil data).client.auth = REMOTE_AUTH_NONE) ∧
    (lib.sasl.stepErr ≠ SASL_OK → lib.sasl.stepErr ≠ SASL_CONTINUE →
      (remoteDispatchAuthSaslStep c lib req nil data).rv = -2 ∧
      (remoteDispatchAuthSaslStep c lib req nil data).replies =
        [remoteDispatchFailAuthMsg req] ∧
      (remoteDispatchAuthSaslStep c lib req nil data).client.saslconn = false ∧
      Event.saslDispose ∈ (remoteDispatchAuthSaslStep c lib req nil data).events) ∧
    ((lib.sasl.stepOut.getD []).length > REMOTE_AUTH_SASL_DATA_MAX →
      (remoteDispatchAuthSaslStep c lib req nil data).rv = -2 ∧
      (remoteDispatchAuthSaslStep c lib req nil data).replies =
        [remoteDispatchFailAuthMsg req] ∧
      (remoteDispatchAuthSaslStep c lib req nil data).client.saslconn = false ∧
      Event.saslDispose ∈ (remoteDispatchAuthSaslStep c lib req nil data).events) := by
  refine ⟨?_, ?_, ?_, ?_⟩
  · intro he hlen
    cases ho : lib.sasl.stepOut with
    | none =>
      simp [remoteDispatchAuthSaslStep, hauth, hctx, hmal, he, ho,
        SASL_OK, SASL_CONTINUE, hok, hfail, herr, herrC, saslComplete,
        REMOTE_AUTH_SASL, REMOTE_AUTH_NONE]
    | some payload =>
      rw [ho] at hlen
      simp only [Option.getD_some, gt_iff_lt, not_lt] at hlen
      have hlen2 : ¬ (REMOTE_AUTH_SASL_DATA_MAX < payload.length) := by omega
      simp [remoteDispatchAuthSaslStep, hauth, hctx, hmal, he, ho, hlen2,
        SASL_OK, SASL_CONTINUE, hok, hfail, herr, herrC, saslComplete,
        REMOTE_AUTH_SASL, REMOTE_AUTH_NONE]
  · intro he hlen
    cases ho : lib.sasl.stepOut with
    | none =>
      simp [remoteDispatchAuthSaslStep, hauth, hctx, hmal, he, ho,
        SASL_OK, SASL_CONTINUE, hok, hfail, herr, herrC, saslComplete,
        REMOTE_AUTH_SASL, REMOTE_AUTH_NONE]
    | some payload =>
      rw [ho] at hlen
      simp only [Option.getD_some, gt_iff_lt, not_lt] at hlen
      have hlen2 : ¬ (REMOTE_AUTH_SASL_DATA_MAX < payload.length) := by omega
      simp [remoteDispatchAuthSaslStep, hauth, hctx, hmal, he, ho, hlen2,
        SASL_OK, SASL_CONTINUE, hok, hfail, herr, herrC, saslComplete,
        REMOTE_AUTH_SASL, REMOTE_AUTH_NONE]
  · intro h1 h2
    simp [remoteDispatchAuthSaslStep, hauth, hctx, h1, h2, hfail,
      remoteDispatchFailAuthMsg]
  · intro hlen
    by_cases he : lib.sasl.stepErr ≠ SASL_OK ∧ lib.sasl.stepErr ≠ SASL_CONTINUE
    · simp [remoteDispatchAuthSaslStep, hauth, hctx, he.1, he.2, hfail,
        remoteDispatchFailAuthMsg]
    · cases ho : lib.sasl.stepOut with
      | none =>
        rw [ho] at hlen
        simp at hlen
      | some payload =>
        rw [ho] at hlen
        simp only [Option.getD_some, gt_iff_lt] at hlen
        simp [remoteDispatchAuthSaslStep, hauth, hctx, he, ho, hlen, hfail,
          remoteDispatchFailAuthMsg]

/-- C7: on AUTH_SASL_START and AUTH_SASL_STEP, a SASL CONTINUE result
yields complete = 0 and the session stays negotiating; a SASL OK result
yields complete = 1 and clears the session's auth requirement; any other
SASL result, or a server-out payload longer than REMOTE_AUTH_SASL_DATA_MAX,
produces the authentication-failed error reply and destroys the SASL
context. -/
theorem sasl_result_transitions (c : Client) (lib : HvLib) (req : MessageHeader)
    (mech : String) (nil : Bool) (data : List Nat) (nil2 : Bool) (data2 : List Nat)
    (hauth : c.auth = REMOTE_AUTH_SASL) (hctx : c.saslconn = true)
    (hmal : lib.sasl.mallocOk = true) :
    ((lib.sasl.startErr = SASL_CONTINUE →
      ¬ ((lib.sasl.startOut.getD []).length > REMOTE_AUTH_SASL_DATA_MAX) →
      (remoteDispatchAuthSaslStart c lib req mech nil data).rv = 0 ∧
      saslComplete (remoteDispatchAuthSaslStart c lib req mech nil data).ret = some 0 ∧
      (remoteDispatchAuthSaslStart c lib req mech nil data).client.auth = REMOTE_AUTH_SASL ∧
      (remoteDispatchAuthSaslStart c lib req mech nil data).client.saslconn = true) ∧
    (lib.sasl.startErr = SASL_OK →
      ¬ ((lib.sasl.startOut.getD []).length > REMOTE_AUTH_SASL_DATA_MAX) →
      (remoteDispatchAuthSaslStart c lib req mech nil data).rv = 0 ∧
      saslComplete (remoteDispatchAuthSaslStart c lib req mech nil data).ret = some 1 ∧
      (remoteDispatchAuthSaslStart c lib req mech nil data).client.auth = REMOTE_AUTH_NONE) ∧
    (lib.sasl.startErr ≠ SASL_OK → lib.sasl.startErr ≠ SASL_CONTINUE →
      (remoteDispatchAuthSaslStart c lib req mech nil data).rv = -2 ∧
      (remoteDispatchAuthSaslStart c lib req mech nil data).replies =
        [remoteDispatchFailAuthMsg req] ∧
      (remoteDispatchAuthSaslStart c lib req mech nil data).client.saslconn = false ∧
      Event.saslDispose ∈ (remoteDispatchAuthSaslStart c lib req mech nil data).events) ∧
    ((lib.sasl.startOut.getD []).length > REMOTE_AUTH_SASL_DATA_MAX →
      (remoteDispatchAuthSaslStart c lib req mech nil data).rv = -2 ∧
      (remoteDispatchAuthSaslStart c lib req mech nil data).replies =
        [remoteDispatchFailAuthMsg req] ∧
      (remoteDispatchAuthSaslStart c lib req mech nil data).client.saslconn = false ∧
      Event.saslDispose ∈ (remoteDispatchAuthSaslStart c lib req mech nil data).events)) ∧
    ((lib.sasl.stepErr = SASL_CONTINUE →
      ¬ ((lib.sasl.stepOut.getD []).length > REMOTE_AUTH_SASL_DATA_MAX) →
      (remoteDispatchAuthSaslStep c lib req nil2 data2).rv = 0 ∧
      saslComplete (remoteDispatchAuthSaslStep c lib req nil2 data2).ret = some 0 ∧
      (remoteDispatchAuthSaslStep c lib req nil2 data2).client.auth = REMOTE_AUTH_SASL ∧
      (remoteDispatchAuthSaslStep c lib req nil2 data2).client.saslconn = true) ∧
    (lib.sasl.stepErr = SASL_OK →
      ¬ ((lib.sasl.stepOut.getD []).length > REMOTE_AUTH_SASL_DATA_MAX) →
      (remoteDispatchAuthSaslStep c lib req nil2 data2).rv = 0 ∧
      saslComplete (remoteDispatchAuthSaslStep c lib req nil2 data2).ret = some 1 ∧
      (remoteDispatchAuthSaslStep c lib req nil2 data2).client.auth = REMOTE_AUTH_NONE) ∧
    (lib.sasl.stepErr ≠ SASL_OK → lib.sasl.stepErr ≠ SASL_CONTINUE →
      (remoteDispatchAuthSaslStep c lib req nil2 data2).rv = -2 ∧
      (remoteDispatchAuthSaslStep c lib req nil2 data2).replies =
        [remoteDispatchFailAuthMsg req] ∧
      (remoteDispatchAuthSaslStep c lib req nil2 data2).client.saslconn = false ∧
      Event.saslDispose ∈ (remoteDispatchAuthSaslStep c lib req nil2 data2).events) ∧
    ((lib.sasl.stepOut.getD []).length > REMOTE_AUTH_SASL_DATA_MAX →
      (remoteDispatchAuthSaslStep c lib req nil2 data2).rv = -2 ∧
      (remoteDispatchAuthSaslStep c lib req nil2 data2).replies =
        [remoteDispatchFailAuthMsg req] ∧
      (remoteDispatchAuthSaslStep c lib req nil2 data2).client.saslconn = false ∧
      Event.saslDispose ∈ (remoteDispatchAuthSaslStep c lib req nil2 data2).events)) :=
  ⟨sasl_start_transitions c lib req mech nil data hauth hctx hmal,
   sasl_step_transitions c lib req nil2 data2 hauth hctx hmal⟩

/-- Witness for the SASL result handling: the four SASL outcomes exercised
on a negotiating session. -/
theorem sasl_result_transitions_witness :
    ((remoteDispatchAuthSaslStart cSaslNeg libSaslCont reqEx "PLAIN" true []).rv = 0 ∧
     saslComplete (remoteDispatchAuthSaslStart cSaslNeg libSaslCont reqEx "PLAIN" true []).ret = some 0 ∧
     (remoteDispatchAuthSaslStart cSaslNeg libSaslCont reqEx "PLAIN" true []).client.auth = REMOTE_AUTH_SASL ∧
     (remoteDispatchAuthSaslStart cSaslNeg libSaslCont reqEx "PLAIN" true []).client.saslconn = true) ∧
    ((remoteDispatchAuthSaslStep cSaslNeg libSaslOk reqEx true []).rv = 0 ∧
     saslComplete (remoteDispatchAuthSaslStep cSaslNeg libSaslOk reqEx true []).ret = some 1 ∧
     (remoteDispatchAuthSaslStep cSaslNeg libSaslOk reqEx true []).client.auth = REMOTE_AUTH_NONE) ∧
    ((remoteDispatchAuthSaslStart cSaslNeg libSaslBad reqEx "PLAIN" true []).rv = -2 ∧
     (remoteDispatchAuthSaslStart cSaslNeg libSaslBad reqEx "PLAIN" true []).replies =
       [remoteDispatchFailAuthMsg reqEx] ∧
     (remoteDispatchAuthSaslStart cSaslNeg libSaslBad reqEx "PLAIN" true []).client.saslconn = false ∧
     Event.saslDispose ∈ (remoteDispatchAuthSaslStart cSaslNeg libSaslBad reqEx "PLAIN" true []).events) ∧
    ((remoteDispatchAuthSaslStep cSaslNeg libSaslLong reqEx true []).rv = -2 ∧
     (remoteDispatchAuthSaslStep cSaslNeg libSaslLong reqEx true []).replies =
       [remoteDispatchFailAuthMsg reqEx] ∧
     (remoteDispatchAuthSaslStep cSaslNeg libSaslLong reqEx true []).client.saslconn = false ∧
     Event.saslDispose ∈ (remoteDispatchAuthSaslStep cSaslNeg libSaslLong reqEx true []).events) := by
  refine ⟨?_, ?_, ?_, ?_⟩
  · exact (sasl_result_transitions cSaslNeg libSaslCont reqEx "PLAIN" true [] true []
      rfl rfl rfl).1.1 rfl (by decide)
  · exact (sasl_result_transitions cSaslNeg libSaslOk reqEx "PLAIN" true [] true []
      rfl rfl rfl).2.2.1 rfl (by decide)
  · exact (sasl_result_transitions cSaslNeg libSaslBad reqEx "PLAIN" true [] true []
      rfl rfl rfl).1.2.2.1 (by decide) (by decide)
  · exact (sasl_result_transitions cSaslNeg libSaslLong reqEx "PLAIN" true [] true []
      rfl rfl rfl).2.2.2.2
      (by
        have h : libSaslLong.sasl.stepOut = some (List.replicate 65537 0) := rfl
        rw [h, Option.getD_some, List.length_replicate]
        decide)

/-- C8: the SASL nil flag is forwarded exactly in both directions: the
client payload handed to the SASL library is absent iff the request's nil
flag is set (an empty payload with nil unset stays a present, empty
payload), and the reply's nil flag is set iff the SASL library returned no
server-out payload, independent of the payload's length. -/
theorem sasl_nil_payload_forwarding (c : Client) (lib : HvLib) (req : MessageHeader)
    (mech : String) (nil : Bool) (data : List Nat) (nil2 : Bool) (data2 : List Nat)
    (hauth : c.auth = REMOTE_AUTH_SASL) (hctx : c.saslconn = true)
    (hmal : lib.sasl.mallocOk = true)
    (hse : lib.sasl.startErr = SASL_OK ∨ lib.sasl.startErr = SASL_CONTINUE)
    (hsl : ¬ ((lib.sasl.startOut.getD []).length > REMOTE_AUTH_SASL_DATA_MAX))
    (hpe : lib.sasl.stepErr = SASL_OK ∨ lib.sasl.stepErr = SASL_CONTINUE)
    (hpl : ¬ ((lib.sasl.stepOut.getD []).length > REMOTE_AUTH_SASL_DATA_MAX)) :
    (Event.saslCall "sasl_server_start" (if nil then none else some data) ∈
       (remoteDispatchAuthSaslStart c lib req mech nil data).events ∧
     ((if nil then none else some data) = (none : Option (List Nat)) ↔ nil = true) ∧
     saslNil (remoteDispatchAuthSaslStart c lib req mech nil data).ret =
       some lib.sasl.startOut.isNone ∧
     saslData (remoteDispatchAuthSaslStart c lib req mech nil data).ret =
       some (lib.sasl.startOut.getD [])) ∧
    (Event.saslCall "sasl_server_step" (if nil2 then none else some data2) ∈
       (remoteDispatchAuthSaslStep c lib req nil2 data2).events ∧
     ((if nil2 then none else some data2) = (none : Option (List Nat)) ↔ nil2 = true) ∧
     saslNil (remoteDispatchAuthSaslStep c lib req nil2 data2).ret =
       some lib.sasl.stepOut.isNone ∧
     saslData (remoteDispatchAuthSaslStep c lib req nil2 data2).ret =
       some (lib.sasl.stepOut.getD [])) := by
  constructor
  · rcases hse with he | he <;>
    · cases ho : lib.sasl.startOut with
      | none =>
        cases nil <;>
          simp [remoteDispatchAuthSaslStart, hauth, hctx, hmal, he, ho,
            SASL_OK, SASL_CONTINUE, hok, hfail, herr, herrC, saslNil, saslData]
      | some payload =>
        rw [ho] at hsl
        simp only [Option.getD_some, gt_iff_lt, not_lt] at hsl
        have hlen2 : ¬ (REMOTE_AUTH_SASL_DATA_MAX < payload.length) := by omega
        cases nil <;>
          simp [remoteDispatchAuthSaslStart, hauth, hctx, hmal, he, ho, hlen2,
            SASL_OK, SASL_CONTINUE, hok, hfail, herr, herrC, saslNil, saslData]
  · rcases hpe with he | he <;>
    · cases ho : lib.sasl.stepOut with
      | none =>
        cases nil2 <;>
          simp [remoteDispatchAuthSaslStep, hauth, hctx, hmal, he, ho,
            SASL_OK, SASL_CONTINUE, hok, hfail, herr, herrC, saslNil, saslData]
      | some payload =>
        rw [ho] at hpl
        simp only [Option.getD_some, gt_iff_lt, not_lt] at hpl
        have hlen2 : ¬ (REMOTE_AUTH_SASL_DATA_MAX < payload.length) := by omega
        cases nil2 <;>
          simp [remoteDispatchAuthSaslStep, hauth, hctx, hmal, he, ho, hlen2,
            SASL_OK, SASL_CONTINUE, hok, hfail, herr, herrC, saslNil, saslData]

/-- Witness for the nil forwarding: a negotiating session sending an empty
but present payload (nil = 0, len = 0), answered with a present server
payload. -/
theorem sasl_nil_payload_forwarding_witness :
    (Event.saslCall "sasl_server_start"
        (if false then none else some ([] : List Nat)) ∈
       (remoteDispatchAuthSaslStart cSaslNeg libSaslCont reqEx "PLAIN" false []).events ∧
     ((if false then none else some ([] : List Nat)) = (none : Option (List Nat)) ↔
        false = true) ∧
     saslNil (remoteDispatchAuthSaslStart cSaslNeg libSaslCont reqEx "PLAIN" false []).ret =
       some libSaslCont.sasl.startOut.isNone ∧
     saslData (remoteDispatchAuthSaslStart cSaslNeg libSaslCont reqEx "PLAIN" false []).ret =
       some (libSaslCont.sasl.startOut.getD [])) ∧
    (Event.saslCall "sasl_server_step"
        (if false then none else some ([] : List Nat)) ∈
       (remoteDispatchAuthSaslStep cSaslNeg libSaslCont reqEx false []).events ∧
     ((if false then none else some ([] : List Nat)) = (none : Option (List Nat)) ↔
        false = true) ∧
     saslNil (remoteDispatchAuthSaslStep cSaslNeg libSaslCont reqEx false []).ret =
       some libSaslCont.sasl.stepOut.isNone ∧
     saslData (remoteDispatchAuthSaslStep cSaslNeg libSaslCont reqEx false []).ret =
       some (libSaslCont.sasl.stepOut.getD [])) :=
  sasl_nil_payload_forwarding cSaslNeg libSaslCont reqEx "PLAIN" false [] false []
    rfl rfl rfl (Or.inr rfl) (by decide) (Or.inr rfl) (by decide)

/-! ## C9: unknown scheduler-parameter discriminants -/

/-- An unknown type tag selects no union arm in the serialisation switch of
the GET_SCHEDULER_PARAMETERS handler. -/
theorem schedArmOfLib_unknown (t : Int) (v : LibSchedVal)
    (h : t ∉ [VIR_DOMAIN_SCHED_FIELD_INT, VIR_DOMAIN_SCHED_FIELD_UINT,
      VIR_DOMAIN_SCHED_FIELD_LLONG, VIR_DOMAIN_SCHED_FIELD_ULLONG,
      VIR_DOMAIN_SCHED_FIELD_DOUBLE, VIR_DOMAIN_SCHED_FIELD_BOOLEAN]) :
    schedArmOfLib t v = none := by
  simp only [List.mem_cons, List.not_mem_nil, or_false, not_or] at h
  obtain ⟨h1, h2, h3, h4, h5, h6⟩ := h
  simp [schedArmOfLib, h1, h2, h3, h4, h5, h6]

/-- The serialisation loop of the GET_SCHEDULER_PARAMETERS handler fails
with the unknown-type error whenever the library-returned parameter list
holds a parameter with an unknown type tag (and field duplication
succeeds). -/
theorem convSchedParams_unknown (ps : List LibSchedParam)
    (h : ∃ p ∈ ps, p.ptype ∉ [VIR_DOMAIN_SCHED_FIELD_INT, VIR_DOMAIN_SCHED_FIELD_UINT,
      VIR_DOMAIN_SCHED_FIELD_LLONG, VIR_DOMAIN_SCHED_FIELD_ULLONG,
      VIR_DOMAIN_SCHED_FIELD_DOUBLE, VIR_DOMAIN_SCHED_FIELD_BOOLEAN]) :
    convSchedParams true ps = .error "unknown type" := by
  induction ps with
  | nil =>
    rcases h with ⟨p, hp, _⟩
    cases hp
  | cons q rest ih =>
    rcases h with ⟨p, hp, hu⟩
    rcases List.mem_cons.mp hp with heq | hmem
    · subst heq
      simp [convSchedParams, schedArmOfLib_unknown _ _ hu]
    · cases hq : schedArmOfLib q.ptype q.pvalue with
      | none => simp [convSchedParams, hq]
      | some v => simp [convSchedParams, hq, ih ⟨p, hmem, hu⟩]

/-- C9: an unknown scheduler-parameter discriminant is rejected with an
error rather than silently passed through: the wire decoder (which guards
the SET_SCHEDULER_PARAMETERS argument path) fails on any type tag outside
the six known arms, and the GET_SCHEDULER_PARAMETERS handler answers a
library-returned parameter with an unknown type tag with the
"unknown type" dispatch error. -/
theorem sched_param_unknown_discriminant_rejected :
    (∀ (t : Int) (bits : Nat),
      t ∉ [VIR_DOMAIN_SCHED_FIELD_INT, VIR_DOMAIN_SCHED_FIELD_UINT,
        VIR_DOMAIN_SCHED_FIELD_LLONG, VIR_DOMAIN_SCHED_FIELD_ULLONG,
        VIR_DOMAIN_SCHED_FIELD_DOUBLE, VIR_DOMAIN_SCHED_FIELD_BOOLEAN] →
      decode_remote_sched_param_value t bits = none) ∧
    (∀ (c : Client) (lib : HvLib) (req : MessageHeader) (dom : DomainRef)
        (nparams : Int) (h0 : Nat) (dh : DomainH) (ps : List LibSchedParam),
      c.conn = some h0 →
      ¬ (nparams > REMOTE_DOMAIN_SCHEDULER_PARAMETERS_MAX) →
      lib.schedMallocOk = true →
      lib.strdupOk = true →
      lib.getDomain dom.name dom.uuid = some dh →
      lib.domGetSchedParams = some ps →
      (∃ p ∈ ps, p.ptype ∉ [VIR_DOMAIN_SCHED_FIELD_INT, VIR_DOMAIN_SCHED_FIELD_UINT,
        VIR_DOMAIN_SCHED_FIELD_LLONG, VIR_DOMAIN_SCHED_FIELD_ULLONG,
        VIR_DOMAIN_SCHED_FIELD_DOUBLE, VIR_DOMAIN_SCHED_FIELD_BOOLEAN]) →
      (remoteDispatchDomainGetSchedulerParameters c lib req dom nparams).rv = -2 ∧
      (remoteDispatchDomainGetSchedulerParameters c lib req dom nparams).replies =
        [remoteDispatchErrorMsg (some req) "unknown type"]) := by
  constructor
  · intro t bits ht
    simp only [List.mem_cons, List.not_mem_nil, or_false, not_or] at ht
    obtain ⟨h1, h2, h3, h4, h5, h6⟩ := ht
    simp [decode_remote_sched_param_value, h1, h2, h3, h4, h5, h6]
  · intro c lib req dom nparams h0 dh ps hconn hnp hmal hdup hdom hps hunk
    have hconv := convSchedParams_unknown ps hunk
    simp [remoteDispatchDomainGetSchedulerParameters, hconn, hnp, hmal, hdup,
      get_nonnull_domain, hdom, hps, hconv, herr, herrC, remoteDispatchErrorMsg]

/-- Witness for the unknown-discriminant rejection: discriminant 0 fails to
decode, and a library-returned tag 99 draws the unknown-type dispatch
error. -/
theorem sched_param_unknown_discriminant_rejected_witness :
    decode_remote_sched_param_value 0 0 = none ∧
    ((remoteDispatchDomainGetSchedulerParameters cOpenEx libSchedUnk reqEx domRefEx 1).rv = -2 ∧
     (remoteDispatchDomainGetSchedulerParameters cOpenEx libSchedUnk reqEx domRefEx 1).replies =
       [remoteDispatchErrorMsg (some reqEx) "unknown type"]) :=
  ⟨sched_param_unknown_discriminant_rejected.1 0 0 (by decide),
   sched_param_unknown_discriminant_rejected.2 cOpenEx libSchedUnk reqEx domRefEx 1 7
     domHEx [pUnk] rfl (by decide) rfl rfl rfl rfl
     ⟨pUnk, by simp, by decide⟩⟩

/-! ## C2: reply envelopes echo the call envelope -/

/-- The echoing reply header echoes. -/
theorem echoHdr_replyHeader (req : MessageHeader) (s : Nat) :
    EchoHdr req (replyHeader req s) :=
  ⟨rfl, rfl, rfl, rfl, rfl⟩

/-- A dispatch-error exit echoes. -/
theorem herrC_echo (c : Client) (ev : List Event) (req : MessageHeader)
    (code : Int) (msg : String) : RepliesEcho req (herrC c ev req code msg) := by
  intro r hr
  simp only [herrC, List.mem_singleton] at hr
  subst hr
  exact echoHdr_replyHeader req REMOTE_ERROR

/-- A VIR_ERR_RPC dispatch-error exit echoes. -/
theorem herr_echo (c : Client) (ev : List Event) (req : MessageHeader)
    (msg : String) : RepliesEcho req (herr c ev req msg) :=
  herrC_echo c ev req VIR_ERR_RPC msg

/-- A failed-authentication exit echoes. -/
theorem hfail_echo (c : Client) (ev : List Event) (req : MessageHeader) :
    RepliesEcho req (hfail c ev req) := by
  intro r hr
  simp only [hfail, remoteDispatchFailAuthMsg, List.mem_singleton] at hr
  subst hr
  exact echoHdr_replyHeader req REMOTE_ERROR

/-- A success exit writes no reply of its own. -/
theorem hok_echo (c : Client) (ev : List Event) (ret : RetVal)
    (req : MessageHeader) : RepliesEcho req (hok c ev ret) := by
  intro r hr
  simp only [hok, List.not_mem_nil] at hr

/-- A library-error exit writes no reply of its own. -/
theorem hlib_echo (c : Client) (ev : List Event) (req : MessageHeader) :
    RepliesEcho req (hlib c ev) := by
  intro r hr
  simp only [hlib, List.not_mem_nil] at hr

/-- Every reply remoteDispatchOpen writes echoes the call envelope. -/
theorem echoOpen (c : Client) (lib : HvLib) (req : MessageHeader) (name : Option String) (flags0 : Nat) :
    RepliesEcho req (remoteDispatchOpen c lib req name flags0) := by
  unfold remoteDispatchOpen
  try dsimp only
  repeat' split
  all_goals first
    | exact herrC_echo _ _ _ _ _
    | exact herr_echo _ _ _ _
    | exact hfail_echo _ _ _
    | exact hok_echo _ _ _ _
    | exact hlib_echo _ _ _
    | (intro r hr; exact absurd hr (List.not_mem_nil r))

/-- Every reply remoteDispatchClose writes echoes the call envelope. -/
theorem echoClose (c : Client) (lib : HvLib) (req : MessageHeader) :
    RepliesEcho req (remoteDispatchClose c lib req) := by
  unfold remoteDispatchClose
  try dsimp only
  repeat' split
  all_goals first
    | exact herrC_echo _ _ _ _ _
    | exact herr_echo _ _ _ _
    | exact hfail_echo _ _ _
    | exact hok_echo _ _ _ _
    | exact hlib_echo _ _ _
    | (intro r hr; exact absurd hr (List.not_mem_nil r))

/-- Every reply remoteDispatchSupportsFeature writes echoes the call envelope. -/
theorem echoSupportsFeature (c : Client) (lib : HvLib) (req : MessageHeader) (feature : Int) :
    RepliesEcho req (remoteDispatchSupportsFeature c lib req feature) := by
  unfold remoteDispatchSupportsFeature
  try dsimp only
  repeat' split
  all_goals first
    | exact herrC_echo _ _ _ _ _
    | exact herr_echo _ _ _ _
    | exact hfail_echo _ _ _
    | exact hok_echo _ _ _ _
    | exact hlib_echo _ _ _
    | (intro r hr; exact absurd hr (List.not_mem_nil r))

/-- Every reply remoteDispatchGetType writes echoes the call envelope. -/
theorem echoGetType (c : Client) (lib : HvLib) (req : MessageHeader) :
    RepliesEcho req (remoteDispatchGetType c lib req) := by
  unfold remoteDispatchGetType
  try dsimp only
  repeat' split
  all_goals first
    | exact herrC_echo _ _ _ _ _
    | exact herr_echo _ _ _ _
    | exact hfail_echo _ _ _
    | exact hok_echo _ _ _ _
    | exact hlib_echo _ _ _
    | (intro r hr; exact absurd hr (List.not_mem_nil r))

/-- Every reply remoteDispatchGetVersion writes echoes the call envelope. -/
theorem echoGetVersion (c : Client) (lib : HvLib) (req : MessageHeader) :
    RepliesEcho req (remoteDispatchGetVersion c lib req) := by
  unfold remoteDispatchGetVersion
  try dsimp only
  repeat' split
  all_goals first
    | exact herrC_echo _ _ _ _ _
    | exact herr_echo _ _ _ _
    | exact hfail_echo _ _ _
    | exact hok_echo _ _ _ _
    | exact hlib_echo _ _ _
    | (intro r hr; exact absurd hr (List.not_mem_nil r))

/-- Every reply remoteDispatchGetHostname writes echoes the call envelope. -/
theorem echoGetHostname (c : Client) (lib : HvLib) (req : MessageHeader) :
    RepliesEcho req (remoteDispatchGetHostname c lib req) := by
  unfold remoteDispatchGetHostname
  try dsimp only
  repeat' split
  all_goals first
    | exact herrC_echo _ _ _ _ _
    | exact herr_echo _ _ _ _
    | exact hfail_echo _ _ _
    | exact hok_echo _ _ _ _
    | exact hlib_echo _ _ _
    | (intro r hr; exact absurd hr (List.not_mem_nil r))

/-- Every reply remoteDispatchGetMaxVcpus writes echoes the call envelope. -/
theorem echoGetMaxVcpus (c : Client) (lib : HvLib) (req : MessageHeader) (type : Option String) :
    RepliesEcho req (remoteDispatchGetMaxVcpus c lib req type) := by
  unfold remoteDispatchGetMaxVcpus
  try dsimp only
  repeat' split
  all_goals first
    | exact herrC_echo _ _ _ _ _
    | exact herr_echo _ _ _ _
    | exact hfail_echo _ _ _
    | exact hok_echo _ _ _ _
    | exact hlib_echo _ _ _
    | (intro r hr; exact absurd hr (List.not_mem_nil r))

/-- Every reply remoteDispatchNodeGetInfo writes echoes the call envelope. -/
theorem echoNodeGetInfo (c : Client) (lib : HvLib) (req : MessageHeader) :
    RepliesEcho req (remoteDispatchNodeGetInfo c lib req) := by
  unfold remoteDispatchNodeGetInfo
  try dsimp only
  repeat' split
  all_goals first
    | exact herrC_echo _ _ _ _ _
    | exact herr_echo _ _ _ _
    | exact hfail_echo _ _ _
    | exact hok_echo _ _ _ _
    | exact hlib_echo _ _ _
    | (intro r hr; exact absurd hr (List.not_mem_nil r))

/-- Every reply remoteDispatchGetCapabilities writes echoes the call envelope. -/
theorem echoGetCapabilities (c : Client) (lib : HvLib) (req : MessageHeader) :
    RepliesEcho req (remoteDispatchGetCapabilities c lib req) := by
  unfold remoteDispatchGetCapabilities
  try dsimp only
  repeat' split
  all_goals first
    | exact herrC_echo _ _ _ _ _
    | exact herr_echo _ _ _ _
    | exact hfail_echo _ _ _
    | exact hok_echo _ _ _ _
    | exact hlib_echo _ _ _
    | (intro r hr; exact absurd hr (List.not_mem_nil r))

/-- Every reply remoteDispatchDomainGetSchedulerType writes echoes the call envelope. -/
theorem echoDomainGetSchedulerType (c : Client) (lib : HvLib) (req : MessageHeader) (dom : DomainRef) :
    RepliesEcho req (remoteDispatchDomainGetSchedulerType c lib req dom) := by
  unfold remoteDispatchDomainGetSchedulerType
  try dsimp only
  repeat' split
  all_goals first
    | exact herrC_echo _ _ _ _ _
    | exact herr_echo _ _ _ _
    | exact hfail_echo _ _ _
    | exact hok_echo _ _ _ _
    | exact hlib_echo _ _ _
    | (intro r hr; exact absurd hr (List.not_mem_nil r))

/-- Every reply remoteDispatchDomainGetSchedulerParameters writes echoes the call envelope. -/
theorem echoDomainGetSchedulerParameters (c : Client) (lib : HvLib) (req : MessageHeader) (dom : DomainRef) (nparams : Int) :
    RepliesEcho req (remoteDispatchDomainGetSchedulerParameters c lib req dom nparams) := by
  unfold remoteDispatchDomainGetSchedulerParameters
  try dsimp only
  repeat' split
  all_goals first
    | exact herrC_echo _ _ _ _ _
    | exact herr_echo _ _ _ _
    | exact hfail_echo _ _ _
    | exact hok_echo _ _ _ _
    | exact hlib_echo _ _ _
    | (intro r hr; exact absurd hr (List.not_mem_nil r))

/-- Every reply remoteDispatchDomainSetSchedulerParameters writes echoes the call envelope. -/
theorem echoDomainSetSchedulerParameters (c : Client) (lib : HvLib) (req : MessageHeader) (dom : DomainRef) (params : List (String × SchedValue)) :
    RepliesEcho req (remoteDispatchDomainSetSchedulerParameters c lib req dom params) := by
  unfold remoteDispatchDomainSetSchedulerParameters
  try dsimp only
  repeat' split
  all_goals first
    | exact herrC_echo _ _ _ _ _
    | exact herr_echo _ _ _ _
    | exact hfail_echo _ _ _
    | exact hok_echo _ _ _ _
    | exact hlib_echo _ _ _
    | (intro r hr; exact absurd hr (List.not_mem_nil r))

/-- Every reply remoteDispatchDomainBlockStats writes echoes the call envelope. -/
theorem echoDomainBlockStats (c : Client) (lib : HvLib) (req : MessageHeader) (dom : DomainRef) (path : String) :
    RepliesEcho req (remoteDispatchDomainBlockStats c lib req dom path) := by
  unfold remoteDispatchDomainBlockStats
  try dsimp only
  repeat' split
  all_goals first
    | exact herrC_echo _ _ _ _ _
    | exact herr_echo _ _ _ _
    | exact hfail_echo _ _ _
    | exact hok_echo _ _ _ _
    | exact hlib_echo _ _ _
    | (intro r hr; exact absurd hr (List.not_mem_nil r))

/-- Every reply remoteDispatchDomainInterfaceStats writes echoes the call envelope. -/
theorem echoDomainInterfaceStats (c : Client) (lib : HvLib) (req : MessageHeader) (dom : DomainRef) (path : String) :
    RepliesEcho req (remoteDispatchDomainInterfaceStats c lib req dom path) := by
  unfold remoteDispatchDomainInterfaceStats
  try dsimp only
  repeat' split
  all_goals first
    | exact herrC_echo _ _ _ _ _
    | exact herr_echo _ _ _ _
    | exact hfail_echo _ _ _
    | exact hok_echo _ _ _ _
    | exact hlib_echo _ _ _
    | (intro r hr; exact absurd hr (List.not_mem_nil r))

/-- Every reply remoteDispatchDomainAttachDevice writes echoes the call envelope. -/
theorem echoDomainAttachDevice (c : Client) (lib : HvLib) (req : MessageHeader) (dom : DomainRef) (xml : String) :
    RepliesEcho req (remoteDispatchDomainAttachDevice c lib req dom xml) := by
  unfold remoteDispatchDomainAttachDevice
  try dsimp only
  repeat' split
  all_goals first
    | exact herrC_echo _ _ _ _ _
    | exact herr_echo _ _ _ _
    | exact hfail_echo _ _ _
    | exact hok_echo _ _ _ _
    | exact hlib_echo _ _ _
    | (intro r hr; exact absurd hr (List.not_mem_nil r))

/-- Every reply remoteDispatchDomainCreate writes echoes the call envelope. -/
theorem echoDomainCreate (c : Client) (lib : HvLib) (req : MessageHeader) (dom : DomainRef) :
    RepliesEcho req (remoteDispatchDomainCreate c lib req dom) := by
  unfold remoteDispatchDomainCreate
  try dsimp only
  repeat' split
  all_goals first
    | exact herrC_echo _ _ _ _ _
    | exact herr_echo _ _ _ _
    | exact hfail_echo _ _ _
    | exact hok_echo _ _ _ _
    | exact hlib_echo _ _ _
    | (intro r hr; exact absurd hr (List.not_mem_nil r))

/-- Every reply remoteDispatchDomainCreateLinux writes echoes the call envelope. -/
theorem echoDomainCreateLinux (c : Client) (lib : HvLib) (req : MessageHeader) (xml : String) (flags : Nat) :
    RepliesEcho req (remoteDispatchDomainCreateLinux c lib req xml flags) := by
  unfold remoteDispatchDomainCreateLinux
  try dsimp only
  repeat' split
  all_goals first
    | exact herrC_echo _ _ _ _ _
    | exact herr_echo _ _ _ _
    | exact hfail_echo _ _ _
    | exact hok_echo _ _ _ _
    | exact hlib_echo _ _ _
    | (intro r hr; exact absurd hr (List.not_mem_nil r))

/-- Every reply remoteDispatchDomainDefineXml writes echoes the call envelope. -/
theorem echoDomainDefineXml (c : Client) (lib : HvLib) (req : MessageHeader) (xml : String) :
    RepliesEcho req (remoteDispatchDomainDefineXml c lib req xml) := by
  unfold remoteDispatchDomainDefineXml
  try dsimp only
  repeat' split
  all_goals first
    | exact herrC_echo _ _ _ _ _
    | exact herr_echo _ _ _ _
    | exact hfail_echo _ _ _
    | exact hok_echo _ _ _ _
    | exact hlib_echo _ _ _
    | (intro r hr; exact absurd hr (List.not_mem_nil r))

/-- Every reply remoteDispatchDomainDestroy writes echoes the call envelope. -/
theorem echoDomainDestroy (c : Client) (lib : HvLib) (req : MessageHeader) (dom : DomainRef) :
    RepliesEcho req (remoteDispatchDomainDestroy c lib req dom) := by
  unfold remoteDispatchDomainDestroy
  try dsimp only
  repeat' split
  all_goals first
    | exact herrC_echo _ _ _ _ _
    | exact herr_echo _ _ _ _
    | exact hfail_echo _ _ _
    | exact hok_echo _ _ _ _
    | exact hlib_echo _ _ _
    | (intro r hr; exact absurd hr (List.not_mem_nil r))

/-- Every reply remoteDispatchDomainDetachDevice writes echoes the call envelope. -/
theorem echoDomainDetachDevice (c : Client) (lib : HvLib) (req : MessageHeader) (dom : DomainRef) (xml : String) :
    RepliesEcho req (remoteDispatchDomainDetachDevice c lib req dom xml) := by
  unfold remoteDispatchDomainDetachDevice
  try dsimp only
  repeat' split
  all_goals first
    | exact herrC_echo _ _ _ _ _
    | exact herr_echo _ _ _ _
    | exact hfail_echo _ _ _
    | exact hok_echo _ _ _ _
    | exact hlib_echo _ _ _
    | (intro r hr; exact absurd hr (List.not_mem_nil r))

/-- Every reply remoteDispatchDomainDumpXml writes echoes the call envelope. -/
theorem echoDomainDumpXml (c : Client) (lib : HvLib) (req : MessageHeader) (dom : DomainRef) (flags : Nat) :
    RepliesEcho req (remoteDispatchDomainDumpXml c lib req dom flags) := by
  unfold remoteDispatchDomainDumpXml
  try dsimp only
  repeat' split
  all_goals first
    | exact herrC_echo _ _ _ _ _
    | exact herr_echo _ _ _ _
    | exact hfail_echo _ _ _
    | exact hok_echo _ _ _ _
    | exact hlib_echo _ _ _
    | (intro r hr; exact absurd hr (List.not_mem_nil r))

/-- Every reply remoteDispatchDomainGetAutostart writes echoes the call envelope. -/
theorem echoDomainGetAutostart (c : Client) (lib : HvLib) (req : MessageHeader) (dom : DomainRef) :
    RepliesEcho req (remoteDispatchDomainGetAutostart c lib req dom) := by
  unfold remoteDispatchDomainGetAutostart
  try dsimp only
  repeat' split
  all_goals first
    | exact herrC_echo _ _ _ _ _
    | exact herr_echo _ _ _ _
    | exact hfail_echo _ _ _
    | exact hok_echo _ _ _ _
    | exact hlib_echo _ _ _
    | (intro r hr; exact absurd hr (List.not_mem_nil r))

/-- Every reply remoteDispatchDomainGetInfo writes echoes the call envelope. -/
theorem echoDomainGetInfo (c : Client) (lib : HvLib) (req : MessageHeader) (dom : DomainRef) :
    RepliesEcho req (remoteDispatchDomainGetInfo c lib req dom) := by
  unfold remoteDispatchDomainGetInfo
  try dsimp only
  repeat' split
  all_goals first
    | exact herrC_echo _ _ _ _ _
    | exact herr_echo _ _ _ _
    | exact hfail_echo _ _ _
    | exact hok_echo _ _ _ _
    | exact hlib_echo _ _ _
    | (intro r hr; exact absurd hr (List.not_mem_nil r))

/-- Every reply remoteDispatchDomainGetMaxMemory writes echoes the call envelope. -/
theorem echoDomainGetMaxMemory (c : Client) (lib : HvLib) (req : MessageHeader) (dom : DomainRef) :
    RepliesEcho req (remoteDispatchDomainGetMaxMemory c lib req dom) := by
  unfold remoteDispatchDomainGetMaxMemory
  try dsimp only
  repeat' split
  all_goals first
    | exact herrC_echo _ _ _ _ _
    | exact herr_echo _ _ _ _
    | exact hfail_echo _ _ _
    | exact hok_echo _ _ _ _
    | exact hlib_echo _ _ _
    | (intro r hr; exact absurd hr (List.not_mem_nil r))

/-- Every reply remoteDispatchDomainGetMaxVcpus writes echoes the call envelope. -/
theorem echoDomainGetMaxVcpus (c : Client) (lib : HvLib) (req : MessageHeader) (dom : DomainRef) :
    RepliesEcho req (remoteDispatchDomainGetMaxVcpus c lib req dom) := by
  unfold remoteDispatchDomainGetMaxVcpus
  try dsimp only
  repeat' split
  all_goals first
    | exact herrC_echo _ _ _ _ _
    | exact herr_echo _ _ _ _
    | exact hfail_echo _ _ _
    | exact hok_echo _ _ _ _
    | exact hlib_echo _ _ _
    | (intro r hr; exact absurd hr (List.not_mem_nil r))

/-- Every reply remoteDispatchDomainGetOsType writes echoes the call envelope. -/
theorem echoDomainGetOsType (c : Client) (lib : HvLib) (req : MessageHeader) (dom : DomainRef) :
    RepliesEcho req (remoteDispatchDomainGetOsType c lib req dom) := by
  unfold remoteDispatchDomainGetOsType
  try dsimp only
  repeat' split
  all_goals first
    | exact herrC_echo _ _ _ _ _
    | exact herr_echo _ _ _ _
    | exact hfail_echo _ _ _
    | exact hok_echo _ _ _ _
    | exact hlib_echo _ _ _
    | (intro r hr; exact absurd hr (List.not_mem_nil r))

/-- Every reply remoteDispatchDomainGetVcpus writes echoes the call envelope. -/
theorem echoDomainGetVcpus (c : Client) (lib : HvLib) (req : MessageHeader) (dom : DomainRef) (maxinfo maplen : Int) :
    RepliesEcho req (remoteDispatchDomainGetVcpus c lib req dom maxinfo maplen) := by
  unfold remoteDispatchDomainGetVcpus
  try dsimp only
  repeat' split
  all_goals first
    | exact herrC_echo _ _ _ _ _
    | exact herr_echo _ _ _ _
    | exact hfail_echo _ _ _
    | exact hok_echo _ _ _ _
    | exact hlib_echo _ _ _
    | (intro r hr; exact absurd hr (List.not_mem_nil r))

/-- Every reply remoteDispatchDomainMigratePrepare writes echoes the call envelope. -/
theorem echoDomainMigratePrepare (c : Client) (lib : HvLib) (req : MessageHeader) (uriIn : Option String) (flags : Nat) (dname : Option String) (resource : Nat) :
    RepliesEcho req (remoteDispatchDomainMigratePrepare c lib req uriIn flags dname resource) := by
  unfold remoteDispatchDomainMigratePrepare
  try dsimp only
  repeat' split
  all_goals first
    | exact herrC_echo _ _ _ _ _
    | exact herr_echo _ _ _ _
    | exact hfail_echo _ _ _
    | exact hok_echo _ _ _ _
    | exact hlib_echo _ _ _
    | (intro r hr; exact absurd hr (List.not_mem_nil r))

/-- Every reply remoteDispatchDomainMigratePerform writes echoes the call envelope. -/
theorem echoDomainMigratePerform (c : Client) (lib : HvLib) (req : MessageHeader) (dom : DomainRef) (cookie : List Nat) (uri : String) (flags : Nat) (dname : Option String) (resource : Nat) :
    RepliesEcho req (remoteDispatchDomainMigratePerform c lib req dom cookie uri flags dname resource) := by
  unfold remoteDispatchDomainMigratePerform
  try dsimp only
  repeat' split
  all_goals first
    | exact herrC_echo _ _ _ _ _
    | exact herr_echo _ _ _ _
    | exact hfail_echo _ _ _
    | exact hok_echo _ _ _ _
    | exact hlib_echo _ _ _
    | (intro r hr; exact absurd hr (List.not_mem_nil r))

/-- Every reply remoteDispatchDomainMigrateFinish writes echoes the call envelope. -/
theorem echoDomainMigrateFinish (c : Client) (lib : HvLib) (req : MessageHeader) (dname : String) (cookie : List Nat) (uri : String) (flags : Nat) :
    RepliesEcho req (remoteDispatchDomainMigrateFinish c lib req dname cookie uri flags) := by
  unfold remoteDispatchDomainMigrateFinish
  try dsimp only
  repeat' split
  all_goals first
    | exact herrC_echo _ _ _ _ _
    | exact herr_echo _ _ _ _
    | exact hfail_echo _ _ _
    | exact hok_echo _ _ _ _
    | exact hlib_echo _ _ _
    | (intro r hr; exact absurd hr (List.not_mem_nil r))

/-- Every reply remoteDispatchListDefinedDomains writes echoes the call envelope. -/
theorem echoListDefinedDomains (c : Client) (lib : HvLib) (req : MessageHeader) (maxnames : Int) :
    RepliesEcho req (remoteDispatchListDefinedDomains c lib req maxnames) := by
  unfold remoteDispatchListDefinedDomains
  try dsimp only
  repeat' split
  all_goals first
    | exact herrC_echo _ _ _ _ _
    | exact herr_echo _ _ _ _
    | exact hfail_echo _ _ _
    | exact hok_echo _ _ _ _
    | exact hlib_echo _ _ _
    | (intro r hr; exact absurd hr (List.not_mem_nil r))

/-- Every reply remoteDispatchListDomains writes echoes the call envelope. -/
theorem echoListDomains (c : Client) (lib : HvLib) (req : MessageHeader) (maxids : Int) :
    RepliesEcho req (remoteDispatchListDomains c lib req maxids) := by
  unfold remoteDispatchListDomains
  try dsimp only
  repeat' split
  all_goals first
    | exact herrC_echo _ _ _ _ _
    | exact herr_echo _ _ _ _
    | exact hfail_echo _ _ _
    | exact hok_echo _ _ _ _
    | exact hlib_echo _ _ _
    | (intro r hr; exact absurd hr (List.not_mem_nil r))

/-- Every reply remoteDispatchListNetworks writes echoes the call envelope. -/
theorem echoListNetworks (c : Client) (lib : HvLib) (req : MessageHeader) (maxnames : Int) :
    RepliesEcho req (remoteDispatchListNetworks c lib req maxnames) := by
  unfold remoteDispatchListNetworks
  try dsimp only
  repeat' split
  all_goals first
    | exact herrC_echo _ _ _ _ _
    | exact herr_echo _ _ _ _
    | exact hfail_echo _ _ _
    | exact hok_echo _ _ _ _
    | exact hlib_echo _ _ _
    | (intro r hr; exact absurd hr (List.not_mem_nil r))

/-- Every reply remoteDispatchListDefinedNetworks writes echoes the call envelope. -/
theorem echoListDefinedNetworks (c : Client) (lib : HvLib) (req : MessageHeader) (maxnames : Int) :
    RepliesEcho req (remoteDispatchListDefinedNetworks c lib req maxnames) := by
  unfold remoteDispatchListDefinedNetworks
  try dsimp only
  repeat' split
  all_goals first
    | exact herrC_echo _ _ _ _ _
    | exact herr_echo _ _ _ _
    | exact hfail_echo _ _ _
    | exact hok_echo _ _ _ _
    | exact hlib_echo _ _ _
    | (intro r hr; exact absurd hr (List.not_mem_nil r))

/-- Every reply remoteDispatchDomainLookupById writes echoes the call envelope. -/
theorem echoDomainLookupById (c : Client) (lib : HvLib) (req : MessageHeader) (id : Int) :
    RepliesEcho req (remoteDispatchDomainLookupById c lib req id) := by
  unfold remoteDispatchDomainLookupById
  try dsimp only
  repeat' split
  all_goals first
    | exact herrC_echo _ _ _ _ _
    | exact herr_echo _ _ _ _
    | exact hfail_echo _ _ _
    | exact hok_echo _ _ _ _
    | exact hlib_echo _ _ _
    | (intro r hr; exact absurd hr (List.not_mem_nil r))

/-- Every reply remoteDispatchDomainLookupByName writes echoes the call envelope. -/
theorem echoDomainLookupByName (c : Client) (lib : HvLib) (req : MessageHeader) (name : String) :
    RepliesEcho req (remoteDispatchDomainLookupByName c lib req name) := by
  unfold remoteDispatchDomainLookupByName
  try dsimp only
  repeat' split
  all_goals first
    | exact herrC_echo _ _ _ _ _
    | exact herr_echo _ _ _ _
    | exact hfail_echo _ _ _
    | exact hok_echo _ _ _ _
    | exact hlib_echo _ _ _
    | (intro r hr; exact absurd hr (List.not_mem_nil r))

/-- Every reply remoteDispatchDomainLookupByUuid writes echoes the call envelope. -/
theorem echoDomainLookupByUuid (c : Client) (lib : HvLib) (req : MessageHeader) (uuid : List Nat) :
    RepliesEcho req (remoteDispatchDomainLookupByUuid c lib req uuid) := by
  unfold remoteDispatchDomainLookupByUuid
  try dsimp only
  repeat' split
  all_goals first
    | exact herrC_echo _ _ _ _ _
    | exact herr_echo _ _ _ _
    | exact hfail_echo _ _ _
    | exact hok_echo _ _ _ _
    | exact hlib_echo _ _ _
    | (intro r hr; exact absurd hr (List.not_mem_nil r))

/-- Every reply remoteDispatchNumOfDefinedDomains writes echoes the call envelope. -/
theorem echoNumOfDefinedDomains (c : Client) (lib : HvLib) (req : MessageHeader) :
    RepliesEcho req (remoteDispatchNumOfDefinedDomains c lib req) := by
  unfold remoteDispatchNumOfDefinedDomains
  try dsimp only
  repeat' split
  all_goals first
    | exact herrC_echo _ _ _ _ _
    | exact herr_echo _ _ _ _
    | exact hfail_echo _ _ _
    | exact hok_echo _ _ _ _
    | exact hlib_echo _ _ _
    | (intro r hr; exact absurd hr (List.not_mem_nil r))

/-- Every reply remoteDispatchNumOfDomains writes echoes the call envelope. -/
theorem echoNumOfDomains (c : Client) (lib : HvLib) (req : MessageHeader) :
    RepliesEcho req (remoteDispatchNumOfDomains c lib req) := by
  unfold remoteDispatchNumOfDomains
  try dsimp only
  repeat' split
  all_goals first
    | exact herrC_echo _ _ _ _ _
    | exact herr_echo _ _ _ _
    | exact hfail_echo _ _ _
    | exact hok_echo _ _ _ _
    | exact hlib_echo _ _ _
    | (intro r hr; exact absurd hr (List.not_mem_nil r))

/-- Every reply remoteDispatchNumOfNetworks writes echoes the call envelope. -/
theorem echoNumOfNetworks (c : Client) (lib : HvLib) (req : MessageHeader) :
    RepliesEcho req (remoteDispatchNumOfNetworks c lib req) := by
  unfold remoteDispatchNumOfNetworks
  try dsimp only
  repeat' split
  all_goals first
    | exact herrC_echo _ _ _ _ _
    | exact herr_echo _ _ _ _
    | exact hfail_echo _ _ _
    | exact hok_echo _ _ _ _
    | exact hlib_echo _ _ _
    | (intro r hr; exact absurd hr (List.not_mem_nil r))

/-- Every reply remoteDispatchNumOfDefinedNetworks writes echoes the call envelope. -/
theorem echoNumOfDefinedNetworks (c : Client) (lib : HvLib) (req : MessageHeader) :
    RepliesEcho req (remoteDispatchNumOfDefinedNetworks c lib req) := by
  unfold remoteDispatchNumOfDefinedNetworks
  try dsimp only
  repeat' split
  all_goals first
    | exact herrC_echo _ _ _ _ _
    | exact herr_echo _ _ _ _
    | exact hfail_echo _ _ _
    | exact hok_echo _ _ _ _
    | exact hlib_echo _ _ _
    | (intro r hr; exact absurd hr (List.not_mem_nil r))

/-- Every reply remoteDispatchDomainPinVcpu writes echoes the call envelope. -/
theorem echoDomainPinVcpu (c : Client) (lib : HvLib) (req : MessageHeader) (dom : DomainRef) (vcpu : Int) (cpumap : List Nat) :
    RepliesEcho req (remoteDispatchDomainPinVcpu c lib req dom vcpu cpumap) := by
  unfold remoteDispatchDomainPinVcpu
  try dsimp only
  repeat' split
  all_goals first
    | exact herrC_echo _ _ _ _ _
    | exact herr_echo _ _ _ _
    | exact hfail_echo _ _ _
    | exact hok_echo _ _ _ _
    | exact hlib_echo _ _ _
    | (intro r hr; exact absurd hr (List.not_mem_nil r))

/-- Every reply remoteDispatchDomainReboot writes echoes the call envelope. -/
theorem echoDomainReboot (c : Client) (lib : HvLib) (req : MessageHeader) (dom : DomainRef) (flags : Nat) :
    RepliesEcho req (remoteDispatchDomainReboot c lib req dom flags) := by
  unfold remoteDispatchDomainReboot
  try dsimp only
  repeat' split
  all_goals first
    | exact herrC_echo _ _ _ _ _
    | exact herr_echo _ _ _ _
    | exact hfail_echo _ _ _
    | exact hok_echo _ _ _ _
    | exact hlib_echo _ _ _
    | (intro r hr; exact absurd hr (List.not_mem_nil r))

/-- Every reply remoteDispatchDomainRestore writes echoes the call envelope. -/
theorem echoDomainRestore (c : Client) (lib : HvLib) (req : MessageHeader) (from_ : String) :
    RepliesEcho req (remoteDispatchDomainRestore c lib req from_) := by
  unfold remoteDispatchDomainRestore
  try dsimp only
  repeat' split
  all_goals first
    | exact herrC_echo _ _ _ _ _
    | exact herr_echo _ _ _ _
    | exact hfail_echo _ _ _
    | exact hok_echo _ _ _ _
    | exact hlib_echo _ _ _
    | (intro r hr; exact absurd hr (List.not_mem_nil r))

/-- Every reply remoteDispatchDomainResume writes echoes the call envelope. -/
theorem echoDomainResume (c : Client) (lib : HvLib) (req : MessageHeader) (dom : DomainRef) :
    RepliesEcho req (remoteDispatchDomainResume c lib req dom) := by
  unfold remoteDispatchDomainResume
  try dsimp only
  repeat' split
  all_goals first
    | exact herrC_echo _ _ _ _ _
    | exact herr_echo _ _ _ _
    | exact hfail_echo _ _ _
    | exact hok_echo _ _ _ _
    | exact hlib_echo _ _ _
    | (intro r hr; exact absurd hr (List.not_mem_nil r))

/-- Every reply remoteDispatchDomainSave writes echoes the call envelope. -/
theorem echoDomainSave (c : Client) (lib : HvLib) (req : MessageHeader) (dom : DomainRef) (toFile : String) :
    RepliesEcho req (remoteDispatchDomainSave c lib req dom toFile) := by
  unfold remoteDispatchDomainSave
  try dsimp only
  repeat' split
  all_goals first
    | exact herrC_echo _ _ _ _ _
    | exact herr_echo _ _ _ _
    | exact hfail_echo _ _ _
    | exact hok_echo _ _ _ _
    | exact hlib_echo _ _ _
    | (intro r hr; exact absurd hr (List.not_mem_nil r))

/-- Every reply remoteDispatchDomainCoreDump writes echoes the call envelope. -/
theorem echoDomainCoreDump (c : Client) (lib : HvLib) (req : MessageHeader) (dom : DomainRef) (toFile : String) (flags : Nat) :
    RepliesEcho req (remoteDispatchDomainCoreDump c lib req dom toFile flags) := by
  unfold remoteDispatchDomainCoreDump
  try dsimp only
  repeat' split
  all_goals first
    | exact herrC_echo _ _ _ _ _
    | exact herr_echo _ _ _ _
    | exact hfail_echo _ _ _
    | exact hok_echo _ _ _ _
    | exact hlib_echo _ _ _
    | (intro r hr; exact absurd hr (List.not_mem_nil r))

/-- Every reply remoteDispatchDomainSetAutostart writes echoes the call envelope. -/
theorem echoDomainSetAutostart (c : Client) (lib : HvLib) (req : MessageHeader) (dom : DomainRef) (autostart : Int) :
    RepliesEcho req (remoteDispatchDomainSetAutostart c lib req dom autostart) := by
  unfold remoteDispatchDomainSetAutostart
  try dsimp only
  repeat' split
  all_goals first
    | exact herrC_echo _ _ _ _ _
    | exact herr_echo _ _ _ _
    | exact hfail_echo _ _ _
    | exact hok_echo _ _ _ _
    | exact hlib_echo _ _ _
    | (intro r hr; exact absurd hr (List.not_mem_nil r))

/-- Every reply remoteDispatchDomainSetMaxMemory writes echoes the call envelope. -/
theorem echoDomainSetMaxMemory (c : Client) (lib : HvLib) (req : MessageHeader) (dom : DomainRef) (memory : Nat) :
    RepliesEcho req (remoteDispatchDomainSetMaxMemory c lib req dom memory) := by
  unfold remoteDispatchDomainSetMaxMemory
  try dsimp only
  repeat' split
  all_goals first
    | exact herrC_echo _ _ _ _ _
    | exact herr_echo _ _ _ _
    | exact hfail_echo _ _ _
    | exact hok_echo _ _ _ _
    | exact hlib_echo _ _ _
    | (intro r hr; exact absurd hr (List.not_mem_nil r))

/-- Every reply remoteDispatchDomainSetMemory writes echoes the call envelope. -/
theorem echoDomainSetMemory (c : Client) (lib : HvLib) (req : MessageHeader) (dom : DomainRef) (memory : Nat) :
    RepliesEcho req (remoteDispatchDomainSetMemory c lib req dom memory) := by
  unfold remoteDispatchDomainSetMemory
  try dsimp only
  repeat' split
  all_goals first
    | exact herrC_echo _ _ _ _ _
    | exact herr_echo _ _ _ _
    | exact hfail_echo _ _ _
    | exact hok_echo _ _ _ _
    | exact hlib_echo _ _ _
    | (intro r hr; exact absurd hr (List.not_mem_nil r))

/-- Every reply remoteDispatchDomainSetVcpus writes echoes the call envelope. -/
theorem echoDomainSetVcpus (c : Client) (lib : HvLib) (req : MessageHeader) (dom : DomainRef) (nvcpus : Int) :
    RepliesEcho req (remoteDispatchDomainSetVcpus c lib req dom nvcpus) := by
  unfold remoteDispatchDomainSetVcpus
  try dsimp only
  repeat' split
  all_goals first
    | exact herrC_echo _ _ _ _ _
    | exact herr_echo _ _ _ _
    | exact hfail_echo _ _ _
    | exact hok_echo _ _ _ _
    | exact hlib_echo _ _ _
    | (intro r hr; exact absurd hr (List.not_mem_nil r))

/-- Every reply remoteDispatchDomainShutdown writes echoes the call envelope. -/
theorem echoDomainShutdown (c : Client) (lib : HvLib) (req : MessageHeader) (dom : DomainRef) :
    RepliesEcho req (remoteDispatchDomainShutdown c lib req dom) := by
  unfold remoteDispatchDomainShutdown
  try dsimp only
  repeat' split
  all_goals first
    | exact herrC_echo _ _ _ _ _
    | exact herr_echo _ _ _ _
    | exact hfail_echo _ _ _
    | exact hok_echo _ _ _ _
    | exact hlib_echo _ _ _
    | (intro r hr; exact absurd hr (List.not_mem_nil r))

/-- Every reply remoteDispatchDomainSuspend writes echoes the call envelope. -/
theorem echoDomainSuspend (c : Client) (lib : HvLib) (req : MessageHeader) (dom : DomainRef) :
    RepliesEcho req (remoteDispatchDomainSuspend c lib req dom) := by
  unfold remoteDispatchDomainSuspend
  try dsimp only
  repeat' split
  all_goals first
    | exact herrC_echo _ _ _ _ _
    | exact herr_echo _ _ _ _
    | exact hfail_echo _ _ _
    | exact hok_echo _ _ _ _
    | exact hlib_echo _ _ _
    | (intro r hr; exact absurd hr (List.not_mem_nil r))

/-- Every reply remoteDispatchDomainUndefine writes echoes the call envelope. -/
theorem echoDomainUndefine (c : Client) (lib : HvLib) (req : MessageHeader) (dom : DomainRef) :
    RepliesEcho req (remoteDispatchDomainUndefine c lib req dom) := by
  unfold remoteDispatchDomainUndefine
  try dsimp only
  repeat' split
  all_goals first
    | exact herrC_echo _ _ _ _ _
    | exact herr_echo _ _ _ _
    | exact hfail_echo _ _ _
    | exact hok_echo _ _ _ _
    | exact hlib_echo _ _ _
    | (intro r hr; exact absurd hr (List.not_mem_nil r))

/-- Every reply remoteDispatchNetworkCreate writes echoes the call envelope. -/
theorem echoNetworkCreate (c : Client) (lib : HvLib) (req : MessageHeader) (net : NetworkRef) :
    RepliesEcho req (remoteDispatchNetworkCreate c lib req net) := by
  unfold remoteDispatchNetworkCreate
  try dsimp only
  repeat' split
  all_goals first
    | exact herrC_echo _ _ _ _ _
    | exact herr_echo _ _ _ _
    | exact hfail_echo _ _ _
    | exact hok_echo _ _ _ _
    | exact hlib_echo _ _ _
    | (intro r hr; exact absurd hr (List.not_mem_nil r))

/-- Every reply remoteDispatchNetworkCreateXml writes echoes the call envelope. -/
theorem echoNetworkCreateXml (c : Client) (lib : HvLib) (req : MessageHeader) (xml : String) :
    RepliesEcho req (remoteDispatchNetworkCreateXml c lib req xml) := by
  unfold remoteDispatchNetworkCreateXml
  try dsimp only
  repeat' split
  all_goals first
    | exact herrC_echo _ _ _ _ _
    | exact herr_echo _ _ _ _
    | exact hfail_echo _ _ _
    | exact hok_echo _ _ _ _
    | exact hlib_echo _ _ _
    | (intro r hr; exact absurd hr (List.not_mem_nil r))

/-- Every reply remoteDispatchNetworkDefineXml writes echoes the call envelope. -/
theorem echoNetworkDefineXml (c : Client) (lib : HvLib) (req : MessageHeader) (xml : String) :
    RepliesEcho req (remoteDispatchNetworkDefineXml c lib req xml) := by
  unfold remoteDispatchNetworkDefineXml
  try dsimp only
  repeat' split
  all_goals first
    | exact herrC_echo _ _ _ _ _
    | exact herr_echo _ _ _ _
    | exact hfail_echo _ _ _
    | exact hok_echo _ _ _ _
    | exact hlib_echo _ _ _
    | (intro r hr; exact absurd hr (List.not_mem_nil r))

/-- Every reply remoteDispatchNetworkDestroy writes echoes the call envelope. -/
theorem echoNetworkDestroy (c : Client) (lib : HvLib) (req : MessageHeader) (net : NetworkRef) :
    RepliesEcho req (remoteDispatchNetworkDestroy c lib req net) := by
  unfold remoteDispatchNetworkDestroy
  try dsimp only
  repeat' split
  all_goals first
    | exact herrC_echo _ _ _ _ _
    | exact herr_echo _ _ _ _
    | exact hfail_echo _ _ _
    | exact hok_echo _ _ _ _
    | exact hlib_echo _ _ _
    | (intro r hr; exact absurd hr (List.not_mem_nil r))

/-- Every reply remoteDispatchNetworkDumpXml writes echoes the call envelope. -/
theorem echoNetworkDumpXml (c : Client) (lib : HvLib) (req : MessageHeader) (net : NetworkRef) (flags : Nat) :
    RepliesEcho req (remoteDispatchNetworkDumpXml c lib req net flags) := by
  unfold remoteDispatchNetworkDumpXml
  try dsimp only
  repeat' split
  all_goals first
    | exact herrC_echo _ _ _ _ _
    | exact herr_echo _ _ _ _
    | exact hfail_echo _ _ _
    | exact hok_echo _ _ _ _
    | exact hlib_echo _ _ _
    | (intro r hr; exact absurd hr (List.not_mem_nil r))

/-- Every reply remoteDispatchNetworkGetAutostart writes echoes the call envelope. -/
theorem echoNetworkGetAutostart (c : Client) (lib : HvLib) (req : MessageHeader) (net : NetworkRef) :
    RepliesEcho req (remoteDispatchNetworkGetAutostart c lib req net) := by
  unfold remoteDispatchNetworkGetAutostart
  try dsimp only
  repeat' split
  all_goals first
    | exact herrC_echo _ _ _ _ _
    | exact herr_echo _ _ _ _
    | exact hfail_echo _ _ _
    | exact hok_echo _ _ _ _
    | exact hlib_echo _ _ _
    | (intro r hr; exact absurd hr (List.not_mem_nil r))

/-- Every reply remoteDispatchNetworkGetBridgeName writes echoes the call envelope. -/
theorem echoNetworkGetBridgeName (c : Client) (lib : HvLib) (req : MessageHeader) (net : NetworkRef) :
    RepliesEcho req (remoteDispatchNetworkGetBridgeName c lib req net) := by
  unfold remoteDispatchNetworkGetBridgeName
  try dsimp only
  repeat' split
  all_goals first
    | exact herrC_echo _ _ _ _ _
    | exact herr_echo _ _ _ _
    | exact hfail_echo _ _ _
    | exact hok_echo _ _ _ _
    | exact hlib_echo _ _ _
    | (intro r hr; exact absurd hr (List.not_mem_nil r))

/-- Every reply remoteDispatchNetworkLookupByName writes echoes the call envelope. -/
theorem echoNetworkLookupByName (c : Client) (lib : HvLib) (req : MessageHeader) (name : String) :
    RepliesEcho req (remoteDispatchNetworkLookupByName c lib req name) := by
  unfold remoteDispatchNetworkLookupByName
  try dsimp only
  repeat' split
  all_goals first
    | exact herrC_echo _ _ _ _ _
    | exact herr_echo _ _ _ _
    | exact hfail_echo _ _ _
    | exact hok_echo _ _ _ _
    | exact hlib_echo _ _ _
    | (intro r hr; exact absurd hr (List.not_mem_nil r))

/-- Every reply remoteDispatchNetworkLookupByUuid writes echoes the call envelope. -/
theorem echoNetworkLookupByUuid (c : Client) (lib : HvLib) (req : MessageHeader) (uuid : List Nat) :
    RepliesEcho req (remoteDispatchNetworkLookupByUuid c lib req uuid) := by
  unfold remoteDispatchNetworkLookupByUuid
  try dsimp only
  repeat' split
  all_goals first
    | exact herrC_echo _ _ _ _ _
    | exact herr_echo _ _ _ _
    | exact hfail_echo _ _ _
    | exact hok_echo _ _ _ _
    | exact hlib_echo _ _ _
    | (intro r hr; exact absurd hr (List.not_mem_nil r))

/-- Every reply remoteDispatchNetworkSetAutostart writes echoes the call envelope. -/
theorem echoNetworkSetAutostart (c : Client) (lib : HvLib) (req : MessageHeader) (net : NetworkRef) (autostart : Int) :
    RepliesEcho req (remoteDispatchNetworkSetAutostart c lib req net autostart) := by
  unfold remoteDispatchNetworkSetAutostart
  try dsimp only
  repeat' split
  all_goals first
    | exact herrC_echo _ _ _ _ _
    | exact herr_echo _ _ _ _
    | exact hfail_echo _ _ _
    | exact hok_echo _ _ _ _
    | exact hlib_echo _ _ _
    | (intro r hr; exact absurd hr (List.not_mem_nil r))

/-- Every reply remoteDispatchNetworkUndefine writes echoes the call envelope. -/
theorem echoNetworkUndefine (c : Client) (lib : HvLib) (req : MessageHeader) (net : NetworkRef) :
    RepliesEcho req (remoteDispatchNetworkUndefine c lib req net) := by
  unfold remoteDispatchNetworkUndefine
  try dsimp only
  repeat' split
  all_goals first
    | exact herrC_echo _ _ _ _ _
    | exact herr_echo _ _ _ _
    | exact hfail_echo _ _ _
    | exact hok_echo _ _ _ _
    | exact hlib_echo _ _ _
    | (intro r hr; exact absurd hr (List.not_mem_nil r))

/-- Every reply remoteDispatchAuthList writes echoes the call envelope. -/
theorem echoAuthList (c : Client) (lib : HvLib) (req : MessageHeader) :
    RepliesEcho req (remoteDispatchAuthList c lib req) := by
  unfold remoteDispatchAuthList
  try dsimp only
  repeat' split
  all_goals first
    | exact herrC_echo _ _ _ _ _
    | exact herr_echo _ _ _ _
    | exact hfail_echo _ _ _
    | exact hok_echo _ _ _ _
    | exact hlib_echo _ _ _
    | (intro r hr; exact absurd hr (List.not_mem_nil r))

/-- Every reply remoteDispatchAuthSaslInit writes echoes the call envelope. -/
theorem echoAuthSaslInit (c : Client) (lib : HvLib) (req : MessageHeader) :
    RepliesEcho req (remoteDispatchAuthSaslInit c lib req) := by
  unfold remoteDispatchAuthSaslInit
  try dsimp only
  repeat' split
  all_goals first
    | exact herrC_echo _ _ _ _ _
    | exact herr_echo _ _ _ _
    | exact hfail_echo _ _ _
    | exact hok_echo _ _ _ _
    | exact hlib_echo _ _ _
    | (intro r hr; exact absurd hr (List.not_mem_nil r))

/-- Every reply remoteDispatchAuthSaslStart writes echoes the call envelope. -/
theorem echoAuthSaslStart (c : Client) (lib : HvLib) (req : MessageHeader) (mech : String) (nil : Bool) (data : List Nat) :
    RepliesEcho req (remoteDispatchAuthSaslStart c lib req mech nil data) := by
  unfold remoteDispatchAuthSaslStart
  try dsimp only
  repeat' split
  all_goals first
    | exact herrC_echo _ _ _ _ _
    | exact herr_echo _ _ _ _
    | exact hfail_echo _ _ _
    | exact hok_echo _ _ _ _
    | exact hlib_echo _ _ _
    | (intro r hr; exact absurd hr (List.not_mem_nil r))

/-- Every reply remoteDispatchAuthSaslStep writes echoes the call envelope. -/
theorem echoAuthSaslStep (c : Client) (lib : HvLib) (req : MessageHeader) (nil : Bool) (data : List Nat) :
    RepliesEcho req (remoteDispatchAuthSaslStep c lib req nil data) := by
  unfold remoteDispatchAuthSaslStep
  try dsimp only
  repeat' split
  all_goals first
    | exact herrC_echo _ _ _ _ _
    | exact herr_echo _ _ _ _
    | exact hfail_echo _ _ _
    | exact hok_echo _ _ _ _
    | exact hlib_echo _ _ _
    | (intro r hr; exact absurd hr (List.not_mem_nil r))


/-- Every reply written by whichever handler the procedure switch selects
echoes the call envelope. -/
theorem runProc_echo (p : Nat) (c : Client) (lib : HvLib) (req : MessageHeader)
    (a : ArgsVal) (h : HOut) (hh : runProc p c lib req a = some h) :
    RepliesEcho req h := by
  unfold runProc at hh
  by_cases k1 : p = REMOTE_PROC_OPEN
  case pos =>
    rw [if_pos k1] at hh
    cases a <;>
      first
        | exact Option.noConfusion hh
        | (cases hh; apply echoOpen)
  rw [if_neg k1] at hh
  by_cases k2 : p = REMOTE_PROC_CLOSE
  case pos =>
    rw [if_pos k2] at hh
    cases a <;>
      first
        | exact Option.noConfusion hh
        | (cases hh; apply echoClose)
  rw [if_neg k2] at hh
  by_cases k3 : p = REMOTE_PROC_GET_TYPE
  case pos =>
    rw [if_pos k3] at hh
    cases a <;>
      first
        | exact Option.noConfusion hh
        | (cases hh; apply echoGetType)
  rw [if_neg k3] at hh
  by_cases k4 : p = REMOTE_PROC_GET_VERSION
  case pos =>
    rw [if_pos k4] at hh
    cases a <;>
      first
        | exact Option.noConfusion hh
        | (cases hh; apply echoGetVersion)
  rw [if_neg k4] at hh
  by_cases k5 : p = REMOTE_PROC_GET_MAX_VCPUS
  case pos =>
    rw [if_pos k5] at hh
    cases a <;>
      first
        | exact Option.noConfusion hh
        | (cases hh; apply echoGetMaxVcpus)
  rw [if_neg k5] at hh
  by_cases k6 : p = REMOTE_PROC_NODE_GET_INFO
  case pos =>
    rw [if_pos k6] at hh
    cases a <;>
      first
        | exact Option.noConfusion hh
        | (cases hh; apply echoNodeGetInfo)
  rw [if_neg k6] at hh
  by_cases k7 : p = REMOTE_PROC_GET_CAPABILITIES
  case pos =>
    rw [if_pos k7] at hh
    cases a <;>
      first
        | exact Option.noConfusion hh
        | (cases hh; apply echoGetCapabilities)
  rw [if_neg k7] at hh
  by_cases k8 : p = REMOTE_PROC_DOMAIN_ATTACH_DEVICE
  case pos =>
    rw [if_pos k8] at hh
    cases a <;>
      first
        | exact Option.noConfusion hh
        | (cases hh; apply echoDomainAttachDevice)
  rw [if_neg k8] at hh
  by_cases k9 : p = REMOTE_PROC_DOMAIN_CREATE
  case pos =>
    rw [if_pos k9] at hh
    cases a <;>
      first
        | exact Option.noConfusion hh
        | (cases hh; apply echoDomainCreate)
  rw [if_neg k9] at hh
  by_cases k10 : p = REMOTE_PROC_DOMAIN_CREATE_LINUX
  case pos =>
    rw [if_pos k10] at hh
    cases a <;>
      first
        | exact Option.noConfusion hh
        | (cases hh; apply echoDomainCreateLinux)
  rw [if_neg k10] at hh
  by_cases k11 : p = REMOTE_PROC_DOMAIN_DEFINE_XML
  case pos =>
    rw [if_pos k11] at hh
    cases a <;>
      first
        | exact Option.noConfusion hh
        | (cases hh; apply echoDomainDefineXml)
  rw [if_neg k11] at hh
  by_cases k12 : p = REMOTE_PROC_DOMAIN_DESTROY
  case pos =>
    rw [if_pos k12] at hh
    cases a <;>
      first
        | exact Option.noConfusion hh
        | (cases hh; apply echoDomainDestroy)
  rw [if_neg k12] at hh
  by_cases k13 : p = REMOTE_PROC_DOMAIN_DETACH_DEVICE
  case pos =>
    rw [if_pos k13] at hh
    cases a <;>
      first
        | exact Option.noConfusion hh
        | (cases hh; apply echoDomainDetachDevice)
  rw [if_neg k13] at hh
  by_cases k14 : p = REMOTE_PROC_DOMAIN_DUMP_XML
  case pos =>
    rw [if_pos k14] at hh
    cases a <;>
      first
        | exact Option.noConfusion hh
        | (cases hh; apply echoDomainDumpXml)
  rw [if_neg k14] at hh
  by_cases k15 : p = REMOTE_PROC_DOMAIN_GET_AUTOSTART
  case pos =>
    rw [if_pos k15] at hh
    cases a <;>
      first
        | exact Option.noConfusion hh
        | (cases hh; apply echoDomainGetAutostart)
  rw [if_neg k15] at hh
  by_cases k16 : p = REMOTE_PROC_DOMAIN_GET_INFO
  case pos =>
    rw [if_pos k16] at hh
    cases a <;>
      first
        | exact Option.noConfusion hh
        | (cases hh; apply echoDomainGetInfo)
  rw [if_neg k16] at hh
  by_cases k17 : p = REMOTE_PROC_DOMAIN_GET_MAX_MEMORY
  case pos =>
    rw [if_pos k17] at hh
    cases a <;>
      first
        | exact Option.noConfusion hh
        | (cases hh; apply echoDomainGetMaxMemory)
  rw [if_neg k17] at hh
  by_cases k18 : p = REMOTE_PROC_DOMAIN_GET_MAX_VCPUS
  case pos =>
    rw [if_pos k18] at hh
    cases a <;>
      first
        | exact Option.noConfusion hh
        | (cases hh; apply echoDomainGetMaxVcpus)
  rw [if_neg k18] at hh
  by_cases k19 : p = REMOTE_PROC_DOMAIN_GET_OS_TYPE
  case pos =>
    rw [if_pos k19] at hh
    cases a <;>
      first
        | exact Option.noConfusion hh
        | (cases hh; apply echoDomainGetOsType)
  rw [if_neg k19] at hh
  by_cases k20 : p = REMOTE_PROC_DOMAIN_GET_VCPUS
  case pos =>
    rw [if_pos k20] at hh
    cases a <;>
      first
        | exact Option.noConfusion hh
        | (cases hh; apply echoDomainGetVcpus)
  rw [if_neg k20] at hh
  by_cases k21 : p = REMOTE_PROC_DOMAIN_LOOKUP_BY_ID
  case pos =>
    rw [if_pos k21] at hh
    cases a <;>
      first
        | exact Option.noConfusion hh
        | (cases hh; apply echoDomainLookupById)
  rw [if_neg k21] at hh
  by_cases k22 : p = REMOTE_PROC_DOMAIN_LOOKUP_BY_NAME
  case pos =>
    rw [if_pos k22] at hh
    cases a <;>
      first
        | exact Option.noConfusion hh
        | (cases hh; apply echoDomainLookupByName)
  rw [if_neg k22] at hh
  by_cases k23 : p = REMOTE_PROC_DOMAIN_LOOKUP_BY_UUID
  case pos =>
    rw [if_pos k23] at hh
    cases a <;>
      first
        | exact Option.noConfusion hh
        | (cases hh; apply echoDomainLookupByUuid)
  rw [if_neg k23] at hh
  by_cases k24 : p = REMOTE_PROC_NUM_OF_DOMAINS
  case pos =>
    rw [if_pos k24] at hh
    cases a <;>
      first
        | exact Option.noConfusion hh
        | (cases hh; apply echoNumOfDomains)
  rw [if_neg k24] at hh
  by_cases k25 : p = REMOTE_PROC_DOMAIN_PIN_VCPU
  case pos =>
    rw [if_pos k25] at hh
    cases a <;>
      first
        | exact Option.noConfusion hh
        | (cases hh; apply echoDomainPinVcpu)
  rw [if_neg k25] at hh
  by_cases k26 : p = REMOTE_PROC_DOMAIN_REBOOT
  case pos =>
    rw [if_pos k26] at hh
    cases a <;>
      first
        | exact Option.noConfusion hh
        | (cases hh; apply echoDomainReboot)
  rw [if_neg k26] at hh
  by_cases k27 : p = REMOTE_PROC_DOMAIN_RESTORE
  case pos =>
    rw [if_pos k27] at hh
    cases a <;>
      first
        | exact Option.noConfusion hh
        | (cases hh; apply echoDomainRestore)
  rw [if_neg k27] at hh
  by_cases k28 : p = REMOTE_PROC_DOMAIN_RESUME
  case pos =>
    rw [if_pos k28] at hh
    cases a <;>
      first
        | exact Option.noConfusion hh
        | (cases hh; apply echoDomainResume)
  rw [if_neg k28] at hh
  by_cases k29 : p = REMOTE_PROC_DOMAIN_SAVE
  case pos =>
    rw [if_pos k29] at hh
    cases a <;>
      first
        | exact Option.noConfusion hh
        | (cases hh; apply echoDomainSave)
  rw [if_neg k29] at hh
  by_cases k30 : p = REMOTE_PROC_DOMAIN_CORE_DUMP
  case pos =>
    rw [if_pos k30] at hh
    cases a <;>
      first
        | exact Option.noConfusion hh
        | (cases hh; apply echoDomainCoreDump)
  rw [if_neg k30] at hh
  by_cases k31 : p = REMOTE_PROC_DOMAIN_SET_AUTOSTART
  case pos =>
    rw [if_pos k31] at hh
    cases a <;>
      first
        | exact Option.noConfusion hh
        | (cases hh; apply echoDomainSetAutostart)
  rw [if_neg k31] at hh
  by_cases k32 : p = REMOTE_PROC_DOMAIN_SET_MAX_MEMORY
  case pos =>
    rw [if_pos k32] at hh
    cases a <;>
      first
        | exact Option.noConfusion hh
        | (cases hh; apply echoDomainSetMaxMemory)
  rw [if_neg k32] at hh
  by_cases k33 : p = REMOTE_PROC_DOMAIN_SET_MEMORY
  case pos =>
    rw [if_pos k33] at hh
    cases a <;>
      first
        | exact Option.noConfusion hh
        | (cases hh; apply echoDomainSetMemory)
  rw [if_neg k33] at hh
  by_cases k34 : p = REMOTE_PROC_DOMAIN_SET_VCPUS
  case pos =>
    rw [if_pos k34] at hh
    cases a <;>
      first
        | exact Option.noConfusion hh
        | (cases hh; apply echoDomainSetVcpus)
  rw [if_neg k34] at hh
  by_cases k35 : p = REMOTE_PROC_DOMAIN_SHUTDOWN
  case pos =>
    rw [if_pos k35] at hh
    cases a <;>
      first
        | exact Option.noConfusion hh
        | (cases hh; apply echoDomainShutdown)
  rw [if_neg k35] at hh
  by_cases k36 : p = REMOTE_PROC_DOMAIN_SUSPEND
  case pos =>
    rw [if_pos k36] at hh
    cases a <;>
      first
        | exact Option.noConfusion hh
        | (cases hh; apply echoDomainSuspend)
  rw [if_neg k36] at hh
  by_cases k37 : p = REMOTE_PROC_DOMAIN_UNDEFINE
  case pos =>
    rw [if_pos k37] at hh
    cases a <;>
      first
        | exact Option.noConfusion hh
        | (cases hh; apply echoDomainUndefine)
  rw [if_neg k37] at hh
  by_cases k38 : p = REMOTE_PROC_LIST_DEFINED_DOMAINS
  case pos =>
    rw [if_pos k38] at hh
    cases a <;>
      first
        | exact Option.noConfusion hh
        | (cases hh; apply echoListDefinedDomains)
  rw [if_neg k38] at hh
  by_cases k39 : p = REMOTE_PROC_LIST_DOMAINS
  case pos =>
    rw [if_pos k39] at hh
    cases a <;>
      first
        | exact Option.noConfusion hh
        | (cases hh; apply echoListDomains)
  rw [if_neg k39] at hh
  by_cases k40 : p = REMOTE_PROC_LIST_NETWORKS
  case pos =>
    rw [if_pos k40] at hh
    cases a <;>
      first
        | exact Option.noConfusion hh
        | (cases hh; apply echoListNetworks)
  rw [if_neg k40] at hh
  by_cases k41 : p = REMOTE_PROC_LIST_DEFINED_NETWORKS
  case pos =>
    rw [if_pos k41] at hh
    cases a <;>
      first
        | exact Option.noConfusion hh
        | (cases hh; apply echoListDefinedNetworks)
  rw [if_neg k41] at hh
  by_cases k42 : p = REMOTE_PROC_NUM_OF_DEFINED_DOMAINS
  case pos =>
    rw [if_pos k42] at hh
    cases a <;>
      first
        | exact Option.noConfusion hh
        | (cases hh; apply echoNumOfDefinedDomains)
  rw [if_neg k42] at hh
  by_cases k43 : p = REMOTE_PROC_NETWORK_CREATE
  case pos =>
    rw [if_pos k43] at hh
    cases a <;>
      first
        | exact Option.noConfusion hh
        | (cases hh; apply echoNetworkCreate)
  rw [if_neg k43] at hh
  by_cases k44 : p = REMOTE_PROC_NETWORK_CREATE_XML
  case pos =>
    rw [if_pos k44] at hh
    cases a <;>
      first
        | exact Option.noConfusion hh
        | (cases hh; apply echoNetworkCreateXml)
  rw [if_neg k44] at hh
  by_cases k45 : p = REMOTE_PROC_NETWORK_DEFINE_XML
  case pos =>
    rw [if_pos k45] at hh
    cases a <;>
      first
        | exact Option.noConfusion hh
        | (cases hh; apply echoNetworkDefineXml)
  rw [if_neg k45] at hh
  by_cases k46 : p = REMOTE_PROC_NETWORK_DESTROY
  case pos =>
    rw [if_pos k46] at hh
    cases a <;>
      first
        | exact Option.noConfusion hh
        | (cases hh; apply echoNetworkDestroy)
  rw [if_neg k46] at hh
  by_cases k47 : p = REMOTE_PROC_NETWORK_DUMP_XML
  case pos =>
    rw [if_pos k47] at hh
    cases a <;>
      first
        | exact Option.noConfusion hh
        | (cases hh; apply echoNetworkDumpXml)
  rw [if_neg k47] at hh
  by_cases k48 : p = REMOTE_PROC_NETWORK_GET_AUTOSTART
  case pos =>
    rw [if_pos k48] at hh
    cases a <;>
      first
        | exact Option.noConfusion hh
        | (cases hh; apply echoNetworkGetAutostart)
  rw [if_neg k48] at hh
  by_cases k49 : p = REMOTE_PROC_NETWORK_GET_BRIDGE_NAME
  case pos =>
    rw [if_pos k49] at hh
    cases a <;>
      first
        | exact Option.noConfusion hh
        | (cases hh; apply echoNetworkGetBridgeName)
  rw [if_neg k49] at hh
  by_cases k50 : p = REMOTE_PROC_NETWORK_LOOKUP_BY_NAME
  case pos =>
    rw [if_pos k50] at hh
    cases a <;>
      first
        | exact Option.noConfusion hh
        | (cases hh; apply echoNetworkLookupByName)
  rw [if_neg k50] at hh
  by_cases k51 : p = REMOTE_PROC_NETWORK_LOOKUP_BY_UUID
  case pos =>
    rw [if_pos k51] at hh
    cases a <;>
      first
        | exact Option.noConfusion hh
        | (cases hh; apply echoNetworkLookupByUuid)
  rw [if_neg k51] at hh
  by_cases k52 : p = REMOTE_PROC_NETWORK_SET_AUTOSTART
  case pos =>
    rw [if_pos k52] at hh
    cases a <;>
      first
        | exact Option.noConfusion hh
        | (cases hh; apply echoNetworkSetAutostart)
  rw [if_neg k52] at hh
  by_cases k53 : p = REMOTE_PROC_NETWORK_UNDEFINE
  case pos =>
    rw [if_pos k53] at hh
    cases a <;>
      first
        | exact Option.noConfusion hh
        | (cases hh; apply echoNetworkUndefine)
  rw [if_neg k53] at hh
  by_cases k54 : p = REMOTE_PROC_NUM_OF_DEFINED_NETWORKS
  case pos =>
    rw [if_pos k54] at hh
    cases a <;>
      first
        | exact Option.noConfusion hh
        | (cases hh; apply echoNumOfDefinedNetworks)
  rw [if_neg k54] at hh
  by_cases k55 : p = REMOTE_PROC_NUM_OF_NETWORKS
  case pos =>
    rw [if_pos k55] at hh
    cases a <;>
      first
        | exact Option.noConfusion hh
        | (cases hh; apply echoNumOfNetworks)
  rw [if_neg k55] at hh
  by_cases k56 : p = REMOTE_PROC_DOMAIN_GET_SCHEDULER_TYPE
  case pos =>
    rw [if_pos k56] at hh
    cases a <;>
      first
        | exact Option.noConfusion hh
        | (cases hh; apply echoDomainGetSchedulerType)
  rw [if_neg k56] at hh
  by_cases k57 : p = REMOTE_PROC_DOMAIN_GET_SCHEDULER_PARAMETERS
  case pos =>
    rw [if_pos k57] at hh
    cases a <;>
      first
        | exact Option.noConfusion hh
        | (cases hh; apply echoDomainGetSchedulerParameters)
  rw [if_neg k57] at hh
  by_cases k58 : p = REMOTE_PROC_DOMAIN_SET_SCHEDULER_PARAMETERS
  case pos =>
    rw [if_pos k58] at hh
    cases a <;>
      first
        | exact Option.noConfusion hh
        | (cases hh; apply echoDomainSetSchedulerParameters)
  rw [if_neg k58] at hh
  by_cases k59 : p = REMOTE_PROC_GET_HOSTNAME
  case pos =>
    rw [if_pos k59] at hh
    cases a <;>
      first
        | exact Option.noConfusion hh
        | (cases hh; apply echoGetHostname)
  rw [if_neg k59] at hh
  by_cases k60 : p = REMOTE_PROC_SUPPORTS_FEATURE
  case pos =>
    rw [if_pos k60] at hh
    cases a <;>
      first
        | exact Option.noConfusion hh
        | (cases hh; apply echoSupportsFeature)
  rw [if_neg k60] at hh
  by_cases k61 : p = REMOTE_PROC_DOMAIN_MIGRATE_PREPARE
  case pos =>
    rw [if_pos k61] at hh
    cases a <;>
      first
        | exact Option.noConfusion hh
        | (cases hh; apply echoDomainMigratePrepare)
  rw [if_neg k61] at hh
  by_cases k62 : p = REMOTE_PROC_DOMAIN_MIGRATE_PERFORM
  case pos =>
    rw [if_pos k62] at hh
    cases a <;>
      first
        | exact Option.noConfusion hh
        | (cases hh; apply echoDomainMigratePerform)
  rw [if_neg k62] at hh
  by_cases k63 : p = REMOTE_PROC_DOMAIN_MIGRATE_FINISH
  case pos =>
    rw [if_pos k63] at hh
    cases a <;>
      first
        | exact Option.noConfusion hh
        | (cases hh; apply echoDomainMigrateFinish)
  rw [if_neg k63] at hh
  by_cases k64 : p = REMOTE_PROC_DOMAIN_BLOCK_STATS
  case pos =>
    rw [if_pos k64] at hh
    cases a <;>
      first
        | exact Option.noConfusion hh
        | (cases hh; apply echoDomainBlockStats)
  rw [if_neg k64] at hh
  by_cases k65 : p = REMOTE_PROC_DOMAIN_INTERFACE_STATS
  case pos =>
    rw [if_pos k65] at hh
    cases a <;>
      first
        | exact Option.noConfusion hh
        | (cases hh; apply echoDomainInterfaceStats)
  rw [if_neg k65] at hh
  by_cases k66 : p = REMOTE_PROC_AUTH_LIST
  case pos =>
    rw [if_pos k66] at hh
    cases a <;>
      first
        | exact Option.noConfusion hh
        | (cases hh; apply echoAuthList)
  rw [if_neg k66] at hh
  by_cases k67 : p = REMOTE_PROC_AUTH_SASL_INIT
  case pos =>
    rw [if_pos k67] at hh
    cases a <;>
      first
        | exact Option.noConfusion hh
        | (cases hh; apply echoAuthSaslInit)
  rw [if_neg k67] at hh
  by_cases k68 : p = REMOTE_PROC_AUTH_SASL_START
  case pos =>
    rw [if_pos k68] at hh
    cases a <;>
      first
        | exact Option.noConfusion hh
        | (cases hh; apply echoAuthSaslStart)
  rw [if_neg k68] at hh
  by_cases k69 : p = REMOTE_PROC_AUTH_SASL_STEP
  case pos =>
    rw [if_pos k69] at hh
    cases a <;>
      first
        | exact Option.noConfusion hh
        | (cases hh; apply echoAuthSaslStep)
  rw [if_neg k69] at hh
  exact Option.noConfusion hh

/-- A dispatch-level error reply echoes the parsed call envelope. -/
theorem errDispatch_echo (c : Client) (req : MessageHeader) (msg : String) :
    ∀ r ∈ (errDispatch c (some req) msg).replies, EchoHdr req r.hdr := by
  intro r hr
  simp only [errDispatch] at hr
  rw [List.mem_singleton] at hr
  subst hr
  exact echoHdr_replyHeader req REMOTE_ERROR

/-- C2: for every call whose envelope decodes, every reply the dispatcher
emits — handler-written dispatch errors, envelope-validation errors such as
a program mismatch, library-error replies and success replies alike —
carries the call's program, version, procedure and serial unchanged, with
direction REPLY. -/
theorem reply_envelope_echoes_call (c : Client) (lib : HvLib)
    (req : MessageHeader) (body : Option ArgsVal) :
    ∀ r ∈ (remoteDispatchClientRequest c lib (some req) body).replies,
      EchoHdr req r.hdr := by
  simp only [remoteDispatchClientRequest]
  by_cases hp : req.prog ≠ REMOTE_PROGRAM
  case pos => rw [if_pos hp]; exact errDispatch_echo _ _ _
  rw [if_neg hp]
  by_cases hv : req.vers ≠ REMOTE_PROTOCOL_VERSION
  case pos => rw [if_pos hv]; exact errDispatch_echo _ _ _
  rw [if_neg hv]
  by_cases hd : req.direction ≠ REMOTE_CALL
  case pos => rw [if_pos hd]; exact errDispatch_echo _ _ _
  rw [if_neg hd]
  by_cases hs : req.status ≠ REMOTE_OK
  case pos => rw [if_pos hs]; exact errDispatch_echo _ _ _
  rw [if_neg hs]
  by_cases hg : c.auth ≠ REMOTE_AUTH_NONE ∧ req.proc ≠ REMOTE_PROC_AUTH_LIST ∧
      req.proc ≠ REMOTE_PROC_AUTH_SASL_INIT ∧
      req.proc ≠ REMOTE_PROC_AUTH_SASL_START ∧
      req.proc ≠ REMOTE_PROC_AUTH_SASL_STEP
  case pos => rw [if_pos hg]; exact errDispatch_echo _ _ _
  rw [if_neg hg]
  by_cases hk : (!knownProc req.proc) = true
  case pos => rw [if_pos hk]; exact errDispatch_echo _ _ _
  rw [if_neg hk]
  cases body with
  | none =>
    simp only [Option.none_bind]
    exact errDispatch_echo _ _ _
  | some a =>
    simp only [Option.some_bind]
    cases hra : runProc req.proc c lib req a with
    | none => exact errDispatch_echo _ _ _
    | some h =>
      have hecho : RepliesEcho req h := runProc_echo req.proc c lib req a h hra
      dsimp only
      by_cases h1 : h.rv < -2 ∨ h.rv > 0
      case pos =>
        rw [if_pos h1]
        intro r hr
        rcases List.mem_append.mp hr with hL | hR
        · exact hecho r hL
        · rw [List.mem_singleton] at hR
          subst hR
          exact echoHdr_replyHeader req REMOTE_ERROR
      rw [if_neg h1]
      by_cases h2 : h.rv = -2
      case pos =>
        rw [if_pos h2]
        exact hecho
      rw [if_neg h2]
      by_cases h3 : h.rv = 0
      case pos =>
        rw [if_pos h3]
        intro r hr
        rcases List.mem_append.mp hr with hL | hR
        · exact hecho r hL
        · rw [List.mem_singleton] at hR
          subst hR
          exact echoHdr_replyHeader req REMOTE_OK
      rw [if_neg h3]
      intro r hr
      rcases List.mem_append.mp hr with hL | hR
      · exact hecho r hL
      · rw [List.mem_singleton] at hR
        subst hR
        exact echoHdr_replyHeader req REMOTE_ERROR

/-- Witness for the reply echo: the error reply to a program-mismatch call
carries that call's envelope fields. -/
theorem reply_envelope_echoes_call_witness :
    EchoHdr reqBad
      (remoteDispatchErrorMsg (some reqBad)
        "program mismatch (actual %x, expected %x)").hdr :=
  reply_envelope_echoes_call cNew libEx reqBad none
    (remoteDispatchErrorMsg (some reqBad)
      "program mismatch (actual %x, expected %x)") (by decide)


/-! ## C6: the hypervisor-connection slot discipline -/

/-- One step changes the slot occupancy exactly as its outcome says. -/
theorem ocStep_conn (c : Client) (op : OCOp) :
    (ocStep c op).1.conn.isSome = ocg c.conn.isSome (ocStep c op).2 := by
  cases op with
  | openOp req name flags lib =>
    cases hc : c.conn with
    | some h0 =>
      simp [ocStep, remoteDispatchOpen, hc, herr, herrC, ocg]
    | none =>
      simp only [ocStep, remoteDispatchOpen, hc]
      try dsimp only
      repeat' split
      all_goals simp_all [hok, hlib, ocg]
  | closeOp req lib =>
    cases hc : c.conn with
    | none =>
      simp [ocStep, remoteDispatchClose, hc, herr, herrC, ocg]
    | some h0 =>
      simp only [ocStep, remoteDispatchClose, hc]
      try dsimp only
      by_cases hrv : lib.connectClose h0 = 0
      · simp [hrv, ocg]
      · simp [hrv, ocg, hc]

/-- Slot occupancy after a request sequence is the fold of the outcome
effects. -/
theorem ocRun_conn (ops : List OCOp) :
    ∀ c : Client, (ocRun c ops).1.conn.isSome =
      List.foldl ocg c.conn.isSome (ocRun c ops).2 := by
  induction ops with
  | nil => intro c; rfl
  | cons op rest ih =>
    intro c
    dsimp only [ocRun]
    rw [List.foldl_cons, ← ocStep_conn c op]
    exact ih (ocStep c op).1

/-- A decomposition around a successful OPEN ignores a non-openOK head. -/
theorem split_cons_ne (o : OCOutcome) (rest : List OCOutcome)
    (ho : o ≠ OCOutcome.openOK) :
    (∃ l1 l2, o :: rest = l1 ++ OCOutcome.openOK :: l2 ∧ OCOutcome.closeOK ∉ l2) ↔
    (∃ l1 l2, rest = l1 ++ OCOutcome.openOK :: l2 ∧ OCOutcome.closeOK ∉ l2) := by
  constructor
  · rintro ⟨l1, l2, heq, hni⟩
    cases l1 with
    | nil =>
      simp only [List.nil_append, List.cons.injEq] at heq
      exact absurd heq.1 ho
    | cons a l1t =>
      simp only [List.cons_append, List.cons.injEq] at heq
      exact ⟨l1t, l2, heq.2, hni⟩
  · rintro ⟨l1, l2, heq, hni⟩
    exact ⟨o :: l1, l2, by rw [heq, List.cons_append], hni⟩

/-- Decomposition around a successful OPEN at the head. -/
theorem split_cons_openOK (rest : List OCOutcome) :
    (∃ l1 l2, OCOutcome.openOK :: rest = l1 ++ OCOutcome.openOK :: l2 ∧
      OCOutcome.closeOK ∉ l2) ↔
    (OCOutcome.closeOK ∉ rest ∨
     ∃ l1 l2, rest = l1 ++ OCOutcome.openOK :: l2 ∧ OCOutcome.closeOK ∉ l2) := by
  constructor
  · rintro ⟨l1, l2, heq, hni⟩
    cases l1 with
    | nil =>
      simp only [List.nil_append, List.cons.injEq] at heq
      exact Or.inl (heq.2 ▸ hni)
    | cons a l1t =>
      simp only [List.cons_append, List.cons.injEq] at heq
      exact Or.inr ⟨l1t, l2, heq.2, hni⟩
  · rintro (hni | ⟨l1, l2, heq, hni⟩)
    · exact ⟨[], rest, rfl, hni⟩
    · exact ⟨OCOutcome.openOK :: l1, l2, by rw [heq, List.cons_append], hni⟩

/-- The folded occupancy is true exactly when some successful OPEN is not
followed by a successful CLOSE (or the slot started occupied and no CLOSE
succeeded). -/
theorem foldl_ocg_iff (outs : List OCOutcome) :
    ∀ b : Bool, List.foldl ocg b outs = true ↔
      ((∃ l1 l2, outs = l1 ++ OCOutcome.openOK :: l2 ∧ OCOutcome.closeOK ∉ l2) ∨
       (b = true ∧ OCOutcome.closeOK ∉ outs)) := by
  induction outs with
  | nil =>
    intro b
    constructor
    · intro hb
      exact Or.inr ⟨hb, List.not_mem_nil _⟩
    · rintro (⟨l1, l2, heq, _⟩ | ⟨hb, _⟩)
      · cases l1 <;> simp at heq
      · exact hb
  | cons o rest ih =>
    intro b
    rw [List.foldl_cons, ih (ocg b o)]
    cases o with
    | openOK =>
      rw [split_cons_openOK]
      constructor
      · rintro (hs | ⟨_, hni⟩)
        · exact Or.inl (Or.inr hs)
        · exact Or.inl (Or.inl hni)
      · rintro ((hni | hs) | ⟨hb, hni⟩)
        · exact Or.inr ⟨rfl, hni⟩
        · exact Or.inl hs
        · exact Or.inr ⟨rfl, fun hm => hni (List.mem_cons_of_mem _ hm)⟩
    | closeOK =>
      rw [split_cons_ne _ _ (by decide)]
      constructor
      · rintro (hs | ⟨hb, _⟩)
        · exact Or.inl hs
        · simp [ocg] at hb
      · rintro (hs | ⟨_, hni⟩)
        · exact Or.inl hs
        · exact absurd (List.mem_cons_self _ _) hni
    | openLibFail =>
      rw [split_cons_ne _ _ (by decide)]
      constructor
      · rintro (hs | ⟨hb, hni⟩)
        · exact Or.inl hs
        · exact Or.inr ⟨hb, by simp [hni]⟩
      · rintro (hs | ⟨hb, hni⟩)
        · exact Or.inl hs
        · exact Or.inr ⟨hb, fun hm => hni (List.mem_cons_of_mem _ hm)⟩
    | alreadyOpen =>
      rw [split_cons_ne _ _ (by decide)]
      constructor
      · rintro (hs | ⟨hb, hni⟩)
        · exact Or.inl hs
        · exact Or.inr ⟨hb, by simp [hni]⟩
      · rintro (hs | ⟨hb, hni⟩)
        · exact Or.inl hs
        · exact Or.inr ⟨hb, fun hm => hni (List.mem_cons_of_mem _ hm)⟩
    | closeFail =>
      rw [split_cons_ne _ _ (by decide)]
      constructor
      · rintro (hs | ⟨hb, hni⟩)
        · exact Or.inl hs
        · exact Or.inr ⟨hb, by simp [hni]⟩
      · rintro (hs | ⟨hb, hni⟩)
        · exact Or.inl hs
        · exact Or.inr ⟨hb, fun hm => hni (List.mem_cons_of_mem _ hm)⟩
    | notOpen =>
      rw [split_cons_ne _ _ (by decide)]
      constructor
      · rintro (hs | ⟨hb, hni⟩)
        · exact Or.inl hs
        · exact Or.inr ⟨hb, by simp [hni]⟩
      · rintro (hs | ⟨hb, hni⟩)
        · exact Or.inl hs
        · exact Or.inr ⟨hb, fun hm => hni (List.mem_cons_of_mem _ hm)⟩

/-- C6: the hypervisor-connection slot is non-null iff an OPEN has
succeeded and no CLOSE has succeeded since: OPEN on an occupied slot is the
connection-already-open dispatch error leaving the slot unchanged, CLOSE
clears the slot exactly when the library close returns success, and over
any sequence of OPEN/CLOSE requests on a fresh session the slot is occupied
iff some request got the OPEN-success reply and no later request got the
CLOSE-success reply. -/
theorem conn_slot_open_close_discipline :
    (∀ (c : Client) (lib : HvLib) (req : MessageHeader) (name : Option String)
        (flags : Nat) (h0 : Nat), c.conn = some h0 →
      (remoteDispatchOpen c lib req name flags).rv = -2 ∧
      (remoteDispatchOpen c lib req name flags).client.conn = some h0 ∧
      (remoteDispatchOpen c lib req name flags).replies =
        [remoteDispatchErrorMsg (some req) "connection already open"]) ∧
    (∀ (c : Client) (lib : HvLib) (req : MessageHeader) (h0 : Nat), c.conn = some h0 →
      ((remoteDispatchClose c lib req).client.conn = none ↔ lib.connectClose h0 = 0) ∧
      (lib.connectClose h0 ≠ 0 →
        (remoteDispatchClose c lib req).client.conn = some h0)) ∧
    (∀ (c : Client) (ops : List OCOp), c.conn = none →
      ((ocRun c ops).1.conn.isSome = true ↔
        ∃ l1 l2, (ocRun c ops).2 = l1 ++ OCOutcome.openOK :: l2 ∧
          OCOutcome.closeOK ∉ l2)) := by
  refine ⟨?_, ?_, ?_⟩
  · intro c lib req name flags h0 hc
    simp [remoteDispatchOpen, hc, herr, herrC, remoteDispatchErrorMsg]
  · intro c lib req h0 hc
    simp only [remoteDispatchClose, hc]
    try dsimp only
    by_cases hrv : lib.connectClose h0 = 0
    · simp [hrv]
    · simp [hrv, hc]
  · intro c ops hc
    rw [ocRun_conn ops c, foldl_ocg_iff]
    rw [hc]
    simp

/-- Witness for the slot discipline: an occupied session refusing OPEN,
a successful CLOSE clearing the slot, and a one-request trace. -/
theorem conn_slot_open_close_discipline_witness :
    ((remoteDispatchOpen cOpenEx libEx reqEx none 0).rv = -2 ∧
     (remoteDispatchOpen cOpenEx libEx reqEx none 0).client.conn = some 7 ∧
     (remoteDispatchOpen cOpenEx libEx reqEx none 0).replies =
       [remoteDispatchErrorMsg (some reqEx) "connection already open"]) ∧
    (((remoteDispatchClose cOpenEx libEx reqEx).client.conn = none ↔
       libEx.connectClose 7 = 0) ∧
     (libEx.connectClose 7 ≠ 0 →
       (remoteDispatchClose cOpenEx libEx reqEx).client.conn = some 7)) ∧
    ((ocRun cNew [OCOp.openOp reqEx none 0 libEx]).1.conn.isSome = true ↔
      ∃ l1 l2, (ocRun cNew [OCOp.openOp reqEx none 0 libEx]).2 =
        l1 ++ OCOutcome.openOK :: l2 ∧ OCOutcome.closeOK ∉ l2) :=
  ⟨conn_slot_open_close_discipline.1 cOpenEx libEx reqEx none 0 7 rfl,
   conn_slot_open_close_discipline.2.1 cOpenEx libEx reqEx 7 rfl,
   conn_slot_open_close_discipline.2.2 cNew [OCOp.openOp reqEx none 0 libEx] rfl⟩
